import Mathlib

/-!
# ACPU clock driver for MSM7x30 (`arch/arm/mach-msm/acpuclock-7x30.c`)

A shallow embedding of the frequency/voltage switching code of the driver:
the operating-point table, the mux switch `acpuclk_set_src`, the PLL2
reprogramming `acpuclk_config_pll2`, the regulator write
`acpuclk_set_acpu_vdd` and the orchestrator `acpuclk_set_rate`.

Conventions.
* C pointers into `acpu_freq_tbl` are indices into the table (a `Nat`);
  a NULL pointer is `none`.  Dereferencing NULL or reading past the end of the
  table makes the embedded function return `none`.
* `unsigned int` values are `Nat`; where the C code can wrap, the embedding
  reduces modulo `2^32` explicitly.  `int` values are `Int`.
* The collaborators that are not part of this file (`msm_spm_set_vdd`,
  `clk_set_min_rate`, `local_src_enable`, `local_src_disable`) are recorded in
  a trace of operations; the results of the two fallible ones are supplied by
  an environment.
* The mutex and the delays (`udelay`, barriers) are not modelled.
-/

namespace Acpuclock

/-! ## Constants and macros (lines 50-61) -/

/-- Macro `VREF_SEL`, line 50. -/
def VREF_SEL : Nat := 1

/-- Macro `V_STEP`, line 51: minimum voltage step size. -/
def V_STEP : Nat := 25 * (2 - VREF_SEL)

/-- Macro `VREG_CONFIG`, line 53: `BIT(7) | BIT(6)`. -/
def VREG_CONFIG : Nat := (1 <<< 7) ||| (1 <<< 6)

/-- Macro `VREG_DATA`, line 52. -/
def VREG_DATA : Nat := VREG_CONFIG ||| (VREF_SEL <<< 5)

/-- The divisor `!((mv) % V_STEP)` of the macro `MV`, line 55. -/
def MV_divisor (mv : Nat) : Nat := if mv % V_STEP = 0 then 1 else 0

/-- Macro `MV(mv)`, line 55.  When the divisor is zero the C expression is undefined
(a compile error for a constant); here it evaluates to `0`. -/
def MV (mv : Nat) : Nat := mv / MV_divisor mv

/-- Macro `VDD_RAW(mv)`, line 57, in 32-bit unsigned arithmetic: the subtraction of
30 wraps modulo `2^32`. -/
def VDD_RAW (mv : Nat) : Nat := ((MV mv / V_STEP + 2 ^ 32 - 30) % 2 ^ 32) ||| VREG_DATA

/-- Macro `MAX_AXI_KHZ`, line 59. -/
def MAX_AXI_KHZ : Nat := 192000

/-- Macro `UINT_MAX` for a 32-bit `unsigned int`. -/
def UINT_MAX : Nat := 4294967295

/-- Macro `EINVAL` of `<linux/errno.h>`. -/
def EINVAL : Int := 22

/-- Macro `SRC_LPXO`, line 112. -/
def SRC_LPXO : Int := -2

/-- Macro `SRC_AXI`, line 113. -/
def SRC_AXI : Int := -1

/-- Modelled from the spec: the source identifier of oscillator A; the enum of
`clock-7x30.h` that numbers the PLLs is not part of the source file.  Sources
with an enable/disable lifecycle are non-negative and pairwise distinct. -/
def PLL_1 : Int := 1

/-- Modelled from the spec: the source identifier of the reconfigurable
oscillator (see `PLL_1`). -/
def PLL_2 : Int := 2

/-- Modelled from the spec: the source identifier of oscillator B (see
`PLL_1`). -/
def PLL_3 : Int := 3

/-- Modelled from the spec: the three call reasons of `acpuclock.h`
(Scaling, IdleShortSleep, IdlePowerCollapse). -/
inductive setrate_reason where
  | SETRATE_CPUFREQ
  | SETRATE_SWFI
  | SETRATE_PC
deriving DecidableEq, Repr

/-! ## Data model (lines 63-152) -/

/-- Structure `struct pll`, lines 71-76. -/
structure pll where
  l : Nat
  m : Nat
  n : Nat
  pre_div : Nat
deriving DecidableEq, Repr

/-- Structure `struct clkctl_acpu_speed`, lines 78-89.  `pll_rate` points into the
constant `pll2_tbl` and is kept by value; a NULL `pll_rate` is `none`. -/
structure clkctl_acpu_speed where
  use_for_scaling : Nat
  acpu_clk_khz : Nat
  src : Int
  acpu_src_sel : Nat
  acpu_src_div : Nat
  axi_clk_hz : Nat
  vdd_mv : Nat
  vdd_raw : Nat
  pll_rate : Option pll
  lpj : Nat
deriving DecidableEq, Repr

/-- Table `pll2_tbl`, lines 96-109. -/
def pll2_tbl : List pll :=
  [ ⟨42, 0, 1, 0⟩, ⟨48, 1, 3, 0⟩, ⟨53, 1, 3, 0⟩, ⟨58, 1, 3, 0⟩,
    ⟨63, 1, 3, 0⟩, ⟨68, 1, 3, 0⟩, ⟨73, 1, 3, 0⟩, ⟨78, 1, 3, 0⟩,
    ⟨83, 1, 3, 0⟩, ⟨88, 1, 3, 0⟩, ⟨93, 1, 3, 0⟩, ⟨98, 1, 3, 0⟩ ]

/-- The all-zero entry `{ 0 }` that terminates `acpu_freq_tbl`, line 151. -/
def sentinel : clkctl_acpu_speed := ⟨0, 0, 0, 0, 0, 0, 0, 0, none, 0⟩

/-- Table `acpu_freq_tbl`, lines 127-152, as initialised statically (the `lpj` field
is zero until `lpj_init` runs). -/
def acpu_freq_tbl : List clkctl_acpu_speed :=
  [ ⟨0, 24576, SRC_LPXO, 0, 0, 30720000, 900, VDD_RAW 900, none, 0⟩,
    ⟨0, 61440, PLL_3, 5, 11, 61440000, 900, VDD_RAW 900, none, 0⟩,
    ⟨1, 122880, PLL_3, 5, 5, 61440000, 900, VDD_RAW 900, none, 0⟩,
    ⟨1, 184320, PLL_3, 5, 4, 61440000, 900, VDD_RAW 900, none, 0⟩,
    ⟨0, MAX_AXI_KHZ, SRC_AXI, 1, 0, 61440000, 900, VDD_RAW 900, none, 0⟩,
    ⟨1, 245760, PLL_3, 5, 2, 61440000, 900, VDD_RAW 900, none, 0⟩,
    ⟨1, 368640, PLL_3, 5, 1, 122800000, 900, VDD_RAW 900, none, 0⟩,
    ⟨1, 460800, PLL_1, 2, 0, 153600000, 900, VDD_RAW 900, none, 0⟩,
    ⟨1, 576000, PLL_1, 2, 0, 153600000, 950, VDD_RAW 950, none, 0⟩,
    ⟨1, 652800, PLL_1, 2, 0, 153600000, 950, VDD_RAW 950, none, 0⟩,
    ⟨1, 768000, PLL_1, 2, 0, 153600000, 950, VDD_RAW 950, none, 0⟩,
    ⟨1, 806400, PLL_2, 3, 0, UINT_MAX, 1000, VDD_RAW 1000, some ⟨42, 0, 1, 0⟩, 0⟩,
    ⟨1, 921600, PLL_2, 3, 0, UINT_MAX, 1000, VDD_RAW 1000, some ⟨48, 1, 3, 0⟩, 0⟩,
    ⟨1, 1024000, PLL_2, 3, 0, UINT_MAX, 1000, VDD_RAW 1000, some ⟨53, 1, 3, 0⟩, 0⟩,
    ⟨1, 1113000, PLL_2, 3, 0, UINT_MAX, 1050, VDD_RAW 1050, some ⟨58, 1, 3, 0⟩, 0⟩,
    ⟨1, 1209600, PLL_2, 3, 0, UINT_MAX, 1100, VDD_RAW 1100, some ⟨63, 1, 3, 0⟩, 0⟩,
    ⟨1, 1305600, PLL_2, 3, 0, UINT_MAX, 1150, VDD_RAW 1150, some ⟨68, 1, 3, 0⟩, 0⟩,
    ⟨1, 1401600, PLL_2, 3, 0, UINT_MAX, 1200, VDD_RAW 1200, some ⟨73, 1, 3, 0⟩, 0⟩,
    ⟨1, 1516800, PLL_2, 3, 0, UINT_MAX, 1250, VDD_RAW 1250, some ⟨78, 1, 3, 0⟩, 0⟩,
    ⟨1, 1612800, PLL_2, 3, 0, UINT_MAX, 1350, VDD_RAW 1350, some ⟨83, 1, 3, 0⟩, 0⟩,
    ⟨1, 1708800, PLL_2, 3, 0, UINT_MAX, 1400, VDD_RAW 1400, some ⟨88, 1, 3, 0⟩, 0⟩,
    ⟨1, 1804800, PLL_2, 3, 0, UINT_MAX, 1450, VDD_RAW 1450, some ⟨93, 1, 3, 0⟩, 0⟩,
    ⟨0, 1900800, PLL_2, 3, 0, UINT_MAX, 1550, VDD_RAW 1550, some ⟨98, 1, 3, 0⟩, 0⟩,
    sentinel ]

/-! ## Driver state, collaborators and the operation trace -/

/-- Structure `struct clock_state`, lines 63-69, without the mutex and the `ebi1_clk`
handle.  `current_speed` is the index of the active entry in `acpu_freq_tbl`,
`none` for the NULL pointer of the zero-initialised `drv_state` (line 91). -/
structure clock_state where
  current_speed : Option Nat
  acpu_switch_time_us : Nat
  vdd_switch_time_us : Nat
deriving DecidableEq, Repr

/-- One entry of the operation trace: a call that reaches the hardware or a
collaborator, with the argument it was given (pointers by value) and, for the
two fallible collaborators, the result they returned. -/
inductive Op where
  /-- Call `acpuclk_set_acpu_vdd(s)`: `msm_spm_set_vdd(0, s->vdd_raw)` returned `ret`. -/
  | set_acpu_vdd (s : clkctl_acpu_speed) (ret : Int)
  /-- Call `clk_set_min_rate(drv_state.ebi1_clk, rate)` returned `ret`. -/
  | clk_set_min_rate (rate : Nat) (ret : Int)
  /-- Call `acpuclk_config_pll2(p)`. -/
  | config_pll2 (p : pll)
  /-- Call `local_src_enable(src)`. -/
  | local_src_enable (src : Int)
  /-- Call `local_src_disable(src)`. -/
  | local_src_disable (src : Int)
  /-- Call `acpuclk_set_src(s)`. -/
  | set_src (s : clkctl_acpu_speed)
deriving DecidableEq, Repr

/-- The results of the fallible collaborators, as functions of the argument of
the call: `msm_spm_set_vdd(0, vlevel)` and `clk_set_min_rate(ebi1_clk, rate)`.
Within one call of `acpuclk_set_rate` each is called at most once. -/
structure Env where
  msm_spm_set_vdd : Nat → Int
  clk_set_min_rate : Nat → Int

/-- The mutable state the driver works on: its globals (`acpu_freq_tbl`,
`drv_state`, `backup_s`, `loops_per_jiffy`), the memory-mapped registers it
reads and writes, the state of the two collaborators (the raw code held by the
regulator and the minimum bus rate voted for) and the trace of operations
performed so far. -/
structure Machine where
  acpu_freq_tbl : List clkctl_acpu_speed
  drv_state : clock_state
  backup_s : Option Nat
  loops_per_jiffy : Nat
  SCSS_CLK_CTL : Nat
  SCSS_CLK_SEL : Nat
  PLL2_L_VAL : Nat
  PLL2_M_VAL : Nat
  PLL2_N_VAL : Nat
  PLL2_CONFIG : Nat
  vdd_level : Nat
  axi_min_rate : Nat
  trace : List Op
deriving DecidableEq, Repr

/-- Dereference a pointer into the table: `none` for NULL or out of bounds. -/
def deref (tbl : List clkctl_acpu_speed) (p : Option Nat) : Option clkctl_acpu_speed :=
  match p with
  | none => none
  | some i => tbl[i]?

/-! ## Collaborators -/

/-- Modelled from the spec: `local_src_enable` of `clock-local.c` is a
reference-counted enable of a clock source; the call is recorded in the
trace. -/
def local_src_enable (src : Int) (m : Machine) : Machine :=
  { m with trace := m.trace ++ [Op.local_src_enable src] }

/-- Modelled from the spec: `local_src_disable` of `clock-local.c` is a
reference-counted disable of a clock source; the call is recorded in the
trace. -/
def local_src_disable (src : Int) (m : Machine) : Machine :=
  { m with trace := m.trace ++ [Op.local_src_disable src] }

/-- Modelled from the spec: the reference count of a source after the
operations `ops`, relative to its count before them: the number of enables
minus the number of disables of that source. -/
def src_refs (ops : List Op) (src : Int) : Int :=
  ((ops.filter (fun o => decide (o = Op.local_src_enable src))).length : Int)
    - ((ops.filter (fun o => decide (o = Op.local_src_disable src))).length : Int)

/-- Modelled from the spec: `clk_set_min_rate(drv_state.ebi1_clk, rate)`, the
bus-frequency vote interface.  The call returns the result given by the
environment; the vote becomes `rate` when the call returns 0 and is left as it
was on any other result. -/
def clk_set_min_rate (env : Env) (rate : Nat) (m : Machine) : Int × Machine :=
  let ret := env.clk_set_min_rate rate
  (ret, { m with
    axi_min_rate := if ret = 0 then rate else m.axi_min_rate,
    trace := m.trace ++ [Op.clk_set_min_rate rate ret] })

/-! ## Driver functions -/

/-- Function `acpuclk_set_acpu_vdd`, lines 171-180.  `msm_spm_set_vdd(0, s->vdd_raw)`
returns the result given by the environment; the regulator (modelled from the
spec: the voltage-regulator interface `set_level(raw_code)`) holds the raw code
`s->vdd_raw` when the call returns 0 and is left as it was on any other
result.  The function returns `ret` when it is nonzero and 0 otherwise. -/
def acpuclk_set_acpu_vdd (env : Env) (s : clkctl_acpu_speed) (m : Machine) : Int × Machine :=
  let ret := env.msm_spm_set_vdd s.vdd_raw
  let m1 : Machine := { m with
    vdd_level := if ret = 0 then s.vdd_raw else m.vdd_level,
    trace := m.trace ++ [Op.set_acpu_vdd s ret] }
  if ret ≠ 0 then (ret, m1) else (0, m1)

/-- Function `acpuclk_config_pll2`, lines 183-200. -/
def acpuclk_config_pll2 (p : pll) (m : Machine) : Machine :=
  let config := m.PLL2_CONFIG
  let config :=
    if p.pre_div ≠ 0 then config ||| (1 <<< 15)
    else config &&& (0xFFFFFFFF ^^^ (1 <<< 15))
  { m with
    PLL2_L_VAL := p.l, PLL2_M_VAL := p.m, PLL2_N_VAL := p.n, PLL2_CONFIG := config,
    trace := m.trace ++ [Op.config_pll2 p] }

/-- The register computation of `acpuclk_set_src`, lines 207-223, on 32-bit
registers: from the values read from `SCSS_CLK_CTL` and `SCSS_CLK_SEL` to the
values written back to them, in this order. -/
def set_src_regs (s : clkctl_acpu_speed) (clkctl clksel : Nat) : Nat × Nat :=
  let reg_clksel := clksel
  let src_sel := reg_clksel &&& 1
  let reg_clkctl := clkctl
  let reg_clkctl := reg_clkctl &&& (0xFFFFFFFF ^^^ (0xFF <<< (8 * src_sel)))
  let reg_clkctl := reg_clkctl ||| ((s.acpu_src_sel <<< (4 + 8 * src_sel)) % 2 ^ 32)
  let reg_clkctl := reg_clkctl ||| ((s.acpu_src_div <<< (0 + 8 * src_sel)) % 2 ^ 32)
  let reg_clksel := reg_clksel ^^^ 1
  (reg_clkctl, reg_clksel)

/-- Function `acpuclk_set_src`, lines 203-227: the two registers are read,
recomputed by `set_src_regs` and written back. -/
def acpuclk_set_src (s : clkctl_acpu_speed) (m : Machine) : Machine :=
  { m with
    SCSS_CLK_CTL := (set_src_regs s m.SCSS_CLK_CTL m.SCSS_CLK_SEL).1,
    SCSS_CLK_SEL := (set_src_regs s m.SCSS_CLK_CTL m.SCSS_CLK_SEL).2,
    trace := m.trace ++ [Op.set_src s] }

/-- The assignments of lines 298-299 in `acpuclk_set_rate`:
`drv_state.current_speed = tgt_s; loops_per_jiffy = tgt_s->lpj;`, with `tgt_s`
as the index `ti`. -/
def set_current_speed (ti : Nat) (lpj : Nat) (m : Machine) : Machine :=
  { m with
    drv_state := { m.drv_state with current_speed := some ti },
    loops_per_jiffy := lpj }

/-- The selector of the live half of the raw clock source mux, decoded as
`acpuclk_init` does (lines 385-386). -/
def live_sel (m : Machine) : Nat :=
  let src_num := m.SCSS_CLK_SEL &&& 0x1
  (m.SCSS_CLK_CTL >>> (12 - 8 * src_num)) &&& 0x7

/-- The divider of the live half of the raw clock source mux, decoded as
`acpuclk_init` does (lines 385 and 387). -/
def live_div (m : Machine) : Nat :=
  let src_num := m.SCSS_CLK_SEL &&& 0x1
  (m.SCSS_CLK_CTL >>> (8 - 8 * src_num)) &&& 0xF

/-- The scan of lines 242-245: the index at which
`for (tgt_s = acpu_freq_tbl; tgt_s->acpu_clk_khz != 0; tgt_s++)` stops, either
at the first entry with the requested rate or at the sentinel.  Running past
the end of a table without sentinel gives `none`. -/
def scan_rate (rate : Nat) : List clkctl_acpu_speed → Nat → Option Nat
  | [], _ => none
  | s :: rest, i =>
    if s.acpu_clk_khz ≠ 0 then
      if s.acpu_clk_khz = rate then some i else scan_rate rate rest (i + 1)
    else some i

/-- Function `acpuclk_set_rate`, lines 278-302: the clock switch, reached once
no raise step has aborted the call.  `ti` is `tgt_s` as an index.  The result
is `none` when `backup_s` or the `pll_rate` of a PLL_2 target is NULL. -/
def acpuclk_set_rate_switch (m : Machine) (strt_s tgt_s : clkctl_acpu_speed) (ti : Nat) :
    Option Machine := do
  -- Move off of PLL2 if we're reprogramming it
  let m ←
    if tgt_s.src = PLL_2 ∧ strt_s.src = PLL_2 then
      match deref m.acpu_freq_tbl m.backup_s with
      | none => none
      | some backup =>
        some (local_src_disable PLL_2 (acpuclk_set_src backup (local_src_enable backup.src m)))
    else some m
  -- Reconfigure PLL2 if we're moving to it
  let m ←
    if tgt_s.src = PLL_2 then
      match tgt_s.pll_rate with
      | none => none
      | some p => some (acpuclk_config_pll2 p m)
    else some m
  -- Make sure target PLL is on.
  let m :=
    if strt_s.src ≠ tgt_s.src ∧ tgt_s.src ≥ 0 then local_src_enable tgt_s.src m
    else if tgt_s.src = PLL_2 ∧ strt_s.src = PLL_2 then local_src_enable PLL_2 m
    else m
  -- Perform the frequency switch
  let m := acpuclk_set_src tgt_s m
  let m := set_current_speed ti tgt_s.lpj m
  if tgt_s.src = PLL_2 ∧ strt_s.src = PLL_2 then
    match deref m.acpu_freq_tbl m.backup_s with
    | none => none
    | some backup => some (local_src_disable backup.src m)
  else some m

/-- Function `acpuclk_set_rate`, lines 304-332: the steps after the clock
switch, which depend on the call reason and whose failures are only logged. -/
def acpuclk_set_rate_lower (env : Env) (m : Machine) (strt_s tgt_s : clkctl_acpu_speed)
    (reason : setrate_reason) : Machine :=
  -- Nothing else to do for SWFI.
  if reason = setrate_reason.SETRATE_SWFI then m else
  -- Turn off previous PLL if not used.
  let m :=
    if strt_s.src ≠ tgt_s.src ∧ strt_s.src ≥ 0 then local_src_disable strt_s.src m else m
  -- Decrease the AXI bus frequency if we can.
  let m :=
    if tgt_s.axi_clk_hz < strt_s.axi_clk_hz then (clk_set_min_rate env tgt_s.axi_clk_hz m).2
    else m
  -- Nothing else to do for power collapse.
  if reason = setrate_reason.SETRATE_PC then m else
  -- Drop VDD level if we can.
  if tgt_s.vdd_mv < strt_s.vdd_mv then (acpuclk_set_acpu_vdd env tgt_s m).2 else m

/-- Function `acpuclk_set_rate`, lines 278-339: the clock switch followed by
the lowering steps; `rc` is the value of the C variable `rc` at line 278,
which is what the function returns. -/
def acpuclk_set_rate_commit (env : Env) (m : Machine) (strt_s tgt_s : clkctl_acpu_speed)
    (ti : Nat) (reason : setrate_reason) (rc : Int) : Option (Int × Machine) :=
  match acpuclk_set_rate_switch m strt_s tgt_s ti with
  | none => none
  | some m => some (rc, acpuclk_set_rate_lower env m strt_s tgt_s reason)

/-- Function `acpuclk_set_rate`, lines 266-276: the bus-vote raise, then the
rest of the function. -/
def acpuclk_set_rate_axi (env : Env) (m : Machine) (strt_s tgt_s : clkctl_acpu_speed)
    (ti : Nat) (reason : setrate_reason) (rc : Int) : Option (Int × Machine) :=
  if tgt_s.axi_clk_hz > strt_s.axi_clk_hz then
    let (rc, m) := clk_set_min_rate env tgt_s.axi_clk_hz m
    if rc < 0 then some (rc, m)
    else acpuclk_set_rate_commit env m strt_s tgt_s ti reason rc
  else acpuclk_set_rate_commit env m strt_s tgt_s ti reason rc

/-- Function `acpuclk_set_rate`, lines 229-340.  The result is the returned `rc` and
the state at return; `none` when the function dereferences a NULL pointer
(`drv_state.current_speed`, `backup_s`, a PLL_2 target's `pll_rate`) or scans
past the end of a table that has no sentinel. -/
def acpuclk_set_rate (env : Env) (m : Machine) (rate : Nat) (reason : setrate_reason) :
    Option (Int × Machine) :=
  match deref m.acpu_freq_tbl m.drv_state.current_speed with
  | none => none
  | some strt_s =>
    if rate = strt_s.acpu_clk_khz then some (0, m)
    else
      match scan_rate rate m.acpu_freq_tbl 0 with
      | none => none
      | some ti =>
        match m.acpu_freq_tbl[ti]? with
        | none => none
        | some tgt_s =>
          if tgt_s.acpu_clk_khz = 0 then some (-EINVAL, m)
          else if reason = setrate_reason.SETRATE_CPUFREQ ∧ tgt_s.vdd_mv > strt_s.vdd_mv then
            -- Increase VDD if needed.
            let (rc, m) := acpuclk_set_acpu_vdd env tgt_s m
            if rc < 0 then some (rc, m)
            else acpuclk_set_rate_axi env m strt_s tgt_s ti reason rc
          else acpuclk_set_rate_axi env m strt_s tgt_s ti reason 0

/-- Function `acpuclk_get_rate`, lines 342-350. -/
def acpuclk_get_rate (m : Machine) : Nat :=
  match deref m.acpu_freq_tbl m.drv_state.current_speed with
  | some s => s.acpu_clk_khz
  | none => 0

/-! ## Notions used to state the properties -/

/-- An operation on the CPU clock path: a PLL2 write, a source enable or
disable, or a mux register write. -/
def Op.clock_path : Op → Bool
  | Op.config_pll2 _ => true
  | Op.local_src_enable _ => true
  | Op.local_src_disable _ => true
  | Op.set_src _ => true
  | _ => false

/-- A regulator write. -/
def Op.regulator : Op → Bool
  | Op.set_acpu_vdd _ _ => true
  | _ => false

/-- A bus-vote request. -/
def Op.bus_vote : Op → Bool
  | Op.clk_set_min_rate _ _ => true
  | _ => false

/-- The state is consistent with the entry `s`: the regulator holds the raw
code of `s`, the bus vote is the bus rate of `s`, and the live half of the mux
decodes to the selector and divider of `s`. -/
def consistent (m : Machine) (s : clkctl_acpu_speed) : Prop :=
  m.vdd_level = s.vdd_raw ∧ m.axi_min_rate = s.axi_clk_hz ∧
    live_sel m = s.acpu_src_sel ∧ live_div m = s.acpu_src_div

/-- A sample state over the static table in which entry `i` is active and the
hardware is consistent with it: mux toggle bit 0, the entry in the live half
(bits 15:8) of `SCSS_CLK_CTL`, the regulator at the entry's raw code, the bus
vote at its bus rate, the 768000 kHz entry (index 10) as backup point, and an
empty trace. -/
def machine_at (i : Nat) : Machine :=
  let s := (acpu_freq_tbl[i]?).getD sentinel
  { acpu_freq_tbl := acpu_freq_tbl
    drv_state := { current_speed := some i, acpu_switch_time_us := 0, vdd_switch_time_us := 0 }
    backup_s := some 10
    loops_per_jiffy := 0
    SCSS_CLK_CTL := (s.acpu_src_sel <<< 12) ||| (s.acpu_src_div <<< 8)
    SCSS_CLK_SEL := 0
    PLL2_L_VAL := 42
    PLL2_M_VAL := 0
    PLL2_N_VAL := 1
    PLL2_CONFIG := 0
    vdd_level := s.vdd_raw
    axi_min_rate := s.axi_clk_hz
    trace := [] }

/-- An environment in which every collaborator call succeeds. -/
def env_ok : Env := { msm_spm_set_vdd := fun _ => 0, clk_set_min_rate := fun _ => 0 }

/-- An environment in which `msm_spm_set_vdd` returns `r` and the bus-vote
requests succeed. -/
def env_vdd (r : Int) : Env := { msm_spm_set_vdd := fun _ => r, clk_set_min_rate := fun _ => 0 }

/-- An environment in which `clk_set_min_rate` returns `r` and the regulator
writes succeed. -/
def env_axi (r : Int) : Env := { msm_spm_set_vdd := fun _ => 0, clk_set_min_rate := fun _ => r }

/-! ## The operations of a call, stage by stage -/

/-- The operations of the raise steps, lines 251-276: the regulator raise of
a Scaling call and the bus-vote raise, each with the result the environment
gives. -/
def raise_ops (env : Env) (reason : setrate_reason) (strt tgt : clkctl_acpu_speed) : List Op :=
  (if reason = setrate_reason.SETRATE_CPUFREQ ∧ tgt.vdd_mv > strt.vdd_mv then
      [Op.set_acpu_vdd tgt (env.msm_spm_set_vdd tgt.vdd_raw)] else []) ++
  (if tgt.axi_clk_hz > strt.axi_clk_hz then
      [Op.clk_set_min_rate tgt.axi_clk_hz (env.clk_set_min_rate tgt.axi_clk_hz)] else [])

/-- The operations of the clock switch, lines 278-302, with `b` the backup
point and `p` the PLL configuration of the target (used only where the code
dereferences them). -/
def switch_ops (strt tgt b : clkctl_acpu_speed) (p : pll) : List Op :=
  (if tgt.src = PLL_2 ∧ strt.src = PLL_2 then
      [Op.local_src_enable b.src, Op.set_src b, Op.local_src_disable PLL_2] else []) ++
  (if tgt.src = PLL_2 then [Op.config_pll2 p] else []) ++
  (if strt.src ≠ tgt.src ∧ tgt.src ≥ 0 then [Op.local_src_enable tgt.src]
    else if tgt.src = PLL_2 ∧ strt.src = PLL_2 then [Op.local_src_enable PLL_2] else []) ++
  [Op.set_src tgt] ++
  (if tgt.src = PLL_2 ∧ strt.src = PLL_2 then [Op.local_src_disable b.src] else [])

/-- The operations of the steps after the clock switch, lines 304-332. -/
def lower_ops (env : Env) (reason : setrate_reason) (strt tgt : clkctl_acpu_speed) : List Op :=
  if reason = setrate_reason.SETRATE_SWFI then [] else
    (if strt.src ≠ tgt.src ∧ strt.src ≥ 0 then [Op.local_src_disable strt.src] else []) ++
    (if tgt.axi_clk_hz < strt.axi_clk_hz then
      [Op.clk_set_min_rate tgt.axi_clk_hz (env.clk_set_min_rate tgt.axi_clk_hz)] else []) ++
    (if reason = setrate_reason.SETRATE_PC then [] else
      if tgt.vdd_mv < strt.vdd_mv then
        [Op.set_acpu_vdd tgt (env.msm_spm_set_vdd tgt.vdd_raw)] else [])

/-- The value of the C variable `rc` when no raise step aborts the call: the
result of the bus-vote raise if one is made, else that of the regulator raise
if one is made, else 0. -/
def raise_rc (env : Env) (reason : setrate_reason) (strt tgt : clkctl_acpu_speed) : Int :=
  if tgt.axi_clk_hz > strt.axi_clk_hz then env.clk_set_min_rate tgt.axi_clk_hz
  else if reason = setrate_reason.SETRATE_CPUFREQ ∧ tgt.vdd_mv > strt.vdd_mv then
    env.msm_spm_set_vdd tgt.vdd_raw
  else 0

/-- The state is one in which `acpuclk_set_rate` can run: there is an active
entry, the table is terminated by a sentinel, the backup point has been
chosen, and every PLL_2 entry has a PLL configuration. -/
def Machine.ready (m : Machine) : Prop :=
  deref m.acpu_freq_tbl m.drv_state.current_speed ≠ none ∧
  (∃ e ∈ m.acpu_freq_tbl, e.acpu_clk_khz = 0) ∧
  deref m.acpu_freq_tbl m.backup_s ≠ none ∧
  (∀ e ∈ m.acpu_freq_tbl, e.src = PLL_2 → e.pll_rate ≠ none)

/-- An environment in which every collaborator call fails with -5 (-EIO). -/
def env_fail : Env := { msm_spm_set_vdd := fun _ => -5, clk_set_min_rate := fun _ => -5 }

/-- The entry `e`, at index `i`, is the table entry with frequency `rate`:
the entry at which the scan of `acpuclk_set_rate` for `rate` stops, and not
the sentinel. -/
def table_entry (tbl : List clkctl_acpu_speed) (rate i : Nat) (e : clkctl_acpu_speed) : Prop :=
  scan_rate rate tbl 0 = some i ∧ tbl[i]? = some e ∧ e.acpu_clk_khz ≠ 0

/-- Every collaborator call succeeds (returns 0). -/
def Env.succeeds (env : Env) : Prop :=
  (∀ x, env.msm_spm_set_vdd x = 0) ∧ (∀ x, env.clk_set_min_rate x = 0)

/-- The invariants of the table that the driver's own writes keep: `vdd_raw`
is `VDD_RAW (vdd_mv)` (static initialisation and `acpuclk_set_vdd`), the mux
selector fits 3 bits and the divider 4 bits, and every PLL_2 entry has a PLL
configuration; the sentinel is exempt. -/
def table_ok (tbl : List clkctl_acpu_speed) : Prop :=
  ∀ e ∈ tbl, e.acpu_clk_khz ≠ 0 →
    e.vdd_raw = VDD_RAW e.vdd_mv ∧ e.acpu_src_sel ≤ 7 ∧ e.acpu_src_div ≤ 15 ∧
      (e.src = PLL_2 → e.pll_rate ≠ none)

/-- A mux register write. -/
def Op.mux : Op → Bool
  | Op.set_src _ => true
  | _ => false

/-- The voltage in millivolts that a raw regulator code stands for, by the
formula in the comment of line 56, `mv = (750mV + (raw * 25mV)) * (2 -
VREF_SEL)`, where `raw` is the code without the configuration bits
`VREG_DATA`. -/
def raw_mv (code : Nat) : Nat :=
  (750 + (code &&& (0xFFFFFFFF ^^^ VREG_DATA)) * 25) * (2 - VREF_SEL)

/-- The voltage of the entry `s` is one that the raw code can express: a
multiple of `V_STEP` from 750 mV (step count 0) to 1525 mV (step count 31,
the largest that stays clear of the configuration bits), and `vdd_raw` is
`VDD_RAW (vdd_mv)`. -/
def vdd_encodable (s : clkctl_acpu_speed) : Prop :=
  s.vdd_mv % V_STEP = 0 ∧ 750 ≤ s.vdd_mv ∧ s.vdd_mv ≤ 1525 ∧ s.vdd_raw = VDD_RAW s.vdd_mv

/-- The PLL2 registers hold the configuration `p`, written over the value
`config` of `PLL2_CONFIG`: the L, M and N registers hold the values of `p`,
bit 15 of `PLL2_CONFIG` is set exactly when `p.pre_div` is nonzero, and the
other bits of the 32-bit register are those of `config`. -/
def pll2_programmed (m : Machine) (p : pll) (config : Nat) : Prop :=
  m.PLL2_L_VAL = p.l ∧ m.PLL2_M_VAL = p.m ∧ m.PLL2_N_VAL = p.n ∧
    m.PLL2_CONFIG.testBit 15 = decide (p.pre_div ≠ 0) ∧
    ∀ i, i ≠ 15 → i < 32 → m.PLL2_CONFIG.testBit i = config.testBit i

/-- The PLL2 registers are those of the state `m0`. -/
def pll2_untouched (m m0 : Machine) : Prop :=
  m.PLL2_L_VAL = m0.PLL2_L_VAL ∧ m.PLL2_M_VAL = m0.PLL2_M_VAL ∧
    m.PLL2_N_VAL = m0.PLL2_N_VAL ∧ m.PLL2_CONFIG = m0.PLL2_CONFIG

/-- What the ordering of voltage and frequency changes is about: the raw code
held by the regulator and the table entry that is live on the mux. -/
structure Snapshot where
  level_raw : Nat
  live : clkctl_acpu_speed
deriving DecidableEq, Repr

/-- The effect of one operation on the raw code held by the regulator and on
the live entry, as in `acpuclk_set_acpu_vdd` and `acpuclk_set_src`: a
regulator write for the entry `s` (line 173 passes `s->vdd_raw`) that returns
0 leaves the regulator at the code `s.vdd_raw`, and one that fails leaves it
as it was; a mux switch to `s` makes `s` the live entry; no other operation
changes either. -/
def Snapshot.step (σ : Snapshot) : Op → Snapshot
  | Op.set_acpu_vdd s ret => if ret = 0 then { σ with level_raw := s.vdd_raw } else σ
  | Op.set_src s => { σ with live := s }
  | _ => σ

/-- The voltage of the raw code held by the regulator is at least the voltage
of the live entry. -/
def Snapshot.safe (σ : Snapshot) : Bool := decide (σ.live.vdd_mv ≤ raw_mv σ.level_raw)

/-- Every state along the operations `ops` started from `σ`, the first and the
last included, is safe. -/
def Snapshot.safe_along (σ : Snapshot) : List Op → Bool
  | [] => σ.safe
  | o :: ops => σ.safe && Snapshot.safe_along (σ.step o) ops

/-- The body of the loop of `acpuclk_set_vdd`, lines 548-558, for one entry;
`vdd` is the request already rounded to a multiple of `V_STEP`.  The addition
and the conversion of the `int` to `unsigned int` wrap modulo `2^32`. -/
def acpuclk_set_vdd_entry (khz : Nat) (vdd : Int) (s : clkctl_acpu_speed) : clkctl_acpu_speed :=
  if s.use_for_scaling = 1 then
    if khz = 0 then
      let new_vdd := min (max ((s.vdd_mv + (vdd % 2 ^ 32).toNat) % 2 ^ 32) 600) 1525
      { s with vdd_mv := new_vdd, vdd_raw := VDD_RAW new_vdd }
    else if s.acpu_clk_khz = khz then
      let new_vdd := min (max (vdd % 2 ^ 32).toNat 600) 1525
      { s with vdd_mv := new_vdd, vdd_raw := VDD_RAW new_vdd }
    else s
  else s

/-- The loop of `acpuclk_set_vdd`, lines 546-559, which stops at the
sentinel. -/
def acpuclk_set_vdd_loop (khz : Nat) (vdd : Int) : List clkctl_acpu_speed → List clkctl_acpu_speed
  | [] => []
  | s :: rest =>
    if s.acpu_clk_khz ≠ 0 then acpuclk_set_vdd_entry khz vdd s :: acpuclk_set_vdd_loop khz vdd rest
    else s :: rest

/-- Function `acpuclk_set_vdd`, lines 540-561; the division of line 544 is the
C division, which truncates toward zero. -/
def acpuclk_set_vdd (khz : Nat) (vdd : Int) (m : Machine) : Machine :=
  let vdd := Int.tdiv vdd V_STEP * V_STEP
  { m with acpu_freq_tbl := acpuclk_set_vdd_loop khz vdd m.acpu_freq_tbl }

/-- The sample state with the 806400 kHz entry active after the tuning call
`acpuclk_set_vdd(768000, 1050)`, which sets the voltage of the backup point
(the 768000 kHz entry) to 1050 mV. -/
def machine_tuned : Machine := acpuclk_set_vdd 768000 1050 (machine_at 11)

/-! ## Idle entry points -/

/-- Macro `POWER_COLLAPSE_KHZ`, line 155. -/
def POWER_COLLAPSE_KHZ : Nat := MAX_AXI_KHZ

/-- Macro `WAIT_FOR_IRQ_KHZ`, line 163. -/
def WAIT_FOR_IRQ_KHZ : Nat := MAX_AXI_KHZ

/-- Function `acpuclk_power_collapse`, lines 156-161: the result is the rate
read before the switch, and the state after the `SETRATE_PC` switch, whose
return value is ignored. -/
def acpuclk_power_collapse (env : Env) (m : Machine) : Option (Nat × Machine) :=
  let ret := acpuclk_get_rate m
  match acpuclk_set_rate env m POWER_COLLAPSE_KHZ setrate_reason.SETRATE_PC with
  | none => none
  | some r => some (ret, r.2)

/-- Function `acpuclk_wait_for_irq`, lines 164-169. -/
def acpuclk_wait_for_irq (env : Env) (m : Machine) : Option (Nat × Machine) :=
  let ret := acpuclk_get_rate m
  match acpuclk_set_rate env m WAIT_FOR_IRQ_KHZ setrate_reason.SETRATE_SWFI with
  | none => none
  | some r => some (ret, r.2)

/-! ## Initialisation (lines 368-501) -/

/-- The test `s->pll_rate && s->pll_rate->l == pll2_l` of lines 424 and 492. -/
def pll_l_matches (pll2_l : Nat) (s : clkctl_acpu_speed) : Bool :=
  match s.pll_rate with
  | none => false
  | some p => decide (p.l = pll2_l)

/-- The loop of `pll2_fixup`, lines 489-497, from the entry at index `i` on,
with the value `backup` of `backup_s`.  The result is the value of `backup_s`
at the `return` of line 495; `none` when the loop reaches the sentinel, where
`BUG()` of line 500 is called, or runs past the end of a table without
sentinel. -/
def pll2_fixup_loop (pll2_l : Nat) : List clkctl_acpu_speed → Nat → Option Nat →
    Option (Option Nat)
  | [], _, _ => none
  | speed :: rest, i, backup =>
    if speed.acpu_clk_khz ≠ 0 then
      let backup := if speed.src ≠ PLL_2 then some i else backup
      if pll_l_matches pll2_l speed then some backup
      else pll2_fixup_loop pll2_l rest (i + 1) backup
    else none

/-- Function `pll2_fixup`, lines 484-501; `pll2_l` is the `u8` taken from the
register `PLL2_L_VAL`.  The result is `none` when the function does not
return (`BUG()`). -/
def pll2_fixup (m : Machine) : Option Machine :=
  let pll2_l := m.PLL2_L_VAL &&& 0xFF
  match pll2_fixup_loop pll2_l m.acpu_freq_tbl 0 m.backup_s with
  | none => none
  | some b => some { m with backup_s := b }

/-- The loops `for ( ; s->acpu_clk_khz != 0; s++) if (stop(s)) break;` of
lines 390-393 and 423-425, from the entry at index `i` on: the index at which
the loop is left, at the first entry on which `stop` holds or at the
sentinel; `none` when it runs past the end of a table without sentinel. -/
def scan_tbl (stop : clkctl_acpu_speed → Bool) : List clkctl_acpu_speed → Nat → Option Nat
  | [], _ => none
  | s :: rest, i =>
    if s.acpu_clk_khz ≠ 0 then
      if stop s then some i else scan_tbl stop rest (i + 1)
    else some i

/-- The loop of lines 402-404,
`for (s = acpu_freq_tbl; s->acpu_clk_khz != 0 && s->src != PLL_2 && s->acpu_src_div == 0; s++);`,
from the entry at index `i` on. -/
def scan_scpll : List clkctl_acpu_speed → Nat → Option Nat
  | [], _ => none
  | s :: rest, i =>
    if s.acpu_clk_khz ≠ 0 ∧ s.src ≠ PLL_2 ∧ s.acpu_src_div = 0 then scan_scpll rest (i + 1)
    else some i

/-- Function `acpuclk_init`, lines 378-419: the `switch` on the core-mux field
of `SCSS_CLK_SEL`.  The result is `some none` when the function returns after
`pr_err` (lines 394-397 and 416-418), and `some (some (si, m1))` when the
`switch` is left with `s` at index `si` in the state `m1`; `none` when a scan
runs past the end of the table. -/
def acpuclk_init_detect (m : Machine) : Option (Option (Nat × Machine)) :=
  let reg_clksel := m.SCSS_CLK_SEL
  if (reg_clksel >>> 1) &&& 0x3 = 0 then
    -- Running off the output of the raw clock source mux.
    let reg_clkctl := m.SCSS_CLK_CTL
    let src_num := reg_clksel &&& 0x1
    let sel := (reg_clkctl >>> (12 - 8 * src_num)) &&& 0x7
    let div := (reg_clkctl >>> (8 - 8 * src_num)) &&& 0xF
    match scan_tbl (fun s => decide (s.acpu_src_sel = sel ∧ s.acpu_src_div = div))
        m.acpu_freq_tbl 0 with
    | none => none
    | some si =>
      match m.acpu_freq_tbl[si]? with
      | none => none
      | some s => if s.acpu_clk_khz = 0 then some none else some (some (si, m))
  else if (reg_clksel >>> 1) &&& 0x3 = 2 then
    -- Running off of the SCPLL selected through the core mux.
    match scan_scpll m.acpu_freq_tbl 0 with
    | none => none
    | some si =>
      match m.acpu_freq_tbl[si]? with
      | none => none
      | some s =>
        if s.acpu_clk_khz ≠ 0 then
          let m1 := acpuclk_set_src s m
          let reg_clksel := m1.SCSS_CLK_SEL
          let reg_clksel := reg_clksel &&& (0xFFFFFFFF ^^^ (0x3 <<< 1))
          some (some (si, { m1 with SCSS_CLK_SEL := reg_clksel }))
        else some none
  else some none

/-- Function `acpuclk_init`, lines 427-440, with `s` the entry at index `si`:
the regulator write, the assignment of `drv_state.current_speed`, the enable
of the source and the bus-vote request.  The results of
`acpuclk_set_acpu_vdd` and `clk_set_min_rate` are ignored, as in the
source. -/
def acpuclk_init_finish (env : Env) (si : Nat) (s : clkctl_acpu_speed) (m : Machine) : Machine :=
  let m2 := (acpuclk_set_acpu_vdd env s m).2
  let m3 : Machine := { m2 with drv_state := { m2.drv_state with current_speed := some si } }
  let m4 := if s.src ≥ 0 then local_src_enable s.src m3 else m3
  (clk_set_min_rate env s.axi_clk_hz m4).2

/-- Function `acpuclk_init`, lines 368-443.  `clk_get` is taken to succeed (the
`ebi1_clk` handle is not modelled).  The result is `none` when a scan runs
past the end of the table. -/
def acpuclk_init (env : Env) (m : Machine) : Option Machine :=
  let pll2_l := m.PLL2_L_VAL &&& 0xFF
  match acpuclk_init_detect m with
  | none => none
  | some none => some m
  | some (some (si, m1)) =>
    match m1.acpu_freq_tbl[si]? with
    | none => none
    | some s0 =>
      -- Look at PLL2's L val to determine what speed PLL2 is running at
      let r :=
        if s0.src = PLL_2 then scan_tbl (pll_l_matches pll2_l) (m1.acpu_freq_tbl.drop si) si
        else some si
      match r with
      | none => none
      | some si =>
        match m1.acpu_freq_tbl[si]? with
        | none => none
        | some s => some (acpuclk_init_finish env si s m1)

/-- The state at boot, before `pll2_fixup` and `acpuclk_init`: the static
table, `drv_state` and `backup_s` zero-initialised, the registers as left by
the boot loader, the regulator and the bus vote at `vdd` and `axi`. -/
def machine_boot (clkctl clksel pll2_l vdd axi : Nat) : Machine :=
  { acpu_freq_tbl := acpu_freq_tbl
    drv_state := { current_speed := none, acpu_switch_time_us := 0, vdd_switch_time_us := 0 }
    backup_s := none
    loops_per_jiffy := 0
    SCSS_CLK_CTL := clkctl
    SCSS_CLK_SEL := clksel
    PLL2_L_VAL := pll2_l
    PLL2_M_VAL := 0
    PLL2_N_VAL := 1
    PLL2_CONFIG := 0
    vdd_level := vdd
    axi_min_rate := axi
    trace := [] }

/-! # Theorems -/

set_option linter.unusedTactic false
set_option linter.unreachableTactic false
set_option linter.unnecessarySeqFocus false

/-! ## Effect of the primitive operations on each part of the state -/

@[simp] theorem clk_set_min_rate_fst (env : Env) (rate : Nat) (m : Machine) :
    (clk_set_min_rate env rate m).1 = env.clk_set_min_rate rate := rfl

@[simp] theorem acpuclk_set_acpu_vdd_fst (env : Env) (s : clkctl_acpu_speed) (m : Machine) :
    (acpuclk_set_acpu_vdd env s m).1 = env.msm_spm_set_vdd s.vdd_raw := by
  unfold acpuclk_set_acpu_vdd
  by_cases h : env.msm_spm_set_vdd s.vdd_raw = 0 <;> simp [h]

@[simp] theorem local_src_enable_acpu_freq_tbl (src : Int) (m : Machine) :
    (local_src_enable src m).acpu_freq_tbl = m.acpu_freq_tbl := rfl

@[simp] theorem local_src_enable_drv_state (src : Int) (m : Machine) :
    (local_src_enable src m).drv_state = m.drv_state := rfl

@[simp] theorem local_src_enable_backup_s (src : Int) (m : Machine) :
    (local_src_enable src m).backup_s = m.backup_s := rfl

@[simp] theorem local_src_enable_loops_per_jiffy (src : Int) (m : Machine) :
    (local_src_enable src m).loops_per_jiffy = m.loops_per_jiffy := rfl

@[simp] theorem local_src_enable_SCSS_CLK_CTL (src : Int) (m : Machine) :
    (local_src_enable src m).SCSS_CLK_CTL = m.SCSS_CLK_CTL := rfl

@[simp] theorem local_src_enable_SCSS_CLK_SEL (src : Int) (m : Machine) :
    (local_src_enable src m).SCSS_CLK_SEL = m.SCSS_CLK_SEL := rfl

@[simp] theorem local_src_enable_PLL2_L_VAL (src : Int) (m : Machine) :
    (local_src_enable src m).PLL2_L_VAL = m.PLL2_L_VAL := rfl

@[simp] theorem local_src_enable_PLL2_M_VAL (src : Int) (m : Machine) :
    (local_src_enable src m).PLL2_M_VAL = m.PLL2_M_VAL := rfl

@[simp] theorem local_src_enable_PLL2_N_VAL (src : Int) (m : Machine) :
    (local_src_enable src m).PLL2_N_VAL = m.PLL2_N_VAL := rfl

@[simp] theorem local_src_enable_PLL2_CONFIG (src : Int) (m : Machine) :
    (local_src_enable src m).PLL2_CONFIG = m.PLL2_CONFIG := rfl

@[simp] theorem local_src_enable_vdd_level (src : Int) (m : Machine) :
    (local_src_enable src m).vdd_level = m.vdd_level := rfl

@[simp] theorem local_src_enable_axi_min_rate (src : Int) (m : Machine) :
    (local_src_enable src m).axi_min_rate = m.axi_min_rate := rfl

@[simp] theorem local_src_enable_trace (src : Int) (m : Machine) :
    (local_src_enable src m).trace = m.trace ++ [Op.local_src_enable src] := rfl

@[simp] theorem local_src_disable_acpu_freq_tbl (src : Int) (m : Machine) :
    (local_src_disable src m).acpu_freq_tbl = m.acpu_freq_tbl := rfl

@[simp] theorem local_src_disable_drv_state (src : Int) (m : Machine) :
    (local_src_disable src m).drv_state = m.drv_state := rfl

@[simp] theorem local_src_disable_backup_s (src : Int) (m : Machine) :
    (local_src_disable src m).backup_s = m.backup_s := rfl

@[simp] theorem local_src_disable_loops_per_jiffy (src : Int) (m : Machine) :
    (local_src_disable src m).loops_per_jiffy = m.loops_per_jiffy := rfl

@[simp] theorem local_src_disable_SCSS_CLK_CTL (src : Int) (m : Machine) :
    (local_src_disable src m).SCSS_CLK_CTL = m.SCSS_CLK_CTL := rfl

@[simp] theorem local_src_disable_SCSS_CLK_SEL (src : Int) (m : Machine) :
    (local_src_disable src m).SCSS_CLK_SEL = m.SCSS_CLK_SEL := rfl

@[simp] theorem local_src_disable_PLL2_L_VAL (src : Int) (m : Machine) :
    (local_src_disable src m).PLL2_L_VAL = m.PLL2_L_VAL := rfl

@[simp] theorem local_src_disable_PLL2_M_VAL (src : Int) (m : Machine) :
    (local_src_disable src m).PLL2_M_VAL = m.PLL2_M_VAL := rfl

@[simp] theorem local_src_disable_PLL2_N_VAL (src : Int) (m : Machine) :
    (local_src_disable src m).PLL2_N_VAL = m.PLL2_N_VAL := rfl

@[simp] theorem local_src_disable_PLL2_CONFIG (src : Int) (m : Machine) :
    (local_src_disable src m).PLL2_CONFIG = m.PLL2_CONFIG := rfl

@[simp] theorem local_src_disable_vdd_level (src : Int) (m : Machine) :
    (local_src_disable src m).vdd_level = m.vdd_level := rfl

@[simp] theorem local_src_disable_axi_min_rate (src : Int) (m : Machine) :
    (local_src_disable src m).axi_min_rate = m.axi_min_rate := rfl

@[simp] theorem local_src_disable_trace (src : Int) (m : Machine) :
    (local_src_disable src m).trace = m.trace ++ [Op.local_src_disable src] := rfl

@[simp] theorem acpuclk_config_pll2_acpu_freq_tbl (p : pll) (m : Machine) :
    (acpuclk_config_pll2 p m).acpu_freq_tbl = m.acpu_freq_tbl := rfl

@[simp] theorem acpuclk_config_pll2_drv_state (p : pll) (m : Machine) :
    (acpuclk_config_pll2 p m).drv_state = m.drv_state := rfl

@[simp] theorem acpuclk_config_pll2_backup_s (p : pll) (m : Machine) :
    (acpuclk_config_pll2 p m).backup_s = m.backup_s := rfl

@[simp] theorem acpuclk_config_pll2_loops_per_jiffy (p : pll) (m : Machine) :
    (acpuclk_config_pll2 p m).loops_per_jiffy = m.loops_per_jiffy := rfl

@[simp] theorem acpuclk_config_pll2_SCSS_CLK_CTL (p : pll) (m : Machine) :
    (acpuclk_config_pll2 p m).SCSS_CLK_CTL = m.SCSS_CLK_CTL := rfl

@[simp] theorem acpuclk_config_pll2_SCSS_CLK_SEL (p : pll) (m : Machine) :
    (acpuclk_config_pll2 p m).SCSS_CLK_SEL = m.SCSS_CLK_SEL := rfl

@[simp] theorem acpuclk_config_pll2_PLL2_L_VAL (p : pll) (m : Machine) :
    (acpuclk_config_pll2 p m).PLL2_L_VAL = p.l := rfl

@[simp] theorem acpuclk_config_pll2_PLL2_M_VAL (p : pll) (m : Machine) :
    (acpuclk_config_pll2 p m).PLL2_M_VAL = p.m := rfl

@[simp] theorem acpuclk_config_pll2_PLL2_N_VAL (p : pll) (m : Machine) :
    (acpuclk_config_pll2 p m).PLL2_N_VAL = p.n := rfl

@[simp] theorem acpuclk_config_pll2_vdd_level (p : pll) (m : Machine) :
    (acpuclk_config_pll2 p m).vdd_level = m.vdd_level := rfl

@[simp] theorem acpuclk_config_pll2_axi_min_rate (p : pll) (m : Machine) :
    (acpuclk_config_pll2 p m).axi_min_rate = m.axi_min_rate := rfl

@[simp] theorem acpuclk_config_pll2_trace (p : pll) (m : Machine) :
    (acpuclk_config_pll2 p m).trace = m.trace ++ [Op.config_pll2 p] := rfl

@[simp] theorem acpuclk_set_src_acpu_freq_tbl (s : clkctl_acpu_speed) (m : Machine) :
    (acpuclk_set_src s m).acpu_freq_tbl = m.acpu_freq_tbl := rfl

@[simp] theorem acpuclk_set_src_drv_state (s : clkctl_acpu_speed) (m : Machine) :
    (acpuclk_set_src s m).drv_state = m.drv_state := rfl

@[simp] theorem acpuclk_set_src_backup_s (s : clkctl_acpu_speed) (m : Machine) :
    (acpuclk_set_src s m).backup_s = m.backup_s := rfl

@[simp] theorem acpuclk_set_src_loops_per_jiffy (s : clkctl_acpu_speed) (m : Machine) :
    (acpuclk_set_src s m).loops_per_jiffy = m.loops_per_jiffy := rfl

@[simp] theorem acpuclk_set_src_SCSS_CLK_CTL (s : clkctl_acpu_speed) (m : Machine) :
    (acpuclk_set_src s m).SCSS_CLK_CTL = (set_src_regs s m.SCSS_CLK_CTL m.SCSS_CLK_SEL).1 := rfl

@[simp] theorem acpuclk_set_src_SCSS_CLK_SEL (s : clkctl_acpu_speed) (m : Machine) :
    (acpuclk_set_src s m).SCSS_CLK_SEL = (set_src_regs s m.SCSS_CLK_CTL m.SCSS_CLK_SEL).2 := rfl

@[simp] theorem acpuclk_set_src_PLL2_L_VAL (s : clkctl_acpu_speed) (m : Machine) :
    (acpuclk_set_src s m).PLL2_L_VAL = m.PLL2_L_VAL := rfl

@[simp] theorem acpuclk_set_src_PLL2_M_VAL (s : clkctl_acpu_speed) (m : Machine) :
    (acpuclk_set_src s m).PLL2_M_VAL = m.PLL2_M_VAL := rfl

@[simp] theorem acpuclk_set_src_PLL2_N_VAL (s : clkctl_acpu_speed) (m : Machine) :
    (acpuclk_set_src s m).PLL2_N_VAL = m.PLL2_N_VAL := rfl

@[simp] theorem acpuclk_set_src_PLL2_CONFIG (s : clkctl_acpu_speed) (m : Machine) :
    (acpuclk_set_src s m).PLL2_CONFIG = m.PLL2_CONFIG := rfl

@[simp] theorem acpuclk_set_src_vdd_level (s : clkctl_acpu_speed) (m : Machine) :
    (acpuclk_set_src s m).vdd_level = m.vdd_level := rfl

@[simp] theorem acpuclk_set_src_axi_min_rate (s : clkctl_acpu_speed) (m : Machine) :
    (acpuclk_set_src s m).axi_min_rate = m.axi_min_rate := rfl

@[simp] theorem acpuclk_set_src_trace (s : clkctl_acpu_speed) (m : Machine) :
    (acpuclk_set_src s m).trace = m.trace ++ [Op.set_src s] := rfl

@[simp] theorem clk_set_min_rate_acpu_freq_tbl (env : Env) (rate : Nat) (m : Machine) :
    ((clk_set_min_rate env rate m).2).acpu_freq_tbl = m.acpu_freq_tbl := rfl

@[simp] theorem clk_set_min_rate_drv_state (env : Env) (rate : Nat) (m : Machine) :
    ((clk_set_min_rate env rate m).2).drv_state = m.drv_state := rfl

@[simp] theorem clk_set_min_rate_backup_s (env : Env) (rate : Nat) (m : Machine) :
    ((clk_set_min_rate env rate m).2).backup_s = m.backup_s := rfl

@[simp] theorem clk_set_min_rate_loops_per_jiffy (env : Env) (rate : Nat) (m : Machine) :
    ((clk_set_min_rate env rate m).2).loops_per_jiffy = m.loops_per_jiffy := rfl

@[simp] theorem clk_set_min_rate_SCSS_CLK_CTL (env : Env) (rate : Nat) (m : Machine) :
    ((clk_set_min_rate env rate m).2).SCSS_CLK_CTL = m.SCSS_CLK_CTL := rfl

@[simp] theorem clk_set_min_rate_SCSS_CLK_SEL (env : Env) (rate : Nat) (m : Machine) :
    ((clk_set_min_rate env rate m).2).SCSS_CLK_SEL = m.SCSS_CLK_SEL := rfl

@[simp] theorem clk_set_min_rate_PLL2_L_VAL (env : Env) (rate : Nat) (m : Machine) :
    ((clk_set_min_rate env rate m).2).PLL2_L_VAL = m.PLL2_L_VAL := rfl

@[simp] theorem clk_set_min_rate_PLL2_M_VAL (env : Env) (rate : Nat) (m : Machine) :
    ((clk_set_min_rate env rate m).2).PLL2_M_VAL = m.PLL2_M_VAL := rfl

@[simp] theorem clk_set_min_rate_PLL2_N_VAL (env : Env) (rate : Nat) (m : Machine) :
    ((clk_set_min_rate env rate m).2).PLL2_N_VAL = m.PLL2_N_VAL := rfl

@[simp] theorem clk_set_min_rate_PLL2_CONFIG (env : Env) (rate : Nat) (m : Machine) :
    ((clk_set_min_rate env rate m).2).PLL2_CONFIG = m.PLL2_CONFIG := rfl

@[simp] theorem clk_set_min_rate_vdd_level (env : Env) (rate : Nat) (m : Machine) :
    ((clk_set_min_rate env rate m).2).vdd_level = m.vdd_level := rfl

@[simp] theorem clk_set_min_rate_axi_min_rate (env : Env) (rate : Nat) (m : Machine) :
    ((clk_set_min_rate env rate m).2).axi_min_rate = if env.clk_set_min_rate rate = 0 then rate else m.axi_min_rate := rfl

@[simp] theorem clk_set_min_rate_trace (env : Env) (rate : Nat) (m : Machine) :
    ((clk_set_min_rate env rate m).2).trace = m.trace ++ [Op.clk_set_min_rate rate (env.clk_set_min_rate rate)] := rfl

@[simp] theorem acpuclk_set_acpu_vdd_acpu_freq_tbl (env : Env) (s : clkctl_acpu_speed) (m : Machine) :
    ((acpuclk_set_acpu_vdd env s m).2).acpu_freq_tbl = m.acpu_freq_tbl := by
  unfold acpuclk_set_acpu_vdd
  by_cases h : env.msm_spm_set_vdd s.vdd_raw = 0 <;> simp [h]

@[simp] theorem acpuclk_set_acpu_vdd_drv_state (env : Env) (s : clkctl_acpu_speed) (m : Machine) :
    ((acpuclk_set_acpu_vdd env s m).2).drv_state = m.drv_state := by
  unfold acpuclk_set_acpu_vdd
  by_cases h : env.msm_spm_set_vdd s.vdd_raw = 0 <;> simp [h]

@[simp] theorem acpuclk_set_acpu_vdd_backup_s (env : Env) (s : clkctl_acpu_speed) (m : Machine) :
    ((acpuclk_set_acpu_vdd env s m).2).backup_s = m.backup_s := by
  unfold acpuclk_set_acpu_vdd
  by_cases h : env.msm_spm_set_vdd s.vdd_raw = 0 <;> simp [h]

@[simp] theorem acpuclk_set_acpu_vdd_loops_per_jiffy (env : Env) (s : clkctl_acpu_speed) (m : Machine) :
    ((acpuclk_set_acpu_vdd env s m).2).loops_per_jiffy = m.loops_per_jiffy := by
  unfold acpuclk_set_acpu_vdd
  by_cases h : env.msm_spm_set_vdd s.vdd_raw = 0 <;> simp [h]

@[simp] theorem acpuclk_set_acpu_vdd_SCSS_CLK_CTL (env : Env) (s : clkctl_acpu_speed) (m : Machine) :
    ((acpuclk_set_acpu_vdd env s m).2).SCSS_CLK_CTL = m.SCSS_CLK_CTL := by
  unfold acpuclk_set_acpu_vdd
  by_cases h : env.msm_spm_set_vdd s.vdd_raw = 0 <;> simp [h]

@[simp] theorem acpuclk_set_acpu_vdd_SCSS_CLK_SEL (env : Env) (s : clkctl_acpu_speed) (m : Machine) :
    ((acpuclk_set_acpu_vdd env s m).2).SCSS_CLK_SEL = m.SCSS_CLK_SEL := by
  unfold acpuclk_set_acpu_vdd
  by_cases h : env.msm_spm_set_vdd s.vdd_raw = 0 <;> simp [h]

@[simp] theorem acpuclk_set_acpu_vdd_PLL2_L_VAL (env : Env) (s : clkctl_acpu_speed) (m : Machine) :
    ((acpuclk_set_acpu_vdd env s m).2).PLL2_L_VAL = m.PLL2_L_VAL := by
  unfold acpuclk_set_acpu_vdd
  by_cases h : env.msm_spm_set_vdd s.vdd_raw = 0 <;> simp [h]

@[simp] theorem acpuclk_set_acpu_vdd_PLL2_M_VAL (env : Env) (s : clkctl_acpu_speed) (m : Machine) :
    ((acpuclk_set_acpu_vdd env s m).2).PLL2_M_VAL = m.PLL2_M_VAL := by
  unfold acpuclk_set_acpu_vdd
  by_cases h : env.msm_spm_set_vdd s.vdd_raw = 0 <;> simp [h]

@[simp] theorem acpuclk_set_acpu_vdd_PLL2_N_VAL (env : Env) (s : clkctl_acpu_speed) (m : Machine) :
    ((acpuclk_set_acpu_vdd env s m).2).PLL2_N_VAL = m.PLL2_N_VAL := by
  unfold acpuclk_set_acpu_vdd
  by_cases h : env.msm_spm_set_vdd s.vdd_raw = 0 <;> simp [h]

@[simp] theorem acpuclk_set_acpu_vdd_PLL2_CONFIG (env : Env) (s : clkctl_acpu_speed) (m : Machine) :
    ((acpuclk_set_acpu_vdd env s m).2).PLL2_CONFIG = m.PLL2_CONFIG := by
  unfold acpuclk_set_acpu_vdd
  by_cases h : env.msm_spm_set_vdd s.vdd_raw = 0 <;> simp [h]

@[simp] theorem acpuclk_set_acpu_vdd_vdd_level (env : Env) (s : clkctl_acpu_speed) (m : Machine) :
    ((acpuclk_set_acpu_vdd env s m).2).vdd_level = if env.msm_spm_set_vdd s.vdd_raw = 0 then s.vdd_raw else m.vdd_level := by
  unfold acpuclk_set_acpu_vdd
  by_cases h : env.msm_spm_set_vdd s.vdd_raw = 0 <;> simp [h]

@[simp] theorem acpuclk_set_acpu_vdd_axi_min_rate (env : Env) (s : clkctl_acpu_speed) (m : Machine) :
    ((acpuclk_set_acpu_vdd env s m).2).axi_min_rate = m.axi_min_rate := by
  unfold acpuclk_set_acpu_vdd
  by_cases h : env.msm_spm_set_vdd s.vdd_raw = 0 <;> simp [h]

@[simp] theorem acpuclk_set_acpu_vdd_trace (env : Env) (s : clkctl_acpu_speed) (m : Machine) :
    ((acpuclk_set_acpu_vdd env s m).2).trace = m.trace ++ [Op.set_acpu_vdd s (env.msm_spm_set_vdd s.vdd_raw)] := by
  unfold acpuclk_set_acpu_vdd
  by_cases h : env.msm_spm_set_vdd s.vdd_raw = 0 <;> simp [h]

@[simp] theorem set_current_speed_acpu_freq_tbl (ti lpj : Nat) (m : Machine) :
    (set_current_speed ti lpj m).acpu_freq_tbl = m.acpu_freq_tbl := rfl

@[simp] theorem set_current_speed_backup_s (ti lpj : Nat) (m : Machine) :
    (set_current_speed ti lpj m).backup_s = m.backup_s := rfl

@[simp] theorem set_current_speed_SCSS_CLK_CTL (ti lpj : Nat) (m : Machine) :
    (set_current_speed ti lpj m).SCSS_CLK_CTL = m.SCSS_CLK_CTL := rfl

@[simp] theorem set_current_speed_SCSS_CLK_SEL (ti lpj : Nat) (m : Machine) :
    (set_current_speed ti lpj m).SCSS_CLK_SEL = m.SCSS_CLK_SEL := rfl

@[simp] theorem set_current_speed_PLL2_L_VAL (ti lpj : Nat) (m : Machine) :
    (set_current_speed ti lpj m).PLL2_L_VAL = m.PLL2_L_VAL := rfl

@[simp] theorem set_current_speed_PLL2_M_VAL (ti lpj : Nat) (m : Machine) :
    (set_current_speed ti lpj m).PLL2_M_VAL = m.PLL2_M_VAL := rfl

@[simp] theorem set_current_speed_PLL2_N_VAL (ti lpj : Nat) (m : Machine) :
    (set_current_speed ti lpj m).PLL2_N_VAL = m.PLL2_N_VAL := rfl

@[simp] theorem set_current_speed_PLL2_CONFIG (ti lpj : Nat) (m : Machine) :
    (set_current_speed ti lpj m).PLL2_CONFIG = m.PLL2_CONFIG := rfl

@[simp] theorem set_current_speed_vdd_level (ti lpj : Nat) (m : Machine) :
    (set_current_speed ti lpj m).vdd_level = m.vdd_level := rfl

@[simp] theorem set_current_speed_axi_min_rate (ti lpj : Nat) (m : Machine) :
    (set_current_speed ti lpj m).axi_min_rate = m.axi_min_rate := rfl

@[simp] theorem set_current_speed_trace (ti lpj : Nat) (m : Machine) :
    (set_current_speed ti lpj m).trace = m.trace := rfl

@[simp] theorem set_current_speed_current_speed (ti lpj : Nat) (m : Machine) :
    (set_current_speed ti lpj m).drv_state.current_speed = some ti := rfl

@[simp] theorem set_current_speed_loops_per_jiffy (ti lpj : Nat) (m : Machine) :
    (set_current_speed ti lpj m).loops_per_jiffy = lpj := rfl

/-! ## The scan for the target entry -/

theorem scan_rate_stops_at_sentinel (rate : Nat) (tbl : List clkctl_acpu_speed)
    (hno : ∀ e ∈ tbl, e.acpu_clk_khz ≠ 0 → e.acpu_clk_khz ≠ rate)
    (hsent : ∃ e ∈ tbl, e.acpu_clk_khz = 0) (i : Nat) :
    ∃ k tgt, scan_rate rate tbl i = some (i + k) ∧ tbl[k]? = some tgt ∧
      tgt.acpu_clk_khz = 0 := by
  induction tbl generalizing i with
  | nil => simp at hsent
  | cons s rest ih =>
    by_cases hz : s.acpu_clk_khz = 0
    · exact ⟨0, s, by simp [scan_rate, hz], by simp, hz⟩
    · have hr : s.acpu_clk_khz ≠ rate := hno s (List.mem_cons_self _ _) hz
      have hsent' : ∃ e ∈ rest, e.acpu_clk_khz = 0 := by
        obtain ⟨e, he, hez⟩ := hsent
        rcases List.mem_cons.mp he with h | h
        · exact absurd (h ▸ hez) hz
        · exact ⟨e, h, hez⟩
      obtain ⟨k, tgt, hk, hget, htz⟩ :=
        ih (fun e he => hno e (List.mem_cons_of_mem _ he)) hsent' (i + 1)
      refine ⟨k + 1, tgt, ?_, by simpa using hget, htz⟩
      simp [scan_rate, hz, hr, hk]
      omega

theorem scan_rate_spec (rate : Nat) (tbl : List clkctl_acpu_speed) (i ti : Nat)
    (hscan : scan_rate rate tbl i = some ti) :
    ∃ k e, ti = i + k ∧ tbl[k]? = some e ∧
      (e.acpu_clk_khz = 0 ∨ e.acpu_clk_khz = rate) := by
  induction tbl generalizing i with
  | nil => simp [scan_rate] at hscan
  | cons s rest ih =>
    by_cases hz : s.acpu_clk_khz = 0
    · simp [scan_rate, hz] at hscan
      exact ⟨0, s, by omega, by simp, Or.inl hz⟩
    · by_cases hr : s.acpu_clk_khz = rate
      · simp [scan_rate, hz, hr] at hscan
        exact ⟨0, s, by omega, by simp, Or.inr hr⟩
      · simp [scan_rate, hz, hr] at hscan
        obtain ⟨k, e, hk, hget, hor⟩ := ih (i + 1) hscan
        exact ⟨k + 1, e, by omega, by simpa using hget, hor⟩

theorem scan_rate_found (rate : Nat) (tbl : List clkctl_acpu_speed) (ti : Nat)
    (tgt : clkctl_acpu_speed) (hscan : scan_rate rate tbl 0 = some ti)
    (htgt : tbl[ti]? = some tgt) (hnz : tgt.acpu_clk_khz ≠ 0) :
    tgt.acpu_clk_khz = rate := by
  obtain ⟨k, e, hk, hget, hor⟩ := scan_rate_spec rate tbl 0 ti hscan
  have hk' : ti = k := by omega
  subst hk'
  rw [htgt] at hget
  cases hget
  rcases hor with h | h
  · exact absurd h hnz
  · exact h

/-! ## Rejected and trivial requests -/

/-- C1: a rate that is the frequency of no table entry (0 included) is
rejected with -EINVAL and the state, trace included, is left as it was: no
regulator write, bus-vote request, PLL2 write, source enable/disable or mux
write is made and the active entry is unchanged. -/
theorem acpuclk_set_rate_unsupported (env : Env) (m : Machine) (rate : Nat)
    (reason : setrate_reason) (si : Nat) (strt : clkctl_acpu_speed)
    (hcur : m.drv_state.current_speed = some si)
    (hstrt : m.acpu_freq_tbl[si]? = some strt)
    (hactive : strt.acpu_clk_khz ≠ 0)
    (hsent : ∃ e ∈ m.acpu_freq_tbl, e.acpu_clk_khz = 0)
    (hno : ∀ e ∈ m.acpu_freq_tbl, e.acpu_clk_khz ≠ 0 → e.acpu_clk_khz ≠ rate) :
    acpuclk_set_rate env m rate reason = some (-EINVAL, m) := by
  have hmem : strt ∈ m.acpu_freq_tbl := List.getElem?_mem hstrt
  have hne : rate ≠ strt.acpu_clk_khz := fun h => hno strt hmem hactive h.symm
  obtain ⟨k, tgt, hk, hget, hz⟩ := scan_rate_stops_at_sentinel rate m.acpu_freq_tbl hno hsent 0
  simp only [Nat.zero_add] at hk
  simp [acpuclk_set_rate, deref, hcur, hstrt, hne, hk, hget, hz]

/-- C9: a request for the frequency of the active entry returns 0 and leaves
the state, trace included, as it was: nothing is written and the active entry
is unchanged. -/
theorem acpuclk_set_rate_same_rate (env : Env) (m : Machine) (reason : setrate_reason)
    (si : Nat) (strt : clkctl_acpu_speed)
    (hcur : m.drv_state.current_speed = some si)
    (hstrt : m.acpu_freq_tbl[si]? = some strt) :
    acpuclk_set_rate env m strt.acpu_clk_khz reason = some (0, m) := by
  simp [acpuclk_set_rate, deref, hcur, hstrt]

/-- Witness for C1 on the static table with the 122880 kHz entry active: the
rates 0 and 100000 kHz are rejected. -/
theorem acpuclk_set_rate_unsupported_witness :
    acpuclk_set_rate env_ok (machine_at 2) 0 setrate_reason.SETRATE_CPUFREQ
        = some (-EINVAL, machine_at 2) ∧
      acpuclk_set_rate env_ok (machine_at 2) 100000 setrate_reason.SETRATE_PC
        = some (-EINVAL, machine_at 2) :=
  ⟨acpuclk_set_rate_unsupported env_ok (machine_at 2) 0 setrate_reason.SETRATE_CPUFREQ 2 _
      rfl rfl (by decide) (by decide) (by decide),
    acpuclk_set_rate_unsupported env_ok (machine_at 2) 100000 setrate_reason.SETRATE_PC 2 _
      rfl rfl (by decide) (by decide) (by decide)⟩

/-- Witness for C9 on the static table with the 122880 kHz entry active. -/
theorem acpuclk_set_rate_same_rate_witness :
    acpuclk_set_rate env_ok (machine_at 2) 122880 setrate_reason.SETRATE_SWFI
      = some (0, machine_at 2) :=
  acpuclk_set_rate_same_rate env_ok (machine_at 2) setrate_reason.SETRATE_SWFI 2
    ⟨1, 122880, PLL_3, 5, 5, 61440000, 900, VDD_RAW 900, none, 0⟩ rfl rfl

/-! ## Failing raise steps -/

/-- A regulator raise that fails with a negative result aborts the call: the
result is returned, the active entry is unchanged and the only operation made
is the failed regulator write. -/
theorem acpuclk_set_rate_vdd_raise_negative (env : Env) (m : Machine) (rate : Nat)
    (si ti : Nat) (strt tgt : clkctl_acpu_speed)
    (hcur : m.drv_state.current_speed = some si)
    (hstrt : m.acpu_freq_tbl[si]? = some strt)
    (hne : rate ≠ strt.acpu_clk_khz)
    (hscan : scan_rate rate m.acpu_freq_tbl 0 = some ti)
    (htgt : m.acpu_freq_tbl[ti]? = some tgt)
    (hnz : tgt.acpu_clk_khz ≠ 0)
    (hvdd : tgt.vdd_mv > strt.vdd_mv)
    (hfail : env.msm_spm_set_vdd tgt.vdd_raw < 0) :
    acpuclk_set_rate env m rate setrate_reason.SETRATE_CPUFREQ
      = some (env.msm_spm_set_vdd tgt.vdd_raw,
          { m with trace := m.trace ++ [Op.set_acpu_vdd tgt (env.msm_spm_set_vdd tgt.vdd_raw)] }) := by
  have h0 : env.msm_spm_set_vdd tgt.vdd_raw ≠ 0 := by omega
  simp [acpuclk_set_rate, deref, hcur, hstrt, hne, hscan, htgt, hnz, hvdd,
    acpuclk_set_acpu_vdd, h0, hfail]

/-- C2, at the failing input: with the 460800 kHz entry (900 mV) active, a
Scaling request for 576000 kHz (950 mV) in which `msm_spm_set_vdd` returns
the nonzero result 1 is not aborted: the call returns 1, but the mux has been
switched and the active entry is the target. -/
theorem acpuclk_set_rate_vdd_raise_positive :
    (acpuclk_set_rate (env_vdd 1) (machine_at 7) 576000 setrate_reason.SETRATE_CPUFREQ).map
        (fun r => (r.1, r.2.drv_state.current_speed, r.2.trace, r.2.vdd_level))
      = some (1, some 8,
          [Op.set_acpu_vdd ⟨1, 576000, PLL_1, 2, 0, 153600000, 950, VDD_RAW 950, none, 0⟩ 1,
           Op.set_src ⟨1, 576000, PLL_1, 2, 0, 153600000, 950, VDD_RAW 950, none, 0⟩],
          VDD_RAW 900) := by
  decide

/-- C3: when the bus-vote raise fails with a negative result, the call
returns that result, the active entry and the mux and PLL2 registers are
unchanged, and no operation on the clock path (PLL2 write, source
enable/disable, mux write) has been made. -/
theorem acpuclk_set_rate_axi_raise_fails (env : Env) (m : Machine) (rate : Nat)
    (reason : setrate_reason) (si ti : Nat) (strt tgt : clkctl_acpu_speed)
    (hcur : m.drv_state.current_speed = some si)
    (hstrt : m.acpu_freq_tbl[si]? = some strt)
    (hne : rate ≠ strt.acpu_clk_khz)
    (hscan : scan_rate rate m.acpu_freq_tbl 0 = some ti)
    (htgt : m.acpu_freq_tbl[ti]? = some tgt)
    (hnz : tgt.acpu_clk_khz ≠ 0)
    (haxi : tgt.axi_clk_hz > strt.axi_clk_hz)
    (hvdd : reason = setrate_reason.SETRATE_CPUFREQ → tgt.vdd_mv > strt.vdd_mv →
      ¬ env.msm_spm_set_vdd tgt.vdd_raw < 0)
    (hfail : env.clk_set_min_rate tgt.axi_clk_hz < 0) :
    ∃ m' ops, acpuclk_set_rate env m rate reason
        = some (env.clk_set_min_rate tgt.axi_clk_hz, m') ∧
      m'.drv_state = m.drv_state ∧
      m'.trace = m.trace ++ ops ∧ (∀ o ∈ ops, o.clock_path = false) ∧
      m'.SCSS_CLK_CTL = m.SCSS_CLK_CTL ∧ m'.SCSS_CLK_SEL = m.SCSS_CLK_SEL ∧
      m'.PLL2_L_VAL = m.PLL2_L_VAL ∧ m'.PLL2_M_VAL = m.PLL2_M_VAL ∧
      m'.PLL2_N_VAL = m.PLL2_N_VAL ∧ m'.PLL2_CONFIG = m.PLL2_CONFIG := by
  by_cases hraise : reason = setrate_reason.SETRATE_CPUFREQ ∧ tgt.vdd_mv > strt.vdd_mv
  · have hnn := hvdd hraise.1 hraise.2
    refine ⟨(clk_set_min_rate env tgt.axi_clk_hz (acpuclk_set_acpu_vdd env tgt m).2).2,
      [Op.set_acpu_vdd tgt (env.msm_spm_set_vdd tgt.vdd_raw),
        Op.clk_set_min_rate tgt.axi_clk_hz (env.clk_set_min_rate tgt.axi_clk_hz)], ?_, ?_⟩
    · simp only [acpuclk_set_rate, deref, hcur, hstrt, hne, hscan, htgt, hnz, hraise,
        acpuclk_set_acpu_vdd, acpuclk_set_rate_axi, clk_set_min_rate]
      by_cases h0 : env.msm_spm_set_vdd tgt.vdd_raw = 0
      · simp [h0, haxi, hfail]
      · simp [h0, hnn, haxi, hfail]
    · by_cases h0 : env.msm_spm_set_vdd tgt.vdd_raw = 0 <;>
        simp [Op.clock_path, clk_set_min_rate, acpuclk_set_acpu_vdd, h0]
  · refine ⟨(clk_set_min_rate env tgt.axi_clk_hz m).2,
      [Op.clk_set_min_rate tgt.axi_clk_hz (env.clk_set_min_rate tgt.axi_clk_hz)], ?_, ?_⟩
    · simp only [acpuclk_set_rate, deref, hcur, hstrt, hne, hscan, htgt, hnz, hraise,
        acpuclk_set_rate_axi, clk_set_min_rate]
      simp [haxi, hfail]
    · simp [Op.clock_path, clk_set_min_rate]

/-- Witness for C3: with the 122880 kHz entry active, a Scaling request for
1024000 kHz whose bus-vote raise returns -5 returns -5 and leaves the active
entry in place. -/
theorem acpuclk_set_rate_axi_raise_fails_witness :
    (acpuclk_set_rate (env_axi (-5)) (machine_at 2) 1024000
        setrate_reason.SETRATE_CPUFREQ).map (fun r => (r.1, r.2.drv_state.current_speed))
      = some (-5, some 2) := by
  obtain ⟨m', ops, h, hd, _⟩ :=
    acpuclk_set_rate_axi_raise_fails (env_axi (-5)) (machine_at 2) 1024000
      setrate_reason.SETRATE_CPUFREQ 2 13 _ _ rfl rfl (by decide) (by decide) rfl
      (by decide) (by decide) (by decide) (by decide)
  rw [h]
  simp [hd, env_axi, machine_at]

/-! ## What each stage of `acpuclk_set_rate` does -/

theorem acpuclk_set_rate_switch_spec (m : Machine) (strt tgt : clkctl_acpu_speed)
    (ti : Nat) (b : clkctl_acpu_speed) (p : pll)
    (hb : tgt.src = PLL_2 → strt.src = PLL_2 → deref m.acpu_freq_tbl m.backup_s = some b)
    (hp : tgt.src = PLL_2 → tgt.pll_rate = some p) :
    ∃ m', acpuclk_set_rate_switch m strt tgt ti = some m' ∧
      m'.trace = m.trace ++ switch_ops strt tgt b p ∧
      m'.drv_state.current_speed = some ti ∧
      m'.acpu_freq_tbl = m.acpu_freq_tbl ∧ m'.backup_s = m.backup_s ∧
      m'.vdd_level = m.vdd_level ∧ m'.axi_min_rate = m.axi_min_rate ∧
      ∃ c s : Nat, m'.SCSS_CLK_CTL = (set_src_regs tgt c s).1 ∧
        m'.SCSS_CLK_SEL = (set_src_regs tgt c s).2 := by
  by_cases h1 : tgt.src = PLL_2
  · have hp' := hp h1
    by_cases h2 : strt.src = PLL_2
    · have hb' := hb h1 h2
      refine ⟨_, by simp [acpuclk_set_rate_switch, h1, h2, hb', hp']; rfl, ?_⟩
      simp [switch_ops, h1, h2]
      exact ⟨_, _, rfl, rfl⟩
    · have h3 : strt.src ≠ tgt.src := by rw [h1]; exact h2
      have h4 : (0 : Int) ≤ PLL_2 := by decide
      refine ⟨_, by simp [acpuclk_set_rate_switch, h1, h2, hp', h4]; rfl, ?_⟩
      simp [switch_ops, h1, h2, h4]
      exact ⟨_, _, rfl, rfl⟩
  · by_cases h3 : strt.src ≠ tgt.src ∧ tgt.src ≥ 0
    · refine ⟨_, by simp [acpuclk_set_rate_switch, h1, h3]; rfl, ?_⟩
      simp [switch_ops, h1, h3]
      exact ⟨_, _, rfl, rfl⟩
    · refine ⟨_, by simp [acpuclk_set_rate_switch, h1, h3]; rfl, ?_⟩
      simp [switch_ops, h1, h3]
      exact ⟨_, _, rfl, rfl⟩

theorem acpuclk_set_rate_lower_spec (env : Env) (m : Machine) (strt tgt : clkctl_acpu_speed)
    (reason : setrate_reason) :
    (acpuclk_set_rate_lower env m strt tgt reason).trace
        = m.trace ++ lower_ops env reason strt tgt ∧
      (acpuclk_set_rate_lower env m strt tgt reason).drv_state = m.drv_state ∧
      (acpuclk_set_rate_lower env m strt tgt reason).acpu_freq_tbl = m.acpu_freq_tbl ∧
      (acpuclk_set_rate_lower env m strt tgt reason).backup_s = m.backup_s ∧
      (acpuclk_set_rate_lower env m strt tgt reason).SCSS_CLK_CTL = m.SCSS_CLK_CTL ∧
      (acpuclk_set_rate_lower env m strt tgt reason).SCSS_CLK_SEL = m.SCSS_CLK_SEL ∧
      (acpuclk_set_rate_lower env m strt tgt reason).vdd_level
        = (if reason = setrate_reason.SETRATE_CPUFREQ ∧ tgt.vdd_mv < strt.vdd_mv ∧
            env.msm_spm_set_vdd tgt.vdd_raw = 0 then tgt.vdd_raw else m.vdd_level) ∧
      (acpuclk_set_rate_lower env m strt tgt reason).axi_min_rate
        = (if reason ≠ setrate_reason.SETRATE_SWFI ∧ tgt.axi_clk_hz < strt.axi_clk_hz ∧
            env.clk_set_min_rate tgt.axi_clk_hz = 0 then tgt.axi_clk_hz else m.axi_min_rate) := by
  cases reason <;>
  by_cases c2 : strt.src ≠ tgt.src ∧ strt.src ≥ 0 <;>
  by_cases c3 : tgt.axi_clk_hz < strt.axi_clk_hz <;>
  by_cases c4 : tgt.vdd_mv < strt.vdd_mv <;>
  by_cases e1 : env.msm_spm_set_vdd tgt.vdd_raw = 0 <;>
  by_cases e2 : env.clk_set_min_rate tgt.axi_clk_hz = 0 <;>
  simp [acpuclk_set_rate_lower, lower_ops, c2, c3, c4, e1, e2]

theorem acpuclk_set_rate_commit_spec (env : Env) (m : Machine) (strt tgt : clkctl_acpu_speed)
    (ti : Nat) (reason : setrate_reason) (rc : Int) (b : clkctl_acpu_speed) (p : pll)
    (hb : tgt.src = PLL_2 → strt.src = PLL_2 → deref m.acpu_freq_tbl m.backup_s = some b)
    (hp : tgt.src = PLL_2 → tgt.pll_rate = some p) :
    ∃ m', acpuclk_set_rate_commit env m strt tgt ti reason rc = some (rc, m') ∧
      m'.trace = m.trace ++ (switch_ops strt tgt b p ++ lower_ops env reason strt tgt) ∧
      m'.drv_state.current_speed = some ti ∧
      m'.acpu_freq_tbl = m.acpu_freq_tbl ∧ m'.backup_s = m.backup_s ∧
      m'.vdd_level = (if reason = setrate_reason.SETRATE_CPUFREQ ∧ tgt.vdd_mv < strt.vdd_mv ∧
          env.msm_spm_set_vdd tgt.vdd_raw = 0 then tgt.vdd_raw else m.vdd_level) ∧
      m'.axi_min_rate = (if reason ≠ setrate_reason.SETRATE_SWFI ∧
          tgt.axi_clk_hz < strt.axi_clk_hz ∧ env.clk_set_min_rate tgt.axi_clk_hz = 0
          then tgt.axi_clk_hz else m.axi_min_rate) ∧
      ∃ c s : Nat, m'.SCSS_CLK_CTL = (set_src_regs tgt c s).1 ∧
        m'.SCSS_CLK_SEL = (set_src_regs tgt c s).2 := by
  obtain ⟨m1, hsw, htr, hcs, htbl, hbk, hv, ha, c, s, hc, hs⟩ :=
    acpuclk_set_rate_switch_spec m strt tgt ti b p hb hp
  obtain ⟨ltr, lds, ltbl, lbk, lctl, lsel, lv, la⟩ :=
    acpuclk_set_rate_lower_spec env m1 strt tgt reason
  refine ⟨acpuclk_set_rate_lower env m1 strt tgt reason, ?_, ?_, ?_, ?_, ?_, ?_, ?_, c, s, ?_, ?_⟩
  · simp [acpuclk_set_rate_commit, hsw]
  · rw [ltr, htr, List.append_assoc]
  · rw [lds, hcs]
  · rw [ltbl, htbl]
  · rw [lbk, hbk]
  · rw [lv, hv]
  · rw [la, ha]
  · rw [lctl, hc]
  · rw [lsel, hs]

theorem acpuclk_set_rate_run (env : Env) (m : Machine) (rate : Nat) (reason : setrate_reason)
    (si ti : Nat) (strt tgt b : clkctl_acpu_speed) (p : pll)
    (hcur : m.drv_state.current_speed = some si)
    (hstrt : m.acpu_freq_tbl[si]? = some strt)
    (hne : rate ≠ strt.acpu_clk_khz)
    (hscan : scan_rate rate m.acpu_freq_tbl 0 = some ti)
    (htgt : m.acpu_freq_tbl[ti]? = some tgt)
    (hnz : tgt.acpu_clk_khz ≠ 0)
    (hb : tgt.src = PLL_2 → strt.src = PLL_2 → deref m.acpu_freq_tbl m.backup_s = some b)
    (hp : tgt.src = PLL_2 → tgt.pll_rate = some p)
    (hvdd : reason = setrate_reason.SETRATE_CPUFREQ → tgt.vdd_mv > strt.vdd_mv →
      ¬ env.msm_spm_set_vdd tgt.vdd_raw < 0)
    (haxi : tgt.axi_clk_hz > strt.axi_clk_hz → ¬ env.clk_set_min_rate tgt.axi_clk_hz < 0) :
    ∃ m', acpuclk_set_rate env m rate reason = some (raise_rc env reason strt tgt, m') ∧
      m'.trace = m.trace ++ (raise_ops env reason strt tgt ++
        (switch_ops strt tgt b p ++ lower_ops env reason strt tgt)) ∧
      m'.drv_state.current_speed = some ti ∧
      m'.acpu_freq_tbl = m.acpu_freq_tbl ∧ m'.backup_s = m.backup_s ∧
      m'.vdd_level = (if reason = setrate_reason.SETRATE_CPUFREQ ∧ tgt.vdd_mv ≠ strt.vdd_mv ∧
          env.msm_spm_set_vdd tgt.vdd_raw = 0 then tgt.vdd_raw else m.vdd_level) ∧
      m'.axi_min_rate = (if (tgt.axi_clk_hz > strt.axi_clk_hz ∨
          (reason ≠ setrate_reason.SETRATE_SWFI ∧ tgt.axi_clk_hz < strt.axi_clk_hz)) ∧
          env.clk_set_min_rate tgt.axi_clk_hz = 0
          then tgt.axi_clk_hz else m.axi_min_rate) ∧
      ∃ c s : Nat, m'.SCSS_CLK_CTL = (set_src_regs tgt c s).1 ∧
        m'.SCSS_CLK_SEL = (set_src_regs tgt c s).2 := by
  by_cases hA : reason = setrate_reason.SETRATE_CPUFREQ ∧ tgt.vdd_mv > strt.vdd_mv
  · have hAn := hvdd hA.1 hA.2
    have hA2 : ¬ tgt.vdd_mv < strt.vdd_mv := by omega
    have hA3 : tgt.vdd_mv ≠ strt.vdd_mv := by omega
    by_cases hB : tgt.axi_clk_hz > strt.axi_clk_hz
    · have hBn := haxi hB
      have hB2 : ¬ tgt.axi_clk_hz < strt.axi_clk_hz := by omega
      obtain ⟨m', hrun, htr, hcs, htbl, hbk, hv, ha, c, s, hc, hs⟩ :=
        acpuclk_set_rate_commit_spec env
          (clk_set_min_rate env tgt.axi_clk_hz (acpuclk_set_acpu_vdd env tgt m).2).2
          strt tgt ti reason (env.clk_set_min_rate tgt.axi_clk_hz) b p
          (by simpa using hb) hp
      refine ⟨m', ?_, ?_, hcs, ?_, ?_, ?_, ?_, c, s, hc, hs⟩
      · simpa [acpuclk_set_rate, deref, hcur, hstrt, hne, hscan, htgt, hnz, hA, hAn,
          acpuclk_set_rate_axi, hB, hBn, raise_rc] using hrun
      · simp [htr, raise_ops, hA, hB]
      · simpa using htbl
      · simpa using hbk
      · rw [hv]
        clear hv ha hrun htr hcs htbl hbk hc hs hcur hstrt hne hscan htgt hnz hb hp hvdd haxi
        try simp only [acpuclk_set_acpu_vdd_vdd_level, clk_set_min_rate_vdd_level]
        by_cases q : reason = setrate_reason.SETRATE_CPUFREQ <;>
        by_cases y : tgt.vdd_mv < strt.vdd_mv <;>
        by_cases z : tgt.vdd_mv = strt.vdd_mv <;>
        by_cases e : env.msm_spm_set_vdd tgt.vdd_raw = 0 <;>
        simp_all <;> (try split_ifs) <;> omega
      · rw [ha]
        clear hv ha hrun htr hcs htbl hbk hc hs hcur hstrt hne hscan htgt hnz hb hp hvdd haxi
        try simp only [acpuclk_set_acpu_vdd_axi_min_rate, clk_set_min_rate_axi_min_rate]
        by_cases q : reason = setrate_reason.SETRATE_SWFI <;>
        by_cases y : tgt.axi_clk_hz < strt.axi_clk_hz <;>
        by_cases e : env.clk_set_min_rate tgt.axi_clk_hz = 0 <;>
        simp_all <;> (try split_ifs) <;> omega
    · have hB2 : ¬ strt.axi_clk_hz < tgt.axi_clk_hz := hB
      obtain ⟨m', hrun, htr, hcs, htbl, hbk, hv, ha, c, s, hc, hs⟩ :=
        acpuclk_set_rate_commit_spec env (acpuclk_set_acpu_vdd env tgt m).2
          strt tgt ti reason (env.msm_spm_set_vdd tgt.vdd_raw) b p
          (by simpa using hb) hp
      refine ⟨m', ?_, ?_, hcs, ?_, ?_, ?_, ?_, c, s, hc, hs⟩
      · simpa [acpuclk_set_rate, deref, hcur, hstrt, hne, hscan, htgt, hnz, hA, hAn,
          acpuclk_set_rate_axi, hB2, raise_rc] using hrun
      · simp [htr, raise_ops, hA, hB2]
      · simpa using htbl
      · simpa using hbk
      · rw [hv]
        clear hv ha hrun htr hcs htbl hbk hc hs hcur hstrt hne hscan htgt hnz hb hp hvdd haxi
        try simp only [acpuclk_set_acpu_vdd_vdd_level, clk_set_min_rate_vdd_level]
        by_cases q : reason = setrate_reason.SETRATE_CPUFREQ <;>
        by_cases y : tgt.vdd_mv < strt.vdd_mv <;>
        by_cases z : tgt.vdd_mv = strt.vdd_mv <;>
        by_cases e : env.msm_spm_set_vdd tgt.vdd_raw = 0 <;>
        simp_all <;> (try split_ifs) <;> omega
      · rw [ha]
        clear hv ha hrun htr hcs htbl hbk hc hs hcur hstrt hne hscan htgt hnz hb hp hvdd haxi
        try simp only [acpuclk_set_acpu_vdd_axi_min_rate, clk_set_min_rate_axi_min_rate]
        by_cases q : reason = setrate_reason.SETRATE_SWFI <;>
        by_cases y : tgt.axi_clk_hz < strt.axi_clk_hz <;>
        by_cases e : env.clk_set_min_rate tgt.axi_clk_hz = 0 <;>
        simp_all <;> (try split_ifs) <;> omega
  · have hA' : ¬ (reason = setrate_reason.SETRATE_CPUFREQ ∧ strt.vdd_mv < tgt.vdd_mv) := hA
    by_cases hB : tgt.axi_clk_hz > strt.axi_clk_hz
    · have hBn := haxi hB
      have hB2 : ¬ tgt.axi_clk_hz < strt.axi_clk_hz := by omega
      obtain ⟨m', hrun, htr, hcs, htbl, hbk, hv, ha, c, s, hc, hs⟩ :=
        acpuclk_set_rate_commit_spec env (clk_set_min_rate env tgt.axi_clk_hz m).2
          strt tgt ti reason (env.clk_set_min_rate tgt.axi_clk_hz) b p
          (by simpa using hb) hp
      refine ⟨m', ?_, ?_, hcs, ?_, ?_, ?_, ?_, c, s, hc, hs⟩
      · simpa [acpuclk_set_rate, deref, hcur, hstrt, hne, hscan, htgt, hnz, hA',
          acpuclk_set_rate_axi, hB, hBn, raise_rc] using hrun
      · simp [htr, raise_ops, hA', hB]
      · simpa using htbl
      · simpa using hbk
      · rw [hv]
        clear hv ha hrun htr hcs htbl hbk hc hs hcur hstrt hne hscan htgt hnz hb hp hvdd haxi
        try simp only [acpuclk_set_acpu_vdd_vdd_level, clk_set_min_rate_vdd_level]
        by_cases q : reason = setrate_reason.SETRATE_CPUFREQ <;>
        by_cases y : tgt.vdd_mv < strt.vdd_mv <;>
        by_cases z : tgt.vdd_mv = strt.vdd_mv <;>
        by_cases e : env.msm_spm_set_vdd tgt.vdd_raw = 0 <;>
        simp_all <;> (try split_ifs) <;> omega
      · rw [ha]
        clear hv ha hrun htr hcs htbl hbk hc hs hcur hstrt hne hscan htgt hnz hb hp hvdd haxi
        try simp only [acpuclk_set_acpu_vdd_axi_min_rate, clk_set_min_rate_axi_min_rate]
        by_cases q : reason = setrate_reason.SETRATE_SWFI <;>
        by_cases y : tgt.axi_clk_hz < strt.axi_clk_hz <;>
        by_cases e : env.clk_set_min_rate tgt.axi_clk_hz = 0 <;>
        simp_all <;> (try split_ifs) <;> omega
    · have hB2 : ¬ strt.axi_clk_hz < tgt.axi_clk_hz := hB
      obtain ⟨m', hrun, htr, hcs, htbl, hbk, hv, ha, c, s, hc, hs⟩ :=
        acpuclk_set_rate_commit_spec env m strt tgt ti reason 0 b p hb hp
      refine ⟨m', ?_, ?_, hcs, htbl, hbk, ?_, ?_, c, s, hc, hs⟩
      · simpa [acpuclk_set_rate, deref, hcur, hstrt, hne, hscan, htgt, hnz, hA',
          acpuclk_set_rate_axi, hB2, raise_rc] using hrun
      · simp [htr, raise_ops, hA', hB2]
      · rw [hv]
        clear hv ha hrun htr hcs htbl hbk hc hs hcur hstrt hne hscan htgt hnz hb hp hvdd haxi
        try simp only [acpuclk_set_acpu_vdd_vdd_level, clk_set_min_rate_vdd_level]
        by_cases q : reason = setrate_reason.SETRATE_CPUFREQ <;>
        by_cases y : tgt.vdd_mv < strt.vdd_mv <;>
        by_cases z : tgt.vdd_mv = strt.vdd_mv <;>
        by_cases e : env.msm_spm_set_vdd tgt.vdd_raw = 0 <;>
        simp_all <;> (try split_ifs) <;> omega
      · rw [ha]
        clear hv ha hrun htr hcs htbl hbk hc hs hcur hstrt hne hscan htgt hnz hb hp hvdd haxi
        try simp only [acpuclk_set_acpu_vdd_axi_min_rate, clk_set_min_rate_axi_min_rate]
        by_cases q : reason = setrate_reason.SETRATE_SWFI <;>
        by_cases y : tgt.axi_clk_hz < strt.axi_clk_hz <;>
        by_cases e : env.clk_set_min_rate tgt.axi_clk_hz = 0 <;>
        simp_all <;> (try split_ifs) <;> omega

/-! ## The double-buffered mux register -/

theorem xor_one_mod_two (k : Nat) : (k ^^^ 1) % 2 = 1 - k % 2 := by
  have h := Nat.testBit_xor k 1 0
  simp only [Nat.testBit_zero] at h
  rcases Nat.mod_two_eq_zero_or_one k with h0 | h0 <;>
  rcases Nat.mod_two_eq_zero_or_one (k ^^^ 1) with h1 | h1 <;>
  simp [h0, h1] at h ⊢

theorem testBit_small (x n : Nat) (hx : x < 2 ^ n) (j : Nat) (hj : n ≤ j) : x.testBit j = false :=
  Nat.testBit_lt_two_pow (lt_of_lt_of_le hx (Nat.pow_le_pow_right (by norm_num) hj))

theorem field_hi_sel (c a d : Nat) (ha : a ≤ 7) (hd : d ≤ 15) :
    ((((c &&& (0xFFFFFFFF ^^^ (0xFF <<< 8))) ||| ((a <<< 12) % 2 ^ 32)) ||| ((d <<< 8) % 2 ^ 32)) >>> 12) &&& 7 = a := by
  apply Nat.eq_of_testBit_eq
  intro i
  have h7 : (7 : Nat) = 2 ^ 3 - 1 := rfl
  have hm : (0xFFFFFFFF ^^^ (0xFF <<< 8) : Nat) = (2 ^ 32 - 1) ^^^ ((2 ^ 8 - 1) <<< 8) := rfl
  have hab := testBit_small a 3 (by omega)
  have hdb := testBit_small d 4 (by omega)
  rw [h7, hm]
  simp only [Nat.testBit_and, Nat.testBit_shiftRight, Nat.testBit_or, Nat.testBit_xor,
    Nat.testBit_mod_two_pow, Nat.testBit_shiftLeft, Nat.testBit_two_pow_sub_one]
  by_cases hi : i < 3
  · interval_cases i <;> simp [hdb]
  · simp [hi, hab i (by omega)]

theorem field_hi_div (c a d : Nat) (ha : a ≤ 7) (hd : d ≤ 15) :
    ((((c &&& (0xFFFFFFFF ^^^ (0xFF <<< 8))) ||| ((a <<< 12) % 2 ^ 32)) ||| ((d <<< 8) % 2 ^ 32)) >>> 8) &&& 0xF = d := by
  apply Nat.eq_of_testBit_eq
  intro i
  have h7 : (0xF : Nat) = 2 ^ 4 - 1 := rfl
  have hm : (0xFFFFFFFF ^^^ (0xFF <<< 8) : Nat) = (2 ^ 32 - 1) ^^^ ((2 ^ 8 - 1) <<< 8) := rfl
  have hab := testBit_small a 3 (by omega)
  have hdb := testBit_small d 4 (by omega)
  rw [h7, hm]
  simp only [Nat.testBit_and, Nat.testBit_shiftRight, Nat.testBit_or, Nat.testBit_xor,
    Nat.testBit_mod_two_pow, Nat.testBit_shiftLeft, Nat.testBit_two_pow_sub_one]
  by_cases hi : i < 4
  · interval_cases i <;> simp [hdb]
  · simp [hi, hdb i (by omega)]

theorem field_lo_sel (c a d : Nat) (ha : a ≤ 7) (hd : d ≤ 15) :
    ((((c &&& (0xFFFFFFFF ^^^ (0xFF <<< 0))) ||| ((a <<< 4) % 2 ^ 32)) ||| ((d <<< 0) % 2 ^ 32)) >>> 4) &&& 7 = a := by
  apply Nat.eq_of_testBit_eq
  intro i
  have h7 : (7 : Nat) = 2 ^ 3 - 1 := rfl
  have hm : (0xFFFFFFFF ^^^ (0xFF <<< 0) : Nat) = (2 ^ 32 - 1) ^^^ ((2 ^ 8 - 1) <<< 0) := rfl
  have hab := testBit_small a 3 (by omega)
  have hdb := testBit_small d 4 (by omega)
  rw [h7, hm]
  simp only [Nat.testBit_and, Nat.testBit_shiftRight, Nat.testBit_or, Nat.testBit_xor,
    Nat.testBit_mod_two_pow, Nat.testBit_shiftLeft, Nat.testBit_two_pow_sub_one]
  by_cases hi : i < 3
  · interval_cases i <;> simp [hdb]
  · simp [hi, hab i (by omega)]

theorem field_lo_div (c a d : Nat) (ha : a ≤ 7) (hd : d ≤ 15) :
    ((((c &&& (0xFFFFFFFF ^^^ (0xFF <<< 0))) ||| ((a <<< 4) % 2 ^ 32)) ||| ((d <<< 0) % 2 ^ 32)) >>> 0) &&& 0xF = d := by
  apply Nat.eq_of_testBit_eq
  intro i
  have h7 : (0xF : Nat) = 2 ^ 4 - 1 := rfl
  have hm : (0xFFFFFFFF ^^^ (0xFF <<< 0) : Nat) = (2 ^ 32 - 1) ^^^ ((2 ^ 8 - 1) <<< 0) := rfl
  have hab := testBit_small a 3 (by omega)
  have hdb := testBit_small d 4 (by omega)
  rw [h7, hm]
  simp only [Nat.testBit_and, Nat.testBit_shiftRight, Nat.testBit_or, Nat.testBit_xor,
    Nat.testBit_mod_two_pow, Nat.testBit_shiftLeft, Nat.testBit_two_pow_sub_one]
  by_cases hi : i < 4
  · interval_cases i <;> simp [hdb]
  · simp [hi, hdb i (by omega)]

theorem set_src_regs_live (s : clkctl_acpu_speed) (c k : Nat)
    (hsel : s.acpu_src_sel ≤ 7) (hdiv : s.acpu_src_div ≤ 15) :
    ((set_src_regs s c k).1 >>> (12 - 8 * ((set_src_regs s c k).2 &&& 0x1))) &&& 0x7
        = s.acpu_src_sel ∧
      ((set_src_regs s c k).1 >>> (8 - 8 * ((set_src_regs s c k).2 &&& 0x1))) &&& 0xF
        = s.acpu_src_div := by
  have hx := xor_one_mod_two k
  rcases Nat.mod_two_eq_zero_or_one k with h0 | h0
  · have h1 : (k ^^^ 1) % 2 = 1 := by omega
    have a1 := field_lo_sel c s.acpu_src_sel s.acpu_src_div hsel hdiv
    have a2 := field_lo_div c s.acpu_src_sel s.acpu_src_div hsel hdiv
    simp only [set_src_regs, Nat.and_one_is_mod, h0, h1]
    exact ⟨a1, a2⟩
  · have h1 : (k ^^^ 1) % 2 = 0 := by omega
    have a1 := field_hi_sel c s.acpu_src_sel s.acpu_src_div hsel hdiv
    have a2 := field_hi_div c s.acpu_src_sel s.acpu_src_div hsel hdiv
    simp only [set_src_regs, Nat.and_one_is_mod, h0, h1]
    exact ⟨a1, a2⟩

theorem live_of_regs (m : Machine) (s : clkctl_acpu_speed) (c k : Nat)
    (hsel : s.acpu_src_sel ≤ 7) (hdiv : s.acpu_src_div ≤ 15)
    (hc : m.SCSS_CLK_CTL = (set_src_regs s c k).1)
    (hk : m.SCSS_CLK_SEL = (set_src_regs s c k).2) :
    live_sel m = s.acpu_src_sel ∧ live_div m = s.acpu_src_div := by
  unfold live_sel live_div
  rw [hc, hk]
  exact set_src_regs_live s c k hsel hdiv

/-! ## The PLL2 registers -/

theorem acpuclk_config_pll2_programmed (p : pll) (m : Machine) :
    pll2_programmed (acpuclk_config_pll2 p m) p m.PLL2_CONFIG := by
  refine ⟨rfl, rfl, rfl, ?_, ?_⟩
  · have h15 : (1 <<< 15 : Nat) = 2 ^ 15 := rfl
    have hm : (0xFFFFFFFF ^^^ (1 <<< 15) : Nat) = (2 ^ 32 - 1) ^^^ 2 ^ 15 := rfl
    by_cases hp : p.pre_div = 0
    · simp only [acpuclk_config_pll2, hp, ne_eq, not_true_eq_false, if_false, hm,
        Nat.testBit_and, Nat.testBit_xor, Nat.testBit_two_pow_sub_one, Nat.testBit_two_pow]
      simp
    · simp only [acpuclk_config_pll2, hp, ne_eq, not_false_eq_true, if_true, h15,
        Nat.testBit_or, Nat.testBit_two_pow]
      simp
  · intro i hi h32
    have h15 : (1 <<< 15 : Nat) = 2 ^ 15 := rfl
    have hm : (0xFFFFFFFF ^^^ (1 <<< 15) : Nat) = (2 ^ 32 - 1) ^^^ 2 ^ 15 := rfl
    have hne : ¬ 15 = i := fun h => hi h.symm
    by_cases hp : p.pre_div = 0
    · simp only [acpuclk_config_pll2, hp, ne_eq, not_true_eq_false, if_false, hm,
        Nat.testBit_and, Nat.testBit_xor, Nat.testBit_two_pow_sub_one, Nat.testBit_two_pow]
      simp [hne, h32]
    · simp only [acpuclk_config_pll2, hp, ne_eq, not_false_eq_true, if_true, h15,
        Nat.testBit_or, Nat.testBit_two_pow]
      simp [hne]

theorem pll2_programmed_of_regs (m m1 : Machine) (p : pll) (config : Nat)
    (h : pll2_programmed m1 p config)
    (hl : m.PLL2_L_VAL = m1.PLL2_L_VAL) (hm : m.PLL2_M_VAL = m1.PLL2_M_VAL)
    (hn : m.PLL2_N_VAL = m1.PLL2_N_VAL) (hc : m.PLL2_CONFIG = m1.PLL2_CONFIG) :
    pll2_programmed m p config := by
  unfold pll2_programmed at h ⊢
  rw [hl, hm, hn, hc]
  exact h

theorem acpuclk_set_rate_switch_pll2 (m m1 : Machine) (strt tgt : clkctl_acpu_speed)
    (ti : Nat) (p : pll) (hp : tgt.src = PLL_2 → tgt.pll_rate = some p)
    (h : acpuclk_set_rate_switch m strt tgt ti = some m1) :
    (tgt.src = PLL_2 → pll2_programmed m1 p m.PLL2_CONFIG) ∧
      (tgt.src ≠ PLL_2 → pll2_untouched m1 m) := by
  by_cases h1 : tgt.src = PLL_2
  · have hq := hp h1
    refine ⟨fun _ => ?_, fun hn => absurd h1 hn⟩
    by_cases h2 : strt.src = PLL_2
    · cases hb : deref m.acpu_freq_tbl m.backup_s with
      | none => simp [acpuclk_set_rate_switch, h1, h2, hb] at h
      | some b =>
        simp [acpuclk_set_rate_switch, h1, h2, hb, hq] at h
        subst h
        exact pll2_programmed_of_regs _ _ p _
          (acpuclk_config_pll2_programmed p
            (local_src_disable PLL_2 (acpuclk_set_src b (local_src_enable b.src m))))
          (by simp) (by simp) (by simp) (by simp)
    · have h3 : strt.src ≠ tgt.src := by rw [h1]; exact h2
      have h4 : (0 : Int) ≤ PLL_2 := by decide
      simp [acpuclk_set_rate_switch, h1, h2, hq, h4] at h
      subst h
      exact pll2_programmed_of_regs _ _ p _ (acpuclk_config_pll2_programmed p m)
        (by simp) (by simp) (by simp) (by simp)
  · refine ⟨fun hn => absurd hn h1, fun _ => ?_⟩
    by_cases h3 : strt.src ≠ tgt.src ∧ tgt.src ≥ 0
    · simp [acpuclk_set_rate_switch, h1, h3] at h
      subst h
      exact ⟨by simp, by simp, by simp, by simp⟩
    · simp [acpuclk_set_rate_switch, h1, h3] at h
      subst h
      exact ⟨by simp, by simp, by simp, by simp⟩

theorem acpuclk_set_rate_lower_pll2 (env : Env) (m : Machine) (strt tgt : clkctl_acpu_speed)
    (reason : setrate_reason) :
    pll2_untouched (acpuclk_set_rate_lower env m strt tgt reason) m := by
  unfold pll2_untouched
  cases reason <;>
  by_cases c2 : strt.src ≠ tgt.src ∧ strt.src ≥ 0 <;>
  by_cases c3 : tgt.axi_clk_hz < strt.axi_clk_hz <;>
  by_cases c4 : tgt.vdd_mv < strt.vdd_mv <;>
  simp [acpuclk_set_rate_lower, c2, c3, c4]

theorem acpuclk_set_rate_commit_pll2 (env : Env) (m m2 : Machine)
    (strt tgt : clkctl_acpu_speed) (ti : Nat) (reason : setrate_reason) (rc r : Int)
    (p : pll) (hp : tgt.src = PLL_2 → tgt.pll_rate = some p)
    (h : acpuclk_set_rate_commit env m strt tgt ti reason rc = some (r, m2)) :
    (tgt.src = PLL_2 → pll2_programmed m2 p m.PLL2_CONFIG) ∧
      (tgt.src ≠ PLL_2 → pll2_untouched m2 m) := by
  unfold acpuclk_set_rate_commit at h
  cases hsw : acpuclk_set_rate_switch m strt tgt ti with
  | none => simp [hsw] at h
  | some m1 =>
    simp only [hsw, Option.some.injEq, Prod.mk.injEq] at h
    obtain ⟨-, hm2⟩ := h
    subst hm2
    obtain ⟨a1, a2⟩ := acpuclk_set_rate_switch_pll2 m m1 strt tgt ti p hp hsw
    obtain ⟨l1, l2, l3, l4⟩ := acpuclk_set_rate_lower_pll2 env m1 strt tgt reason
    refine ⟨fun h1 => pll2_programmed_of_regs _ _ p _ (a1 h1) l1 l2 l3 l4, fun h1 => ?_⟩
    obtain ⟨b1, b2, b3, b4⟩ := a2 h1
    exact ⟨l1.trans b1, l2.trans b2, l3.trans b3, l4.trans b4⟩

theorem acpuclk_set_rate_pll2 (env : Env) (m m2 : Machine) (rate : Nat)
    (reason : setrate_reason) (si ti : Nat) (strt tgt : clkctl_acpu_speed) (p : pll) (r : Int)
    (hcur : m.drv_state.current_speed = some si)
    (hstrt : m.acpu_freq_tbl[si]? = some strt)
    (hne : rate ≠ strt.acpu_clk_khz)
    (hscan : scan_rate rate m.acpu_freq_tbl 0 = some ti)
    (htgt : m.acpu_freq_tbl[ti]? = some tgt)
    (hnz : tgt.acpu_clk_khz ≠ 0)
    (hp : tgt.src = PLL_2 → tgt.pll_rate = some p)
    (hvdd : reason = setrate_reason.SETRATE_CPUFREQ → tgt.vdd_mv > strt.vdd_mv →
      ¬ env.msm_spm_set_vdd tgt.vdd_raw < 0)
    (haxi : tgt.axi_clk_hz > strt.axi_clk_hz → ¬ env.clk_set_min_rate tgt.axi_clk_hz < 0)
    (h : acpuclk_set_rate env m rate reason = some (r, m2)) :
    (tgt.src = PLL_2 → pll2_programmed m2 p m.PLL2_CONFIG) ∧
      (tgt.src ≠ PLL_2 → pll2_untouched m2 m) := by
  simp only [acpuclk_set_rate, deref, hcur, hstrt, hne, hscan, htgt, hnz, if_false] at h
  by_cases hA : reason = setrate_reason.SETRATE_CPUFREQ ∧ tgt.vdd_mv > strt.vdd_mv
  · have hAn := hvdd hA.1 hA.2
    by_cases hB : tgt.axi_clk_hz > strt.axi_clk_hz
    · have hBn := haxi hB
      simp [hA, hAn, acpuclk_set_rate_axi, hB, hBn] at h
      have := acpuclk_set_rate_commit_pll2 env _ m2 strt tgt ti _ _ r p hp h
      simpa [pll2_untouched] using this
    · simp [hA, hAn, acpuclk_set_rate_axi, hB] at h
      have := acpuclk_set_rate_commit_pll2 env _ m2 strt tgt ti _ _ r p hp h
      simpa [pll2_untouched] using this
  · by_cases hB : tgt.axi_clk_hz > strt.axi_clk_hz
    · have hBn := haxi hB
      simp [hA, acpuclk_set_rate_axi, hB, hBn] at h
      have := acpuclk_set_rate_commit_pll2 env _ m2 strt tgt ti _ _ r p hp h
      simpa [pll2_untouched] using this
    · simp [hA, acpuclk_set_rate_axi, hB] at h
      have := acpuclk_set_rate_commit_pll2 env _ m2 strt tgt ti _ _ r p hp h
      simpa [pll2_untouched] using this

/-! ## Successful switches -/

/-- C7: a Scaling call from an entry whose source has an enable/disable
lifecycle and is not PLL_2, to a PLL_2 entry with higher voltage and higher
bus rate, with both collaborator calls succeeding, performs exactly: regulator
write for the target (its `vdd_raw`), bus-vote request of the target's
`axi_clk_hz`, PLL2 write of the target's configuration, enable PLL_2, mux
switch to the target, disable the old source.  It returns 0; the regulator and
the bus vote hold the target's values, the PLL2 registers hold the target's
L, M, N and pre-divider bit, the live half of the mux decodes to the target's
selector and divider, and `acpuclk_get_rate` then returns the requested
frequency, which is the target's. -/
theorem acpuclk_set_rate_to_pll2 (env : Env) (m : Machine) (rate : Nat) (si ti : Nat)
    (strt tgt : clkctl_acpu_speed) (p : pll)
    (hcur : m.drv_state.current_speed = some si)
    (hstrt : m.acpu_freq_tbl[si]? = some strt)
    (hne : rate ≠ strt.acpu_clk_khz)
    (hscan : scan_rate rate m.acpu_freq_tbl 0 = some ti)
    (htgt : m.acpu_freq_tbl[ti]? = some tgt)
    (hnz : tgt.acpu_clk_khz ≠ 0)
    (hsrc0 : strt.src ≥ 0) (hsrc2 : strt.src ≠ PLL_2)
    (htsrc : tgt.src = PLL_2) (hpll : tgt.pll_rate = some p)
    (hsel : tgt.acpu_src_sel ≤ 7) (hdiv : tgt.acpu_src_div ≤ 15)
    (hv : tgt.vdd_mv > strt.vdd_mv) (ha : tgt.axi_clk_hz > strt.axi_clk_hz)
    (hev : env.msm_spm_set_vdd tgt.vdd_raw = 0)
    (hea : env.clk_set_min_rate tgt.axi_clk_hz = 0) :
    ∃ m', acpuclk_set_rate env m rate setrate_reason.SETRATE_CPUFREQ = some (0, m') ∧
      m'.trace = m.trace ++
        [Op.set_acpu_vdd tgt 0, Op.clk_set_min_rate tgt.axi_clk_hz 0, Op.config_pll2 p,
          Op.local_src_enable PLL_2, Op.set_src tgt, Op.local_src_disable strt.src] ∧
      m'.vdd_level = tgt.vdd_raw ∧ m'.axi_min_rate = tgt.axi_clk_hz ∧
      pll2_programmed m' p m.PLL2_CONFIG ∧
      live_sel m' = tgt.acpu_src_sel ∧ live_div m' = tgt.acpu_src_div ∧
      acpuclk_get_rate m' = rate ∧ tgt.acpu_clk_khz = rate := by
  obtain ⟨m', hrun, htr, hcs, htbl, hbk, hvl, hal, c, k, hc, hk⟩ :=
    acpuclk_set_rate_run env m rate setrate_reason.SETRATE_CPUFREQ si ti strt tgt tgt p
      hcur hstrt hne hscan htgt hnz (fun _ h => absurd h hsrc2) (fun _ => hpll)
      (fun _ _ => by omega) (fun _ => by omega)
  obtain ⟨hls, hld⟩ := live_of_regs m' tgt c k hsel hdiv hc hk
  have hpll2 := (acpuclk_set_rate_pll2 env m m' rate setrate_reason.SETRATE_CPUFREQ si ti
    strt tgt p _ hcur hstrt hne hscan htgt hnz (fun _ => hpll)
    (fun _ _ => by omega) (fun _ => by omega) hrun).1 htsrc
  have hrate := scan_rate_found rate m.acpu_freq_tbl ti tgt hscan htgt hnz
  have h3 : strt.src ≠ tgt.src := by rw [htsrc]; exact hsrc2
  have h4 : (0 : Int) ≤ PLL_2 := by decide
  have h5 : ¬ tgt.vdd_mv < strt.vdd_mv := by omega
  have h6 : ¬ tgt.axi_clk_hz < strt.axi_clk_hz := by omega
  have h7 : tgt.vdd_mv ≠ strt.vdd_mv := by omega
  refine ⟨m', ?_, ?_, ?_, ?_, hpll2, hls, hld, ?_, hrate⟩
  · simpa [raise_rc, ha, hea] using hrun
  · rw [htr]
    simp [raise_ops, switch_ops, lower_ops, hv, ha, hev, hea, htsrc, hsrc2, hsrc0, h4, h5, h6]
  · simp [hvl, h7, hev]
  · simp [hal, ha, hea]
  · simp [acpuclk_get_rate, deref, hcs, htbl, htgt, hrate]

/-- Witness for C7: 122880 kHz active, target 1024000 kHz, on the static
table; the PLL2 write is of `L/M/N/pre_div = 53,1,3,0`. -/
theorem acpuclk_set_rate_to_pll2_witness :
    ∃ m', acpuclk_set_rate env_ok (machine_at 2) 1024000 setrate_reason.SETRATE_CPUFREQ
        = some (0, m') ∧
      m'.trace = (machine_at 2).trace ++
        [Op.set_acpu_vdd ⟨1, 1024000, PLL_2, 3, 0, UINT_MAX, 1000, VDD_RAW 1000, some ⟨53, 1, 3, 0⟩, 0⟩ 0,
          Op.clk_set_min_rate UINT_MAX 0, Op.config_pll2 ⟨53, 1, 3, 0⟩,
          Op.local_src_enable PLL_2,
          Op.set_src ⟨1, 1024000, PLL_2, 3, 0, UINT_MAX, 1000, VDD_RAW 1000, some ⟨53, 1, 3, 0⟩, 0⟩,
          Op.local_src_disable PLL_3] ∧
      m'.vdd_level = VDD_RAW 1000 ∧ m'.axi_min_rate = UINT_MAX ∧
      pll2_programmed m' ⟨53, 1, 3, 0⟩ (machine_at 2).PLL2_CONFIG ∧
      live_sel m' = 3 ∧ live_div m' = 0 ∧
      acpuclk_get_rate m' = 1024000 ∧ (1024000 : Nat) = 1024000 :=
  acpuclk_set_rate_to_pll2 env_ok (machine_at 2) 1024000 2 13
    ⟨1, 122880, PLL_3, 5, 5, 61440000, 900, VDD_RAW 900, none, 0⟩
    ⟨1, 1024000, PLL_2, 3, 0, UINT_MAX, 1000, VDD_RAW 1000, some ⟨53, 1, 3, 0⟩, 0⟩
    ⟨53, 1, 3, 0⟩ rfl rfl (by decide) (by decide) rfl (by decide) (by decide) (by decide)
    rfl rfl (by decide) (by decide) (by decide) (by decide) rfl rfl

/-- C5: a switch between two PLL_2 entries that is not aborted by a failed
raise step makes, for every call reason, exactly these operations on the clock
path, in this order: enable the backup point's source, switch the mux to the
backup point, disable PLL_2, write the target's configuration to PLL2, enable
PLL_2, switch the mux to the target, disable the backup point's source.  On
return the PLL2 registers hold the target's L, M, N and pre-divider bit, the
live mux half decodes to the target's selector and divider, the active entry
is the target and every source's reference count is what it was before the
call. -/
theorem acpuclk_set_rate_pll2_hop (env : Env) (m : Machine) (rate : Nat)
    (reason : setrate_reason) (si ti : Nat) (strt tgt b : clkctl_acpu_speed) (p : pll)
    (hcur : m.drv_state.current_speed = some si)
    (hstrt : m.acpu_freq_tbl[si]? = some strt)
    (hne : rate ≠ strt.acpu_clk_khz)
    (hscan : scan_rate rate m.acpu_freq_tbl 0 = some ti)
    (htgt : m.acpu_freq_tbl[ti]? = some tgt)
    (hnz : tgt.acpu_clk_khz ≠ 0)
    (hssrc : strt.src = PLL_2) (htsrc : tgt.src = PLL_2)
    (hbackup : deref m.acpu_freq_tbl m.backup_s = some b)
    (hpll : tgt.pll_rate = some p)
    (hsel : tgt.acpu_src_sel ≤ 7) (hdiv : tgt.acpu_src_div ≤ 15)
    (hvdd : reason = setrate_reason.SETRATE_CPUFREQ → tgt.vdd_mv > strt.vdd_mv →
      ¬ env.msm_spm_set_vdd tgt.vdd_raw < 0)
    (haxi : tgt.axi_clk_hz > strt.axi_clk_hz → ¬ env.clk_set_min_rate tgt.axi_clk_hz < 0) :
    ∃ rc m' ops, acpuclk_set_rate env m rate reason = some (rc, m') ∧
      m'.trace = m.trace ++ ops ∧
      ops.filter Op.clock_path =
        [Op.local_src_enable b.src, Op.set_src b, Op.local_src_disable PLL_2,
          Op.config_pll2 p, Op.local_src_enable PLL_2, Op.set_src tgt,
          Op.local_src_disable b.src] ∧
      pll2_programmed m' p m.PLL2_CONFIG ∧
      live_sel m' = tgt.acpu_src_sel ∧ live_div m' = tgt.acpu_src_div ∧
      m'.drv_state.current_speed = some ti ∧
      ∀ src, src_refs ops src = 0 := by
  obtain ⟨m', hrun, htr, hcs, -, -, -, -, c, k, hc, hk⟩ :=
    acpuclk_set_rate_run env m rate reason si ti strt tgt b p
      hcur hstrt hne hscan htgt hnz (fun _ _ => hbackup) (fun _ => hpll) hvdd haxi
  obtain ⟨hls, hld⟩ := live_of_regs m' tgt c k hsel hdiv hc hk
  have hpll2 := (acpuclk_set_rate_pll2 env m m' rate reason si ti strt tgt p _
    hcur hstrt hne hscan htgt hnz (fun _ => hpll) hvdd haxi hrun).1 htsrc
  have hsw : switch_ops strt tgt b p =
      [Op.local_src_enable b.src, Op.set_src b, Op.local_src_disable PLL_2,
        Op.config_pll2 p, Op.local_src_enable PLL_2, Op.set_src tgt,
        Op.local_src_disable b.src] := by
    simp [switch_ops, hssrc, htsrc]
  refine ⟨_, m', _, hrun, htr, ?_, hpll2, hls, hld, hcs, ?_⟩
  · rw [hsw]
    cases reason <;>
    by_cases c1 : tgt.vdd_mv > strt.vdd_mv <;>
    by_cases c2 : tgt.axi_clk_hz > strt.axi_clk_hz <;>
    by_cases c3 : tgt.axi_clk_hz < strt.axi_clk_hz <;>
    by_cases c4 : tgt.vdd_mv < strt.vdd_mv <;>
    simp [raise_ops, lower_ops, c1, c2, c3, c4, hssrc, htsrc, List.filter, Op.clock_path]
  · intro src
    rw [hsw]
    cases reason <;>
    by_cases c1 : tgt.vdd_mv > strt.vdd_mv <;>
    by_cases c2 : tgt.axi_clk_hz > strt.axi_clk_hz <;>
    by_cases c3 : tgt.axi_clk_hz < strt.axi_clk_hz <;>
    by_cases c4 : tgt.vdd_mv < strt.vdd_mv <;>
    by_cases c5 : b.src = src <;>
    by_cases c6 : PLL_2 = src <;>
    simp [src_refs, raise_ops, lower_ops, c1, c2, c3, c4, c5, c6, hssrc, htsrc, List.filter]

/-- Witness for C5: 806400 kHz active, target 921600 kHz, on the static table
with the 768000 kHz entry as backup point. -/
theorem acpuclk_set_rate_pll2_hop_witness :
    ∃ rc m' ops, acpuclk_set_rate env_ok (machine_at 11) 921600 setrate_reason.SETRATE_SWFI
        = some (rc, m') ∧
      m'.trace = (machine_at 11).trace ++ ops ∧
      ops.filter Op.clock_path =
        [Op.local_src_enable PLL_1,
          Op.set_src ⟨1, 768000, PLL_1, 2, 0, 153600000, 950, VDD_RAW 950, none, 0⟩,
          Op.local_src_disable PLL_2,
          Op.config_pll2 ⟨48, 1, 3, 0⟩, Op.local_src_enable PLL_2,
          Op.set_src ⟨1, 921600, PLL_2, 3, 0, UINT_MAX, 1000, VDD_RAW 1000, some ⟨48, 1, 3, 0⟩, 0⟩,
          Op.local_src_disable PLL_1] ∧
      pll2_programmed m' ⟨48, 1, 3, 0⟩ (machine_at 11).PLL2_CONFIG ∧
      live_sel m' = 3 ∧ live_div m' = 0 ∧
      m'.drv_state.current_speed = some 12 ∧
      ∀ src, src_refs ops src = 0 :=
  acpuclk_set_rate_pll2_hop env_ok (machine_at 11) 921600 setrate_reason.SETRATE_SWFI 11 12
    ⟨1, 806400, PLL_2, 3, 0, UINT_MAX, 1000, VDD_RAW 1000, some ⟨42, 0, 1, 0⟩, 0⟩
    ⟨1, 921600, PLL_2, 3, 0, UINT_MAX, 1000, VDD_RAW 1000, some ⟨48, 1, 3, 0⟩, 0⟩
    ⟨1, 768000, PLL_1, 2, 0, 153600000, 950, VDD_RAW 950, none, 0⟩
    ⟨48, 1, 3, 0⟩ rfl rfl (by decide) (by decide) rfl (by decide) rfl rfl rfl rfl
    (by decide) (by decide) (by decide) (by decide)

/-! ## Failing lowering steps -/

/-- C8: in a call to an entry other than the active one in which every raise
step that is made returns 0, whatever the bus-vote lowering and the regulator
lowering return (failures included), the call returns 0, the active entry is
the target and the live mux half decodes to the target's selector and
divider; the lowering requests are made with the results the collaborators
give. -/
theorem acpuclk_set_rate_lowering_failures (env : Env) (m : Machine) (rate : Nat)
    (reason : setrate_reason) (si ti : Nat) (strt tgt b : clkctl_acpu_speed) (p : pll)
    (hcur : m.drv_state.current_speed = some si)
    (hstrt : m.acpu_freq_tbl[si]? = some strt)
    (hne : rate ≠ strt.acpu_clk_khz)
    (hscan : scan_rate rate m.acpu_freq_tbl 0 = some ti)
    (htgt : m.acpu_freq_tbl[ti]? = some tgt)
    (hnz : tgt.acpu_clk_khz ≠ 0)
    (hb : tgt.src = PLL_2 → strt.src = PLL_2 → deref m.acpu_freq_tbl m.backup_s = some b)
    (hp : tgt.src = PLL_2 → tgt.pll_rate = some p)
    (hsel : tgt.acpu_src_sel ≤ 7) (hdiv : tgt.acpu_src_div ≤ 15)
    (hvdd : reason = setrate_reason.SETRATE_CPUFREQ → tgt.vdd_mv > strt.vdd_mv →
      env.msm_spm_set_vdd tgt.vdd_raw = 0)
    (haxi : tgt.axi_clk_hz > strt.axi_clk_hz → env.clk_set_min_rate tgt.axi_clk_hz = 0) :
    ∃ m' ops, acpuclk_set_rate env m rate reason = some (0, m') ∧
      m'.drv_state.current_speed = some ti ∧
      live_sel m' = tgt.acpu_src_sel ∧ live_div m' = tgt.acpu_src_div ∧
      m'.trace = m.trace ++ ops ∧
      (reason ≠ setrate_reason.SETRATE_SWFI → tgt.axi_clk_hz < strt.axi_clk_hz →
        Op.clk_set_min_rate tgt.axi_clk_hz (env.clk_set_min_rate tgt.axi_clk_hz) ∈ ops) ∧
      (reason = setrate_reason.SETRATE_CPUFREQ → tgt.vdd_mv < strt.vdd_mv →
        Op.set_acpu_vdd tgt (env.msm_spm_set_vdd tgt.vdd_raw) ∈ ops) := by
  obtain ⟨m', hrun, htr, hcs, -, -, -, -, c, k, hc, hk⟩ :=
    acpuclk_set_rate_run env m rate reason si ti strt tgt b p
      hcur hstrt hne hscan htgt hnz hb hp
      (fun h1 h2 => by rw [hvdd h1 h2]; decide) (fun h => by rw [haxi h]; decide)
  obtain ⟨hls, hld⟩ := live_of_regs m' tgt c k hsel hdiv hc hk
  have hrc : raise_rc env reason strt tgt = 0 := by
    unfold raise_rc
    split_ifs with h1 h2
    · exact haxi h1
    · exact hvdd h2.1 h2.2
    · rfl
  rw [hrc] at hrun
  refine ⟨m', _, hrun, hcs, hls, hld, htr, ?_, ?_⟩
  · intro hr ha
    simp [lower_ops, hr, ha]
  · intro hr hv
    simp [lower_ops, hr, hv]

/-- Witness for C8: a Scaling call from 1024000 kHz to 122880 kHz in which the
bus-vote lowering and the regulator lowering both fail with -5. -/
theorem acpuclk_set_rate_lowering_failures_witness :
    ∃ m' ops, acpuclk_set_rate env_fail (machine_at 13) 122880 setrate_reason.SETRATE_CPUFREQ
        = some (0, m') ∧
      m'.drv_state.current_speed = some 2 ∧
      live_sel m' = 5 ∧ live_div m' = 5 ∧
      m'.trace = (machine_at 13).trace ++ ops ∧
      (setrate_reason.SETRATE_CPUFREQ ≠ setrate_reason.SETRATE_SWFI → 61440000 < UINT_MAX →
        Op.clk_set_min_rate 61440000 (-5) ∈ ops) ∧
      (setrate_reason.SETRATE_CPUFREQ = setrate_reason.SETRATE_CPUFREQ → 900 < 1000 →
        Op.set_acpu_vdd ⟨1, 122880, PLL_3, 5, 5, 61440000, 900, VDD_RAW 900, none, 0⟩ (-5) ∈ ops) :=
  acpuclk_set_rate_lowering_failures env_fail (machine_at 13) 122880
    setrate_reason.SETRATE_CPUFREQ 13 2
    ⟨1, 1024000, PLL_2, 3, 0, UINT_MAX, 1000, VDD_RAW 1000, some ⟨53, 1, 3, 0⟩, 0⟩
    ⟨1, 122880, PLL_3, 5, 5, 61440000, 900, VDD_RAW 900, none, 0⟩
    sentinel ⟨0, 0, 0, 0⟩ rfl rfl (by decide) (by decide) rfl (by decide)
    (by decide) (by decide) (by decide) (by decide) (by decide) (by decide)

/-! ## Calls that return, and what the idle paths leave alone -/

theorem scan_rate_total (rate : Nat) (tbl : List clkctl_acpu_speed)
    (hsent : ∃ e ∈ tbl, e.acpu_clk_khz = 0) (i : Nat) :
    ∃ k e, scan_rate rate tbl i = some (i + k) ∧ tbl[k]? = some e := by
  induction tbl generalizing i with
  | nil => simp at hsent
  | cons s rest ih =>
    by_cases hz : s.acpu_clk_khz = 0
    · exact ⟨0, s, by simp [scan_rate, hz], by simp⟩
    · by_cases hr : s.acpu_clk_khz = rate
      · exact ⟨0, s, by simp [scan_rate, hz, hr], by simp⟩
      · have hsent' : ∃ e ∈ rest, e.acpu_clk_khz = 0 := by
          obtain ⟨e, he, hez⟩ := hsent
          rcases List.mem_cons.mp he with h | h
          · exact absurd (h ▸ hez) hz
          · exact ⟨e, h, hez⟩
        obtain ⟨k, e, hk, hget⟩ := ih hsent' (i + 1)
        refine ⟨k + 1, e, ?_, by simpa using hget⟩
        simp [scan_rate, hz, hr, hk]
        omega

theorem acpuclk_set_rate_axi_abort (env : Env) (m : Machine) (rate : Nat)
    (reason : setrate_reason) (si ti : Nat) (strt tgt : clkctl_acpu_speed)
    (hcur : m.drv_state.current_speed = some si)
    (hstrt : m.acpu_freq_tbl[si]? = some strt)
    (hne : rate ≠ strt.acpu_clk_khz)
    (hscan : scan_rate rate m.acpu_freq_tbl 0 = some ti)
    (htgt : m.acpu_freq_tbl[ti]? = some tgt)
    (hnz : tgt.acpu_clk_khz ≠ 0)
    (haxi : tgt.axi_clk_hz > strt.axi_clk_hz)
    (hvdd : reason = setrate_reason.SETRATE_CPUFREQ → tgt.vdd_mv > strt.vdd_mv →
      ¬ env.msm_spm_set_vdd tgt.vdd_raw < 0)
    (hfail : env.clk_set_min_rate tgt.axi_clk_hz < 0) :
    ∃ m', acpuclk_set_rate env m rate reason
        = some (env.clk_set_min_rate tgt.axi_clk_hz, m') ∧
      m'.trace = m.trace ++ raise_ops env reason strt tgt ∧
      m'.drv_state = m.drv_state ∧
      m'.vdd_level = (if reason = setrate_reason.SETRATE_CPUFREQ ∧ tgt.vdd_mv > strt.vdd_mv ∧
          env.msm_spm_set_vdd tgt.vdd_raw = 0 then tgt.vdd_raw else m.vdd_level) := by
  by_cases hraise : reason = setrate_reason.SETRATE_CPUFREQ ∧ tgt.vdd_mv > strt.vdd_mv
  · have hnn := hvdd hraise.1 hraise.2
    refine ⟨(clk_set_min_rate env tgt.axi_clk_hz (acpuclk_set_acpu_vdd env tgt m).2).2,
      ?_, ?_, ?_, ?_⟩
    · simp [acpuclk_set_rate, deref, hcur, hstrt, hne, hscan, htgt, hnz, hraise,
        acpuclk_set_rate_axi, haxi, hfail, hnn]
    · simp [raise_ops, hraise, haxi]
    · simp
    · simp [hraise]
  · refine ⟨(clk_set_min_rate env tgt.axi_clk_hz m).2, ?_, ?_, ?_, ?_⟩
    · simp only [acpuclk_set_rate, deref, hcur, hstrt, hne, hscan, htgt, hnz, hraise,
        acpuclk_set_rate_axi]
      simp [haxi, hfail]
    · simp [raise_ops, hraise, haxi]
    · simp
    · have h' : ¬ (reason = setrate_reason.SETRATE_CPUFREQ ∧ strt.vdd_mv < tgt.vdd_mv ∧
          env.msm_spm_set_vdd tgt.vdd_raw = 0) := fun h => hraise ⟨h.1, h.2.1⟩
      simp [h']

theorem raise_ops_no_regulator (env : Env) (reason : setrate_reason)
    (strt tgt : clkctl_acpu_speed) (hr : reason ≠ setrate_reason.SETRATE_CPUFREQ) :
    ∀ o ∈ raise_ops env reason strt tgt, o.regulator = false := by
  intro o ho
  cases o <;> first | rfl | (exfalso; unfold raise_ops at ho; split_ifs at ho <;> simp_all)

theorem switch_ops_no_regulator (strt tgt b : clkctl_acpu_speed) (p : pll) :
    ∀ o ∈ switch_ops strt tgt b p, o.regulator = false := by
  intro o ho
  cases o <;> first | rfl | (exfalso; unfold switch_ops at ho; split_ifs at ho <;> simp_all)

theorem lower_ops_no_regulator (env : Env) (reason : setrate_reason)
    (strt tgt : clkctl_acpu_speed) (hr : reason ≠ setrate_reason.SETRATE_CPUFREQ) :
    ∀ o ∈ lower_ops env reason strt tgt, o.regulator = false := by
  intro o ho
  cases reason
  · exact absurd rfl hr
  all_goals
    cases o <;> first | rfl | (exfalso; unfold lower_ops at ho; split_ifs at ho <;> simp_all)

/-- C10: from every state in which the call can run, for every rate and for
both idle reasons, `acpuclk_set_rate` returns, none of the operations it makes
is a regulator write, and the regulator holds the code it held before the
call. -/
theorem acpuclk_set_rate_idle_keeps_vdd (env : Env) (m : Machine) (rate : Nat)
    (reason : setrate_reason) (hready : m.ready)
    (hidle : reason = setrate_reason.SETRATE_SWFI ∨ reason = setrate_reason.SETRATE_PC) :
    ∃ rc m' ops, acpuclk_set_rate env m rate reason = some (rc, m') ∧
      m'.trace = m.trace ++ ops ∧ (∀ o ∈ ops, o.regulator = false) ∧
      m'.vdd_level = m.vdd_level := by
  obtain ⟨hact, hsent, hbk, hpll⟩ := hready
  have hr : reason ≠ setrate_reason.SETRATE_CPUFREQ := by
    rcases hidle with h | h <;> simp [h]
  obtain ⟨strt, hs⟩ := Option.ne_none_iff_exists'.mp hact
  obtain ⟨b, hb⟩ := Option.ne_none_iff_exists'.mp hbk
  cases hcur : m.drv_state.current_speed with
  | none => simp [deref, hcur] at hs
  | some si =>
    have hstrt : m.acpu_freq_tbl[si]? = some strt := by simpa [deref, hcur] using hs
    by_cases hne : rate = strt.acpu_clk_khz
    · exact ⟨0, m, [], by simp [acpuclk_set_rate, deref, hcur, hstrt, hne], by simp, by simp, rfl⟩
    · obtain ⟨ti, tgt, hscan, htgt⟩ := scan_rate_total rate m.acpu_freq_tbl hsent 0
      simp only [Nat.zero_add] at hscan
      by_cases hnz : tgt.acpu_clk_khz = 0
      · exact ⟨-EINVAL, m, [],
          by simp [acpuclk_set_rate, deref, hcur, hstrt, hne, hscan, htgt, hnz],
          by simp, by simp, rfl⟩
      · by_cases hab : tgt.axi_clk_hz > strt.axi_clk_hz ∧
            env.clk_set_min_rate tgt.axi_clk_hz < 0
        · obtain ⟨m', hrun, htr, -, hv⟩ :=
            acpuclk_set_rate_axi_abort env m rate reason si ti strt tgt hcur hstrt hne hscan
              htgt hnz hab.1 (fun h => absurd h hr) hab.2
          refine ⟨_, m', _, hrun, htr, raise_ops_no_regulator env reason strt tgt hr, ?_⟩
          simp [hv, hr]
        · have hp : tgt.src = PLL_2 → tgt.pll_rate = some (tgt.pll_rate.getD ⟨0, 0, 0, 0⟩) := by
            intro h
            have := hpll tgt (List.getElem?_mem htgt) h
            cases hq : tgt.pll_rate with
            | none => exact absurd hq this
            | some q => rfl
          obtain ⟨m', hrun, htr, -, -, -, hv, -⟩ :=
            acpuclk_set_rate_run env m rate reason si ti strt tgt b
              (tgt.pll_rate.getD ⟨0, 0, 0, 0⟩) hcur hstrt hne hscan htgt hnz
              (fun _ _ => hb) hp (fun h => absurd h hr) (fun h hlt => hab ⟨h, hlt⟩)
          refine ⟨_, m', _, hrun, htr, ?_, ?_⟩
          · intro o ho
            rcases List.mem_append.mp ho with h | h
            · exact raise_ops_no_regulator env reason strt tgt hr o h
            · rcases List.mem_append.mp h with h | h
              · exact switch_ops_no_regulator strt tgt b _ o h
              · exact lower_ops_no_regulator env reason strt tgt hr o h
          · simp [hv, hr]

/-- Witness for C10: a power-collapse switch from 1024000 kHz (1000 mV) to
192000 kHz (900 mV) on the static table. -/
theorem acpuclk_set_rate_idle_keeps_vdd_witness :
    ∃ rc m' ops, acpuclk_set_rate env_ok (machine_at 13) 192000 setrate_reason.SETRATE_PC
        = some (rc, m') ∧
      m'.trace = (machine_at 13).trace ++ ops ∧ (∀ o ∈ ops, o.regulator = false) ∧
      m'.vdd_level = (machine_at 13).vdd_level :=
  acpuclk_set_rate_idle_keeps_vdd env_ok (machine_at 13) 192000 setrate_reason.SETRATE_PC
    ⟨by decide, ⟨sentinel, by decide, rfl⟩, by decide, by decide⟩ (Or.inr rfl)

/-! ## Round trip -/

theorem acpuclk_set_rate_scaling_step (env : Env) (m : Machine) (rate : Nat) (si ti : Nat)
    (strt tgt b : clkctl_acpu_speed) (henv : env.succeeds)
    (hcur : m.drv_state.current_speed = some si)
    (hA : table_entry m.acpu_freq_tbl strt.acpu_clk_khz si strt)
    (hcons : consistent m strt)
    (hT : table_entry m.acpu_freq_tbl rate ti tgt)
    (hok : table_ok m.acpu_freq_tbl)
    (hb : deref m.acpu_freq_tbl m.backup_s = some b) :
    ∃ m', acpuclk_set_rate env m rate setrate_reason.SETRATE_CPUFREQ = some (0, m') ∧
      m'.drv_state.current_speed = some ti ∧ consistent m' tgt ∧
      m'.acpu_freq_tbl = m.acpu_freq_tbl ∧ m'.backup_s = m.backup_s := by
  obtain ⟨hAscan, hstrt, hAnz⟩ := hA
  obtain ⟨hscan, htgt, hnz⟩ := hT
  by_cases hne : rate = strt.acpu_clk_khz
  · have hti : ti = si := by
      rw [hne, hAscan] at hscan
      exact (Option.some.inj hscan).symm
    subst hti
    rw [hstrt] at htgt
    cases htgt
    exact ⟨m, by simp [acpuclk_set_rate, deref, hcur, hstrt, hne], hcur, hcons, rfl, rfl⟩
  · obtain ⟨hraw_t, hsel, hdiv, hpll⟩ := hok tgt (List.getElem?_mem htgt) hnz
    obtain ⟨hraw_s, -, -, -⟩ := hok strt (List.getElem?_mem hstrt) hAnz
    have hp : tgt.src = PLL_2 → tgt.pll_rate = some (tgt.pll_rate.getD ⟨0, 0, 0, 0⟩) := by
      intro h
      have := hpll h
      cases hq : tgt.pll_rate with
      | none => exact absurd hq this
      | some q => rfl
    obtain ⟨m', hrun, -, hcs, htbl, hbk, hv, ha, c, k, hc, hk⟩ :=
      acpuclk_set_rate_run env m rate setrate_reason.SETRATE_CPUFREQ si ti strt tgt b
        (tgt.pll_rate.getD ⟨0, 0, 0, 0⟩) hcur hstrt hne hscan htgt hnz
        (fun _ _ => hb) hp (fun _ _ => by rw [henv.1]; decide) (fun _ => by rw [henv.2]; decide)
    obtain ⟨hls, hld⟩ := live_of_regs m' tgt c k hsel hdiv hc hk
    obtain ⟨cv, ca, -, -⟩ := hcons
    have hrc : raise_rc env setrate_reason.SETRATE_CPUFREQ strt tgt = 0 := by
      unfold raise_rc
      split_ifs
      · exact henv.2 _
      · exact henv.1 _
      · rfl
    rw [hrc] at hrun
    refine ⟨m', hrun, hcs, ⟨?_, ?_, hls, hld⟩, htbl, hbk⟩
    · rw [hv]
      by_cases hvv : tgt.vdd_mv = strt.vdd_mv
      · simp [hvv, cv, hraw_t, hraw_s]
      · simp [hvv, henv.1]
    · rw [ha]
      by_cases haa : tgt.axi_clk_hz = strt.axi_clk_hz
      · simp [haa, ca]
      · have : tgt.axi_clk_hz > strt.axi_clk_hz ∨ tgt.axi_clk_hz < strt.axi_clk_hz := by omega
        simp [henv.2]
        intro h1
        omega

/-- C6: from a state consistent with its active entry, with every collaborator
call succeeding, the Scaling calls for F1, F2 and F1 again all return 0, and
after the third call the regulator level, the bus vote, the selector and
divider of the live mux half and the active entry are what they were right
after the first call. -/
theorem acpuclk_set_rate_round_trip (env1 env2 env3 : Env) (m : Machine) (F1 F2 : Nat)
    (si t1 t2 : Nat) (strt e1 e2 b : clkctl_acpu_speed)
    (h1 : env1.succeeds) (h2 : env2.succeeds) (h3 : env3.succeeds)
    (hcur : m.drv_state.current_speed = some si)
    (hA : table_entry m.acpu_freq_tbl strt.acpu_clk_khz si strt)
    (hcons : consistent m strt)
    (hF1 : table_entry m.acpu_freq_tbl F1 t1 e1)
    (hF2 : table_entry m.acpu_freq_tbl F2 t2 e2)
    (hok : table_ok m.acpu_freq_tbl)
    (hb : deref m.acpu_freq_tbl m.backup_s = some b) :
    ∃ m1 m2 m3,
      acpuclk_set_rate env1 m F1 setrate_reason.SETRATE_CPUFREQ = some (0, m1) ∧
      acpuclk_set_rate env2 m1 F2 setrate_reason.SETRATE_CPUFREQ = some (0, m2) ∧
      acpuclk_set_rate env3 m2 F1 setrate_reason.SETRATE_CPUFREQ = some (0, m3) ∧
      m3.vdd_level = m1.vdd_level ∧ m3.axi_min_rate = m1.axi_min_rate ∧
      live_sel m3 = live_sel m1 ∧ live_div m3 = live_div m1 ∧
      m3.drv_state.current_speed = m1.drv_state.current_speed := by
  have k1 : e1.acpu_clk_khz = F1 := scan_rate_found F1 _ t1 e1 hF1.1 hF1.2.1 hF1.2.2
  have k2 : e2.acpu_clk_khz = F2 := scan_rate_found F2 _ t2 e2 hF2.1 hF2.2.1 hF2.2.2
  obtain ⟨m1, r1, c1, s1, tb1, bk1⟩ :=
    acpuclk_set_rate_scaling_step env1 m F1 si t1 strt e1 b h1 hcur hA hcons hF1 hok hb
  obtain ⟨m2, r2, c2, s2, tb2, bk2⟩ :=
    acpuclk_set_rate_scaling_step env2 m1 F2 t1 t2 e1 e2 b h2 c1
      (by rw [tb1, k1]; exact hF1) s1 (by rw [tb1]; exact hF2) (by rw [tb1]; exact hok)
      (by rw [tb1, bk1]; exact hb)
  obtain ⟨m3, r3, c3, s3, -, -⟩ :=
    acpuclk_set_rate_scaling_step env3 m2 F1 t2 t1 e2 e1 b h3 c2
      (by rw [tb2, tb1, k2]; exact hF2) s2 (by rw [tb2, tb1]; exact hF1)
      (by rw [tb2, tb1]; exact hok) (by rw [tb2, tb1, bk2, bk1]; exact hb)
  refine ⟨m1, m2, m3, r1, r2, r3, ?_, ?_, ?_, ?_, ?_⟩
  · rw [s3.1, s1.1]
  · rw [s3.2.1, s1.2.1]
  · rw [s3.2.2.1, s1.2.2.1]
  · rw [s3.2.2.2, s1.2.2.2]
  · rw [c3, c1]

/-- Witness for C6: on the static table, with 122880 kHz active, the Scaling
calls for 1024000, 806400 and 1024000 kHz. -/
theorem acpuclk_set_rate_round_trip_witness :
    ∃ m1 m2 m3,
      acpuclk_set_rate env_ok (machine_at 2) 1024000 setrate_reason.SETRATE_CPUFREQ
        = some (0, m1) ∧
      acpuclk_set_rate env_ok m1 806400 setrate_reason.SETRATE_CPUFREQ = some (0, m2) ∧
      acpuclk_set_rate env_ok m2 1024000 setrate_reason.SETRATE_CPUFREQ = some (0, m3) ∧
      m3.vdd_level = m1.vdd_level ∧ m3.axi_min_rate = m1.axi_min_rate ∧
      live_sel m3 = live_sel m1 ∧ live_div m3 = live_div m1 ∧
      m3.drv_state.current_speed = m1.drv_state.current_speed :=
  acpuclk_set_rate_round_trip env_ok env_ok env_ok (machine_at 2) 1024000 806400 2 13 11
    ⟨1, 122880, PLL_3, 5, 5, 61440000, 900, VDD_RAW 900, none, 0⟩
    ⟨1, 1024000, PLL_2, 3, 0, UINT_MAX, 1000, VDD_RAW 1000, some ⟨53, 1, 3, 0⟩, 0⟩
    ⟨1, 806400, PLL_2, 3, 0, UINT_MAX, 1000, VDD_RAW 1000, some ⟨42, 0, 1, 0⟩, 0⟩
    ⟨1, 768000, PLL_1, 2, 0, 153600000, 950, VDD_RAW 950, none, 0⟩
    ⟨fun _ => rfl, fun _ => rfl⟩ ⟨fun _ => rfl, fun _ => rfl⟩ ⟨fun _ => rfl, fun _ => rfl⟩
    rfl ⟨by decide, rfl, by decide⟩ ⟨rfl, rfl, by decide, by decide⟩
    ⟨by decide, rfl, by decide⟩ ⟨by decide, rfl, by decide⟩
    (show ∀ e ∈ acpu_freq_tbl, _ from by decide) rfl

/-! ## Voltage before frequency -/

theorem safe_along_append (σ : Snapshot) (xs ys : List Op) :
    Snapshot.safe_along σ (xs ++ ys)
      = (Snapshot.safe_along σ xs && Snapshot.safe_along (xs.foldl Snapshot.step σ) ys) := by
  induction xs generalizing σ with
  | nil =>
    cases ys <;> simp [Snapshot.safe_along]
  | cons x xs ih =>
    simp [Snapshot.safe_along, ih, Bool.and_assoc]

theorem raw_mv_VDD_RAW (s : clkctl_acpu_speed) (h : vdd_encodable s) :
    raw_mv s.vdd_raw = s.vdd_mv := by
  obtain ⟨h1, h2, h3, h4⟩ := h
  have hV : V_STEP = 25 := rfl
  rw [hV] at h1
  have key : ∀ k < 32, raw_mv (VDD_RAW (750 + 25 * k)) = 750 + 25 * k := by decide
  have hk := key ((s.vdd_mv - 750) / 25) (by omega)
  have e : 750 + 25 * ((s.vdd_mv - 750) / 25) = s.vdd_mv := by omega
  rw [e] at hk
  rw [h4]
  exact hk

theorem raise_ops_safe (env : Env) (strt tgt : clkctl_acpu_speed)
    (hreg : env.msm_spm_set_vdd tgt.vdd_raw = 0)
    (hs : raw_mv strt.vdd_raw = strt.vdd_mv) (ht : raw_mv tgt.vdd_raw = tgt.vdd_mv) :
    Snapshot.safe_along ⟨strt.vdd_raw, strt⟩
        (raise_ops env setrate_reason.SETRATE_CPUFREQ strt tgt) = true ∧
      (raise_ops env setrate_reason.SETRATE_CPUFREQ strt tgt).foldl Snapshot.step
        ⟨strt.vdd_raw, strt⟩
        = ⟨if tgt.vdd_mv > strt.vdd_mv then tgt.vdd_raw else strt.vdd_raw, strt⟩ := by
  by_cases c1 : tgt.vdd_mv > strt.vdd_mv <;>
  by_cases c2 : tgt.axi_clk_hz > strt.axi_clk_hz <;>
  simp [raise_ops, c1, c2, hreg, hs, ht, Snapshot.safe_along, Snapshot.step, Snapshot.safe] <;>
  omega

theorem switch_ops_safe (strt tgt b : clkctl_acpu_speed) (p : pll) (lvl : Nat)
    (hs : strt.vdd_mv ≤ raw_mv lvl) (ht : tgt.vdd_mv ≤ raw_mv lvl)
    (hcover : tgt.src = PLL_2 → strt.src = PLL_2 → b.vdd_mv ≤ raw_mv lvl) :
    Snapshot.safe_along ⟨lvl, strt⟩ (switch_ops strt tgt b p) = true ∧
      (switch_ops strt tgt b p).foldl Snapshot.step ⟨lvl, strt⟩ = ⟨lvl, tgt⟩ := by
  by_cases c1 : tgt.src = PLL_2
  · by_cases c2 : strt.src = PLL_2
    · have hc := hcover c1 c2
      simp [switch_ops, c1, c2, hs, ht, hc, Snapshot.safe_along, Snapshot.step, Snapshot.safe]
    · have c4 : (0 : Int) ≤ PLL_2 := by decide
      simp [switch_ops, c1, c2, c4, hs, ht, Snapshot.safe_along, Snapshot.step, Snapshot.safe]
  · by_cases c3 : strt.src = tgt.src <;> by_cases c4 : tgt.src ≥ 0 <;>
    simp [switch_ops, c1, c3, c4, hs, ht, Snapshot.safe_along, Snapshot.step, Snapshot.safe]

theorem lower_ops_safe (env : Env) (strt tgt : clkctl_acpu_speed) (lvl : Nat)
    (hreg : env.msm_spm_set_vdd tgt.vdd_raw = 0)
    (ht : tgt.vdd_mv ≤ raw_mv lvl) (ht2 : raw_mv tgt.vdd_raw = tgt.vdd_mv) :
    Snapshot.safe_along ⟨lvl, tgt⟩
        (lower_ops env setrate_reason.SETRATE_CPUFREQ strt tgt) = true ∧
      (lower_ops env setrate_reason.SETRATE_CPUFREQ strt tgt).foldl Snapshot.step ⟨lvl, tgt⟩
        = ⟨if tgt.vdd_mv < strt.vdd_mv then tgt.vdd_raw else lvl, tgt⟩ := by
  by_cases c1 : tgt.vdd_mv < strt.vdd_mv <;>
  by_cases c2 : tgt.axi_clk_hz < strt.axi_clk_hz <;>
  by_cases c3 : strt.src = tgt.src <;> by_cases c4 : strt.src ≥ 0 <;>
  simp [lower_ops, c1, c2, c3, c4, hreg, ht, ht2, Snapshot.safe_along, Snapshot.step,
    Snapshot.safe]

theorem raise_ops_cpufreq (env : Env) (strt tgt : clkctl_acpu_speed) :
    ∃ rest, (∀ o ∈ rest, o.regulator = false ∧ o.mux = false) ∧
      raise_ops env setrate_reason.SETRATE_CPUFREQ strt tgt
        = (if tgt.vdd_mv > strt.vdd_mv then
            [Op.set_acpu_vdd tgt (env.msm_spm_set_vdd tgt.vdd_raw)] else []) ++ rest := by
  by_cases c1 : tgt.vdd_mv > strt.vdd_mv <;>
  by_cases c2 : tgt.axi_clk_hz > strt.axi_clk_hz
  · exact ⟨[Op.clk_set_min_rate tgt.axi_clk_hz (env.clk_set_min_rate tgt.axi_clk_hz)],
      by simp [Op.regulator, Op.mux], by simp [raise_ops, c1, c2]⟩
  · exact ⟨[], by simp, by simp [raise_ops, c1, c2]⟩
  · exact ⟨[Op.clk_set_min_rate tgt.axi_clk_hz (env.clk_set_min_rate tgt.axi_clk_hz)],
      by simp [Op.regulator, Op.mux], by simp [raise_ops, c1, c2]⟩
  · exact ⟨[], by simp, by simp [raise_ops, c1, c2]⟩

theorem lower_ops_cpufreq (env : Env) (strt tgt : clkctl_acpu_speed) :
    ∃ rest, (∀ o ∈ rest, o.regulator = false) ∧
      lower_ops env setrate_reason.SETRATE_CPUFREQ strt tgt
        = rest ++ (if tgt.vdd_mv < strt.vdd_mv then
            [Op.set_acpu_vdd tgt (env.msm_spm_set_vdd tgt.vdd_raw)] else []) := by
  refine ⟨(if strt.src ≠ tgt.src ∧ strt.src ≥ 0 then [Op.local_src_disable strt.src] else []) ++
    (if tgt.axi_clk_hz < strt.axi_clk_hz then
      [Op.clk_set_min_rate tgt.axi_clk_hz (env.clk_set_min_rate tgt.axi_clk_hz)] else []),
    ?_, ?_⟩
  · intro o ho
    cases o <;> first | rfl | (exfalso; split_ifs at ho <;> simp_all)
  · simp [lower_ops]

/-- C4, for voltages the raw code can express and with a proviso on the
backup point: in a Scaling call between two table entries whose `vdd_mv` are
multiples of 25 from 750 to 1525 mV with `vdd_raw = VDD_RAW(vdd_mv)`, whose
regulator write succeeds, started with the regulator at the active entry's
raw code and the active entry live on the mux, the voltage of the raw code
held by the regulator (by the formula of line 56) is at least the `vdd_mv` of
the entry live on the mux in every intermediate state, provided that, in a
PLL_2-to-PLL_2 hop, the backup point's `vdd_mv` is not above both the active
entry's and the target's; the raw code followed along the operations ends as
the one the state holds at return.  A regulator raise is the first operation
of the call and its only regulator write; a regulator lowering is the last
operation and the only regulator write, unless the call was aborted before
any mux write. -/
theorem acpuclk_set_rate_voltage_order (env : Env) (m : Machine) (rate : Nat) (si ti : Nat)
    (strt tgt b : clkctl_acpu_speed) (p : pll)
    (hcur : m.drv_state.current_speed = some si)
    (hstrt : m.acpu_freq_tbl[si]? = some strt)
    (hne : rate ≠ strt.acpu_clk_khz)
    (hscan : scan_rate rate m.acpu_freq_tbl 0 = some ti)
    (htgt : m.acpu_freq_tbl[ti]? = some tgt)
    (hnz : tgt.acpu_clk_khz ≠ 0)
    (hb : tgt.src = PLL_2 → strt.src = PLL_2 → deref m.acpu_freq_tbl m.backup_s = some b)
    (hp : tgt.src = PLL_2 → tgt.pll_rate = some p)
    (hreg : env.msm_spm_set_vdd tgt.vdd_raw = 0)
    (hlvl : m.vdd_level = strt.vdd_raw)
    (hse : vdd_encodable strt) (hte : vdd_encodable tgt)
    (hcover : tgt.src = PLL_2 → strt.src = PLL_2 → b.vdd_mv ≤ max strt.vdd_mv tgt.vdd_mv) :
    ∃ rc m' ops, acpuclk_set_rate env m rate setrate_reason.SETRATE_CPUFREQ = some (rc, m') ∧
      m'.trace = m.trace ++ ops ∧
      Snapshot.safe_along ⟨m.vdd_level, strt⟩ ops = true ∧
      (ops.foldl Snapshot.step ⟨m.vdd_level, strt⟩).level_raw = m'.vdd_level ∧
      (tgt.vdd_mv > strt.vdd_mv →
        ∃ rest, ops = Op.set_acpu_vdd tgt 0 :: rest ∧ ∀ o ∈ rest, o.regulator = false) ∧
      (tgt.vdd_mv < strt.vdd_mv →
        (∀ o ∈ ops, o.regulator = false ∧ o.mux = false) ∨
        ∃ rest, ops = rest ++ [Op.set_acpu_vdd tgt 0] ∧ ∀ o ∈ rest, o.regulator = false) := by
  have hs := raw_mv_VDD_RAW strt hse
  have ht := raw_mv_VDD_RAW tgt hte
  obtain ⟨hrs, hrf⟩ := raise_ops_safe env strt tgt hreg hs ht
  obtain ⟨rr, hrr, hre⟩ := raise_ops_cpufreq env strt tgt
  have hl : raw_mv (if tgt.vdd_mv > strt.vdd_mv then tgt.vdd_raw else strt.vdd_raw)
      = max strt.vdd_mv tgt.vdd_mv := by
    by_cases c : tgt.vdd_mv > strt.vdd_mv
    · rw [if_pos c, ht, max_eq_right (by omega)]
    · rw [if_neg c, hs, max_eq_left (by omega)]
  rw [hlvl]
  by_cases hab : tgt.axi_clk_hz > strt.axi_clk_hz ∧ env.clk_set_min_rate tgt.axi_clk_hz < 0
  · obtain ⟨m', hrun, htr, -, hvl⟩ :=
      acpuclk_set_rate_axi_abort env m rate setrate_reason.SETRATE_CPUFREQ si ti strt tgt
        hcur hstrt hne hscan htgt hnz hab.1 (fun _ _ => by rw [hreg]; decide) hab.2
    refine ⟨_, m', _, hrun, htr, hrs, ?_, ?_, ?_⟩
    · rw [hrf, hvl, hlvl]
      simp [hreg]
    · intro hgt
      rw [hre, if_pos hgt, hreg]
      exact ⟨rr, rfl, fun o ho => (hrr o ho).1⟩
    · intro hlt
      left
      have hng : ¬ tgt.vdd_mv > strt.vdd_mv := by omega
      rw [hre, if_neg hng]
      simpa using hrr
  · obtain ⟨m', hrun, htr, -, -, -, hvl, -⟩ :=
      acpuclk_set_rate_run env m rate setrate_reason.SETRATE_CPUFREQ si ti strt tgt b p
        hcur hstrt hne hscan htgt hnz hb hp (fun _ _ => by rw [hreg]; decide)
        (fun h hlt => hab ⟨h, hlt⟩)
    obtain ⟨hss, hsf⟩ := switch_ops_safe strt tgt b p
      (if tgt.vdd_mv > strt.vdd_mv then tgt.vdd_raw else strt.vdd_raw)
      (by rw [hl]; exact le_max_left _ _) (by rw [hl]; exact le_max_right _ _)
      (fun h1 h2 => by rw [hl]; exact hcover h1 h2)
    obtain ⟨hls, hlf⟩ := lower_ops_safe env strt tgt
      (if tgt.vdd_mv > strt.vdd_mv then tgt.vdd_raw else strt.vdd_raw) hreg
      (by rw [hl]; exact le_max_right _ _) ht
    obtain ⟨lr, hlr, hle⟩ := lower_ops_cpufreq env strt tgt
    refine ⟨_, m', _, hrun, htr, ?_, ?_, ?_, ?_⟩
    · rw [safe_along_append, hrs, hrf, safe_along_append, hss, hsf, hls]
      rfl
    · rw [List.foldl_append, hrf, List.foldl_append, hsf, hlf, hvl, hlvl]
      by_cases c1 : tgt.vdd_mv < strt.vdd_mv
      · have c2 : tgt.vdd_mv ≠ strt.vdd_mv := by omega
        simp [c1, c2, hreg]
      · by_cases c3 : tgt.vdd_mv > strt.vdd_mv
        · have c2 : tgt.vdd_mv ≠ strt.vdd_mv := by omega
          simp [c1, c2, c3, hreg]
        · have c2 : tgt.vdd_mv = strt.vdd_mv := by omega
          simp [c2]
    · intro hgt
      have hnl : ¬ tgt.vdd_mv < strt.vdd_mv := by omega
      rw [hre, if_pos hgt, hreg, hle, if_neg hnl]
      refine ⟨rr ++ (switch_ops strt tgt b p ++ (lr ++ [])), by simp, ?_⟩
      intro o ho
      simp only [List.mem_append, List.append_nil] at ho
      rcases ho with h | h | h
      · exact (hrr o h).1
      · exact switch_ops_no_regulator strt tgt b p o h
      · exact hlr o h
    · intro hlt
      right
      have hng : ¬ tgt.vdd_mv > strt.vdd_mv := by omega
      rw [hre, if_neg hng, hle, if_pos hlt, hreg]
      refine ⟨[] ++ rr ++ (switch_ops strt tgt b p ++ lr), by simp, ?_⟩
      intro o ho
      simp only [List.mem_append, List.nil_append] at ho
      rcases ho with h | h | h
      · exact (hrr o h).1
      · exact switch_ops_no_regulator strt tgt b p o h
      · exact hlr o h

/-- C4, counterexamples.  After `acpuclk_set_vdd(768000, 1050)` the backup
point asks for 1050 mV: with the 806400 kHz entry (1000 mV) active, the
regulator at that entry's code and the mux on that entry, a successful Scaling
call for 921600 kHz (1000 mV) switches the mux to the backup point while the
regulator holds the code of 1000 mV.  On the static table, with the 768000
kHz entry (950 mV) active, a successful Scaling call for 1900800 kHz (1550
mV) writes that entry's raw code 0xE0, the code of 750 mV, and then switches
the mux to the entry. -/
theorem acpuclk_set_rate_voltage_order_counterexample :
    (deref machine_tuned.acpu_freq_tbl machine_tuned.drv_state.current_speed
        = some ⟨1, 806400, PLL_2, 3, 0, UINT_MAX, 1000, VDD_RAW 1000, some ⟨42, 0, 1, 0⟩, 0⟩ ∧
      machine_tuned.vdd_level = VDD_RAW 1000 ∧ raw_mv (VDD_RAW 1000) = 1000 ∧
      live_sel machine_tuned = 3 ∧ live_div machine_tuned = 0 ∧
      deref machine_tuned.acpu_freq_tbl machine_tuned.backup_s
        = some ⟨1, 768000, PLL_1, 2, 0, 153600000, 1050, VDD_RAW 1050, none, 0⟩ ∧
      (acpuclk_set_rate env_ok machine_tuned 921600 setrate_reason.SETRATE_CPUFREQ).map
          (fun r => (r.1,
            (r.2.trace.take 2).foldl Snapshot.step
              ⟨machine_tuned.vdd_level,
                ⟨1, 806400, PLL_2, 3, 0, UINT_MAX, 1000, VDD_RAW 1000, some ⟨42, 0, 1, 0⟩, 0⟩⟩,
            Snapshot.safe_along
              ⟨machine_tuned.vdd_level,
                ⟨1, 806400, PLL_2, 3, 0, UINT_MAX, 1000, VDD_RAW 1000, some ⟨42, 0, 1, 0⟩, 0⟩⟩
              r.2.trace))
        = some (0,
            ⟨VDD_RAW 1000, ⟨1, 768000, PLL_1, 2, 0, 153600000, 1050, VDD_RAW 1050, none, 0⟩⟩,
            false)) ∧
    (deref (machine_at 10).acpu_freq_tbl (machine_at 10).drv_state.current_speed
        = some ⟨1, 768000, PLL_1, 2, 0, 153600000, 950, VDD_RAW 950, none, 0⟩ ∧
      (machine_at 10).vdd_level = VDD_RAW 950 ∧ raw_mv (VDD_RAW 950) = 950 ∧
      live_sel (machine_at 10) = 2 ∧ live_div (machine_at 10) = 0 ∧
      (acpuclk_set_rate env_ok (machine_at 10) 1900800 setrate_reason.SETRATE_CPUFREQ).map
          (fun r => (r.1, r.2.vdd_level, raw_mv r.2.vdd_level,
            (deref r.2.acpu_freq_tbl r.2.drv_state.current_speed).map (fun s => s.vdd_mv),
            Snapshot.safe_along
              ⟨(machine_at 10).vdd_level,
                ⟨1, 768000, PLL_1, 2, 0, 153600000, 950, VDD_RAW 950, none, 0⟩⟩
              r.2.trace))
        = some (0, 0xE0, 750, some 1550, false)) := by
  decide

/-- Witness for C4: on the static table, a Scaling call from
806400 kHz (1000 mV) to 1113000 kHz (1050 mV), a PLL_2-to-PLL_2 hop through
the 768000 kHz backup point (950 mV) with a regulator raise. -/
theorem acpuclk_set_rate_voltage_order_witness :
    ∃ rc m' ops, acpuclk_set_rate env_ok (machine_at 11) 1113000
        setrate_reason.SETRATE_CPUFREQ = some (rc, m') ∧
      m'.trace = (machine_at 11).trace ++ ops ∧
      Snapshot.safe_along
        ⟨(machine_at 11).vdd_level,
          ⟨1, 806400, PLL_2, 3, 0, UINT_MAX, 1000, VDD_RAW 1000, some ⟨42, 0, 1, 0⟩, 0⟩⟩
        ops = true ∧
      (ops.foldl Snapshot.step
        ⟨(machine_at 11).vdd_level,
          ⟨1, 806400, PLL_2, 3, 0, UINT_MAX, 1000, VDD_RAW 1000, some ⟨42, 0, 1, 0⟩, 0⟩⟩).level_raw
        = m'.vdd_level ∧
      ((1050 : Nat) > 1000 →
        ∃ rest, ops = Op.set_acpu_vdd
            ⟨1, 1113000, PLL_2, 3, 0, UINT_MAX, 1050, VDD_RAW 1050, some ⟨58, 1, 3, 0⟩, 0⟩ 0 :: rest ∧
          ∀ o ∈ rest, o.regulator = false) ∧
      ((1050 : Nat) < 1000 →
        (∀ o ∈ ops, o.regulator = false ∧ o.mux = false) ∨
        ∃ rest, ops = rest ++ [Op.set_acpu_vdd
            ⟨1, 1113000, PLL_2, 3, 0, UINT_MAX, 1050, VDD_RAW 1050, some ⟨58, 1, 3, 0⟩, 0⟩ 0] ∧
          ∀ o ∈ rest, o.regulator = false) :=
  acpuclk_set_rate_voltage_order env_ok (machine_at 11) 1113000 11 14
    ⟨1, 806400, PLL_2, 3, 0, UINT_MAX, 1000, VDD_RAW 1000, some ⟨42, 0, 1, 0⟩, 0⟩
    ⟨1, 1113000, PLL_2, 3, 0, UINT_MAX, 1050, VDD_RAW 1050, some ⟨58, 1, 3, 0⟩, 0⟩
    ⟨1, 768000, PLL_1, 2, 0, 153600000, 950, VDD_RAW 950, none, 0⟩
    ⟨58, 1, 3, 0⟩ rfl rfl (by decide) (by decide) rfl (by decide)
    (fun _ _ => rfl) (fun _ => rfl) rfl rfl
    ⟨by decide, by decide, by decide, rfl⟩ ⟨by decide, by decide, by decide, rfl⟩
    (fun _ _ => by decide)

/-- In the static table every entry but the 1900800 kHz one (1550 mV) and the
sentinel has a voltage that the raw code can express. -/
theorem acpu_freq_tbl_encodable :
    ∀ e ∈ acpu_freq_tbl, e.acpu_clk_khz ≠ 0 → e.acpu_clk_khz ≠ 1900800 →
      vdd_encodable e := by
  unfold vdd_encodable
  decide

/-- In the static table every entry that is not sourced from PLL_2, hence
every candidate for the backup point, asks for no more voltage than any PLL_2
entry, so the backup point is covered by the regulator level during every
PLL_2-to-PLL_2 hop over the static table. -/
theorem acpu_freq_tbl_backup_covered :
    ∀ b ∈ acpu_freq_tbl, ∀ s ∈ acpu_freq_tbl,
      b.src ≠ PLL_2 → s.src = PLL_2 → b.vdd_mv ≤ s.vdd_mv := by
  decide

/-- The static table satisfies `table_ok`. -/
theorem acpu_freq_tbl_ok : table_ok acpu_freq_tbl := by
  unfold table_ok
  decide

/-! ## Power collapse and the bus vote -/

theorem switch_ops_no_bus_vote (strt tgt b : clkctl_acpu_speed) (p : pll) :
    ∀ o ∈ switch_ops strt tgt b p, o.bus_vote = false := by
  intro o ho
  cases o <;> first | rfl | (exfalso; unfold switch_ops at ho; split_ifs at ho <;> simp_all)

/-- C11, counterexample: with the 24576 kHz entry active (bus rate 30720000
Hz), `acpuclk_power_collapse` requests the bus rate 61440000 Hz of the 192000
kHz entry before it switches the mux. -/
theorem acpuclk_power_collapse_raises_bus_vote :
    deref (machine_at 0).acpu_freq_tbl (machine_at 0).drv_state.current_speed
        = some ⟨0, 24576, SRC_LPXO, 0, 0, 30720000, 900, VDD_RAW 900, none, 0⟩ ∧
      (machine_at 0).axi_min_rate = 30720000 ∧
      (acpuclk_power_collapse env_ok (machine_at 0)).map
          (fun r => (r.1, r.2.trace, r.2.axi_min_rate))
        = some (24576,
            [Op.clk_set_min_rate 61440000 0,
              Op.set_src ⟨0, 192000, SRC_AXI, 1, 0, 61440000, 900, VDD_RAW 900, none, 0⟩],
            61440000) := by
  decide

/-- C11, for the entries other than the slowest: when the active entry's bus
rate is at least that of the power-collapse entry (in the static table, every
entry but the 24576 kHz one), `acpuclk_power_collapse` returns the rate that
was active and makes no bus-vote request above the active entry's
`axi_clk_hz`. -/
theorem acpuclk_power_collapse_no_bus_raise (env : Env) (m : Machine) (si ti : Nat)
    (strt tgt b : clkctl_acpu_speed) (p : pll)
    (hcur : m.drv_state.current_speed = some si)
    (hstrt : m.acpu_freq_tbl[si]? = some strt)
    (hT : table_entry m.acpu_freq_tbl POWER_COLLAPSE_KHZ ti tgt)
    (hb : tgt.src = PLL_2 → strt.src = PLL_2 → deref m.acpu_freq_tbl m.backup_s = some b)
    (hp : tgt.src = PLL_2 → tgt.pll_rate = some p)
    (hge : tgt.axi_clk_hz ≤ strt.axi_clk_hz) :
    ∃ m' ops, acpuclk_power_collapse env m = some (strt.acpu_clk_khz, m') ∧
      m'.trace = m.trace ++ ops ∧
      ∀ o ∈ ops, ∀ rate r, o = Op.clk_set_min_rate rate r → rate ≤ strt.axi_clk_hz := by
  obtain ⟨hscan, htgt, hnz⟩ := hT
  have hget : acpuclk_get_rate m = strt.acpu_clk_khz := by
    simp [acpuclk_get_rate, deref, hcur, hstrt]
  by_cases hne : POWER_COLLAPSE_KHZ = strt.acpu_clk_khz
  · refine ⟨m, [], ?_, by simp, by simp⟩
    simp [acpuclk_power_collapse, hget, acpuclk_set_rate, deref, hcur, hstrt, hne]
  · have hng : ¬ tgt.axi_clk_hz > strt.axi_clk_hz := by omega
    obtain ⟨m', hrun, htr, -⟩ :=
      acpuclk_set_rate_run env m POWER_COLLAPSE_KHZ setrate_reason.SETRATE_PC si ti strt tgt b p
        hcur hstrt hne hscan htgt hnz hb hp (fun h => by simp at h) (fun h => absurd h hng)
    refine ⟨m', _, ?_, htr, ?_⟩
    · simp [acpuclk_power_collapse, hget, hrun]
    · intro o ho rate r hor
      subst hor
      rcases List.mem_append.mp ho with h | h
      · simp [raise_ops, hng] at h
      · rcases List.mem_append.mp h with h | h
        · have := switch_ops_no_bus_vote strt tgt b p _ h
          simp [Op.bus_vote] at this
        · unfold lower_ops at h
          split_ifs at h <;> simp_all <;> omega

/-- Witness for C11: power collapse from 1024000 kHz on the static table. -/
theorem acpuclk_power_collapse_no_bus_raise_witness :
    ∃ m' ops, acpuclk_power_collapse env_ok (machine_at 13) = some (1024000, m') ∧
      m'.trace = (machine_at 13).trace ++ ops ∧
      ∀ o ∈ ops, ∀ rate r, o = Op.clk_set_min_rate rate r → rate ≤ UINT_MAX :=
  acpuclk_power_collapse_no_bus_raise env_ok (machine_at 13) 13 4
    ⟨1, 1024000, PLL_2, 3, 0, UINT_MAX, 1000, VDD_RAW 1000, some ⟨53, 1, 3, 0⟩, 0⟩
    ⟨0, MAX_AXI_KHZ, SRC_AXI, 1, 0, 61440000, 900, VDD_RAW 900, none, 0⟩
    sentinel ⟨0, 0, 0, 0⟩ rfl rfl ⟨by decide, rfl, by decide⟩
    (by decide) (by decide) (by decide)

/-- In the static table every entry but the 24576 kHz one and the sentinel has
a bus rate of at least 61440000 Hz, the bus rate of the 192000 kHz entry. -/
theorem acpu_freq_tbl_axi_floor :
    ∀ e ∈ acpu_freq_tbl, e.acpu_clk_khz ≠ 0 → e.acpu_clk_khz ≠ 24576 →
      61440000 ≤ e.axi_clk_hz := by
  decide

/-! ## Reference counts -/

theorem src_refs_append (xs ys : List Op) (src : Int) :
    src_refs (xs ++ ys) src = src_refs xs src + src_refs ys src := by
  simp only [src_refs, List.filter_append, List.length_append, Nat.cast_add]
  omega

theorem src_refs_no_source_ops (ops : List Op) (src : Int)
    (h : ∀ o ∈ ops, ∀ s, o ≠ Op.local_src_enable s ∧ o ≠ Op.local_src_disable s) :
    src_refs ops src = 0 := by
  induction ops with
  | nil => simp [src_refs]
  | cons o rest ih =>
    have h1 := h o (List.mem_cons_self _ _) src
    have h2 := ih (fun o ho => h o (List.mem_cons_of_mem _ ho))
    simp only [src_refs] at h2 ⊢
    simp [List.filter, h1.1, h1.2, h2]

theorem src_refs_raise_ops (env : Env) (reason : setrate_reason) (strt tgt : clkctl_acpu_speed)
    (src : Int) : src_refs (raise_ops env reason strt tgt) src = 0 := by
  apply src_refs_no_source_ops
  intro o ho s
  unfold raise_ops at ho
  simp only [List.mem_append] at ho
  rcases ho with ho | ho <;> split_ifs at ho <;> simp_all

theorem src_refs_switch_ops (strt tgt b : clkctl_acpu_speed) (p : pll) (src : Int) :
    src_refs (switch_ops strt tgt b p) src
      = if src = tgt.src ∧ strt.src ≠ tgt.src ∧ tgt.src ≥ 0 then 1 else 0 := by
  have hP : (0 : Int) ≤ PLL_2 := by decide
  by_cases h1 : tgt.src = PLL_2
  · by_cases h2 : strt.src = PLL_2
    · have e1 : switch_ops strt tgt b p =
          [Op.local_src_enable b.src, Op.set_src b, Op.local_src_disable PLL_2,
            Op.config_pll2 p, Op.local_src_enable PLL_2, Op.set_src tgt,
            Op.local_src_disable b.src] := by
        simp [switch_ops, h1, h2]
      rw [e1, h1, h2]
      by_cases c5 : b.src = src <;> by_cases c6 : PLL_2 = src <;>
      simp [src_refs, List.filter, c5, c6]
    · have e1 : switch_ops strt tgt b p =
          [Op.config_pll2 p, Op.local_src_enable PLL_2, Op.set_src tgt] := by
        simp [switch_ops, h1, h2, hP]
      rw [e1, h1]
      by_cases c6 : PLL_2 = src
      · subst c6
        simp [src_refs, List.filter, h2, hP]
      · have c7 : ¬ src = PLL_2 := fun h => c6 h.symm
        simp [src_refs, List.filter, c6, c7]
  · by_cases c3 : strt.src ≠ tgt.src ∧ tgt.src ≥ 0
    · have e1 : switch_ops strt tgt b p = [Op.local_src_enable tgt.src, Op.set_src tgt] := by
        simp [switch_ops, h1, c3]
      rw [e1]
      by_cases c6 : tgt.src = src
      · subst c6
        simp [src_refs, List.filter, c3]
      · have c7 : ¬ src = tgt.src := fun h => c6 h.symm
        simp [src_refs, List.filter, c6, c7]
    · have e1 : switch_ops strt tgt b p = [Op.set_src tgt] := by
        simp [switch_ops, h1, c3]
      rw [e1]
      have e2 : ¬ (src = tgt.src ∧ strt.src ≠ tgt.src ∧ tgt.src ≥ 0) := fun h => c3 h.2
      simp [src_refs, List.filter, e2]

theorem src_refs_lower_ops (env : Env) (reason : setrate_reason) (strt tgt : clkctl_acpu_speed)
    (src : Int) :
    src_refs (lower_ops env reason strt tgt) src
      = - (if reason ≠ setrate_reason.SETRATE_SWFI ∧ src = strt.src ∧ strt.src ≠ tgt.src ∧
          strt.src ≥ 0 then 1 else 0) := by
  by_cases hr : reason = setrate_reason.SETRATE_SWFI
  · simp [lower_ops, hr, src_refs]
  · have e1 : lower_ops env reason strt tgt =
        (if strt.src ≠ tgt.src ∧ strt.src ≥ 0 then [Op.local_src_disable strt.src] else []) ++
        ((if tgt.axi_clk_hz < strt.axi_clk_hz then
          [Op.clk_set_min_rate tgt.axi_clk_hz (env.clk_set_min_rate tgt.axi_clk_hz)] else []) ++
        (if reason = setrate_reason.SETRATE_PC then [] else
          if tgt.vdd_mv < strt.vdd_mv then
            [Op.set_acpu_vdd tgt (env.msm_spm_set_vdd tgt.vdd_raw)] else [])) := by
      simp [lower_ops, hr]
    have e2 : src_refs ((if tgt.axi_clk_hz < strt.axi_clk_hz then
          [Op.clk_set_min_rate tgt.axi_clk_hz (env.clk_set_min_rate tgt.axi_clk_hz)] else []) ++
        (if reason = setrate_reason.SETRATE_PC then [] else
          if tgt.vdd_mv < strt.vdd_mv then
            [Op.set_acpu_vdd tgt (env.msm_spm_set_vdd tgt.vdd_raw)] else [])) src = 0 := by
      apply src_refs_no_source_ops
      intro o ho s
      simp only [List.mem_append] at ho
      rcases ho with ho | ho <;> split_ifs at ho <;> simp_all
    rw [e1, src_refs_append, e2]
    by_cases c3 : strt.src ≠ tgt.src ∧ strt.src ≥ 0
    · by_cases c6 : strt.src = src
      · subst c6
        simp [src_refs, List.filter, c3, hr]
      · have c7 : ¬ src = strt.src := fun h => c6 h.symm
        simp [src_refs, List.filter, c3, c6, c7]
    · have e3 : ¬ (reason ≠ setrate_reason.SETRATE_SWFI ∧ src = strt.src ∧
          strt.src ≠ tgt.src ∧ strt.src ≥ 0) := fun h => c3 h.2.2
      simp [src_refs, List.filter, c3, e3]

theorem src_refs_call (env : Env) (reason : setrate_reason) (strt tgt b : clkctl_acpu_speed)
    (p : pll) (src : Int) :
    src_refs (raise_ops env reason strt tgt ++
        (switch_ops strt tgt b p ++ lower_ops env reason strt tgt)) src
      = (if src = tgt.src ∧ strt.src ≠ tgt.src ∧ tgt.src ≥ 0 then 1 else 0)
        - (if reason ≠ setrate_reason.SETRATE_SWFI ∧ src = strt.src ∧ strt.src ≠ tgt.src ∧
            strt.src ≥ 0 then 1 else 0) := by
  rw [src_refs_append, src_refs_append, src_refs_raise_ops, src_refs_switch_ops,
    src_refs_lower_ops]
  omega

/-- C20: a call with reason `SETRATE_CPUFREQ` or `SETRATE_PC` between two
table entries that is not aborted by a raise step changes the reference count
of a source by +1 if it is the target's source, by -1 if it is the old
entry's source, when the two sources differ (sources with `src >= 0` only),
and leaves every count as it was when they are equal, the PLL_2-to-PLL_2 hop
included.  Hence, if before the call the active entry's source held exactly
one reference and no other source with a lifecycle held one, the same is true
of the target after the call. -/
theorem acpuclk_set_rate_refcount (env : Env) (m : Machine) (rate : Nat)
    (reason : setrate_reason) (si ti : Nat) (strt tgt b : clkctl_acpu_speed) (p : pll)
    (hreason : reason = setrate_reason.SETRATE_CPUFREQ ∨ reason = setrate_reason.SETRATE_PC)
    (hcur : m.drv_state.current_speed = some si)
    (hstrt : m.acpu_freq_tbl[si]? = some strt)
    (hne : rate ≠ strt.acpu_clk_khz)
    (hscan : scan_rate rate m.acpu_freq_tbl 0 = some ti)
    (htgt : m.acpu_freq_tbl[ti]? = some tgt)
    (hnz : tgt.acpu_clk_khz ≠ 0)
    (hb : tgt.src = PLL_2 → strt.src = PLL_2 → deref m.acpu_freq_tbl m.backup_s = some b)
    (hp : tgt.src = PLL_2 → tgt.pll_rate = some p)
    (hvdd : reason = setrate_reason.SETRATE_CPUFREQ → tgt.vdd_mv > strt.vdd_mv →
      ¬ env.msm_spm_set_vdd tgt.vdd_raw < 0)
    (haxi : tgt.axi_clk_hz > strt.axi_clk_hz → ¬ env.clk_set_min_rate tgt.axi_clk_hz < 0) :
    ∃ rc m' ops, acpuclk_set_rate env m rate reason = some (rc, m') ∧
      m'.trace = m.trace ++ ops ∧
      m'.drv_state.current_speed = some ti ∧
      (∀ src, src_refs ops src
        = (if src = tgt.src ∧ strt.src ≠ tgt.src ∧ tgt.src ≥ 0 then 1 else 0)
          - (if src = strt.src ∧ strt.src ≠ tgt.src ∧ strt.src ≥ 0 then 1 else 0)) ∧
      (∀ refs : Int → Int,
        (∀ src, src ≥ 0 → refs src = if src = strt.src then 1 else 0) →
        ∀ src, src ≥ 0 → refs src + src_refs ops src = if src = tgt.src then 1 else 0) := by
  obtain ⟨m', hrun, htr, hcs, -⟩ :=
    acpuclk_set_rate_run env m rate reason si ti strt tgt b p
      hcur hstrt hne hscan htgt hnz hb hp hvdd haxi
  have hns : reason ≠ setrate_reason.SETRATE_SWFI := by
    rcases hreason with h | h <;> simp [h]
  have hnet : ∀ src, src_refs (raise_ops env reason strt tgt ++
        (switch_ops strt tgt b p ++ lower_ops env reason strt tgt)) src
      = (if src = tgt.src ∧ strt.src ≠ tgt.src ∧ tgt.src ≥ 0 then 1 else 0)
        - (if src = strt.src ∧ strt.src ≠ tgt.src ∧ strt.src ≥ 0 then 1 else 0) := by
    intro src
    rw [src_refs_call]
    simp [hns]
  refine ⟨_, m', _, hrun, htr, hcs, hnet, ?_⟩
  intro refs hinv src hsrc
  rw [hnet src, hinv src hsrc]
  by_cases c1 : src = strt.src <;> by_cases c2 : src = tgt.src <;>
  by_cases c3 : strt.src = tgt.src <;>
  by_cases c4 : tgt.src ≥ 0 <;> by_cases c5 : strt.src ≥ 0 <;>
  simp [c1, c2, c3, c4, c5] <;> omega

/-- Witness for C20: the Scaling call 122880 kHz (PLL_3) to 1024000 kHz
(PLL_2) on the static table. -/
theorem acpuclk_set_rate_refcount_witness :
    ∃ rc m' ops, acpuclk_set_rate env_ok (machine_at 2) 1024000
        setrate_reason.SETRATE_CPUFREQ = some (rc, m') ∧
      m'.trace = (machine_at 2).trace ++ ops ∧
      m'.drv_state.current_speed = some 13 ∧
      (∀ src, src_refs ops src
        = (if src = PLL_2 ∧ PLL_3 ≠ PLL_2 ∧ PLL_2 ≥ 0 then 1 else 0)
          - (if src = PLL_3 ∧ PLL_3 ≠ PLL_2 ∧ PLL_3 ≥ 0 then 1 else 0)) ∧
      (∀ refs : Int → Int,
        (∀ src, src ≥ 0 → refs src = if src = PLL_3 then 1 else 0) →
        ∀ src, src ≥ 0 → refs src + src_refs ops src = if src = PLL_2 then 1 else 0) :=
  acpuclk_set_rate_refcount env_ok (machine_at 2) 1024000 setrate_reason.SETRATE_CPUFREQ 2 13
    ⟨1, 122880, PLL_3, 5, 5, 61440000, 900, VDD_RAW 900, none, 0⟩
    ⟨1, 1024000, PLL_2, 3, 0, UINT_MAX, 1000, VDD_RAW 1000, some ⟨53, 1, 3, 0⟩, 0⟩
    sentinel ⟨53, 1, 3, 0⟩ (Or.inl rfl) rfl rfl (by decide) (by decide) rfl (by decide)
    (by decide) (fun _ => rfl) (fun _ _ => by decide) (fun _ => by decide)

/-! ## A short-sleep switch followed by a Scaling switch -/

theorem table_ok_pll (tbl : List clkctl_acpu_speed) (hok : table_ok tbl) (i : Nat)
    (e : clkctl_acpu_speed) (he : tbl[i]? = some e) (hnz : e.acpu_clk_khz ≠ 0) :
    e.src = PLL_2 → e.pll_rate = some (e.pll_rate.getD ⟨0, 0, 0, 0⟩) := by
  intro h
  have := (hok e (List.getElem?_mem he) hnz).2.2.2 h
  cases hq : e.pll_rate with
  | none => exact absurd hq this
  | some q => rfl

/-- C12, counterexample: on the static table, from the state consistent with
the 122880 kHz entry (900 mV, PLL_3), a short-sleep switch to 806400 kHz
followed by a successful Scaling switch to 921600 kHz (1000 mV, PLL_2) leaves
the regulator at the code of 900 mV and PLL_3 still referenced, whereas the
direct Scaling switch to 921600 kHz leaves the regulator at the code of 1000
mV and releases PLL_3. -/
theorem acpuclk_set_rate_swfi_then_scaling_differs :
    ((acpuclk_set_rate env_ok (machine_at 2) 806400 setrate_reason.SETRATE_SWFI).bind
        (fun r1 => acpuclk_set_rate env_ok r1.2 921600 setrate_reason.SETRATE_CPUFREQ)).map
        (fun r => (r.1, r.2.vdd_level, src_refs r.2.trace PLL_3, src_refs r.2.trace PLL_2))
      = some (0, VDD_RAW 900, 0, 1) ∧
    (acpuclk_set_rate env_ok (machine_at 2) 921600 setrate_reason.SETRATE_CPUFREQ).map
        (fun r => (r.1, r.2.vdd_level, src_refs r.2.trace PLL_3, src_refs r.2.trace PLL_2))
      = some (0, VDD_RAW 1000, -1, 1) ∧
    VDD_RAW 900 ≠ VDD_RAW 1000 := by
  decide

/-- C12, what the two calls leave: from a state with the regulator and the bus
vote at A's values, with every collaborator call succeeding, a `SETRATE_SWFI`
switch to B followed by a Scaling switch to C leaves the regulator at C's raw
code if C's `vdd_mv` differs from B's and at A's otherwise; the bus vote at
C's `axi_clk_hz` if it differs from B's, and otherwise at the larger of A's
and B's; and the reference counts changed by the enable of B's source (if it
differs from A's) and by the enable of C's and the disable of B's source (if
these differ), so that A's source is released only when B has the same
source.  When B agrees with A in `vdd_mv`, `axi_clk_hz` and source, and C's
frequency is not A's, the regulator level, the bus vote and the reference
counts are those that the direct Scaling switch from A to C leaves. -/
theorem acpuclk_set_rate_swfi_then_scaling (env1 env2 : Env) (m : Machine) (FB FC : Nat)
    (si tb tc : Nat) (A B C b : clkctl_acpu_speed)
    (h1 : env1.succeeds) (h2 : env2.succeeds)
    (hcur : m.drv_state.current_speed = some si)
    (hA : m.acpu_freq_tbl[si]? = some A)
    (hvA : m.vdd_level = A.vdd_raw) (haA : m.axi_min_rate = A.axi_clk_hz)
    (hB : table_entry m.acpu_freq_tbl FB tb B)
    (hC : table_entry m.acpu_freq_tbl FC tc C)
    (hBA : FB ≠ A.acpu_clk_khz) (hCB : FC ≠ B.acpu_clk_khz)
    (hok : table_ok m.acpu_freq_tbl)
    (hb : deref m.acpu_freq_tbl m.backup_s = some b) :
    ∃ m1 m2 ops,
      acpuclk_set_rate env1 m FB setrate_reason.SETRATE_SWFI = some (0, m1) ∧
      acpuclk_set_rate env2 m1 FC setrate_reason.SETRATE_CPUFREQ = some (0, m2) ∧
      m2.trace = m.trace ++ ops ∧
      m2.drv_state.current_speed = some tc ∧
      m2.vdd_level = (if C.vdd_mv ≠ B.vdd_mv then C.vdd_raw else A.vdd_raw) ∧
      m2.axi_min_rate = (if C.axi_clk_hz ≠ B.axi_clk_hz then C.axi_clk_hz
        else max A.axi_clk_hz B.axi_clk_hz) ∧
      (∀ src, src_refs ops src
        = (if src = B.src ∧ A.src ≠ B.src ∧ B.src ≥ 0 then 1 else 0)
          + (if src = C.src ∧ B.src ≠ C.src ∧ C.src ≥ 0 then 1 else 0)
          - (if src = B.src ∧ B.src ≠ C.src ∧ B.src ≥ 0 then 1 else 0)) ∧
      (B.vdd_mv = A.vdd_mv → B.axi_clk_hz = A.axi_clk_hz → B.src = A.src →
        FC ≠ A.acpu_clk_khz →
        ∃ md opsd,
          acpuclk_set_rate env2 m FC setrate_reason.SETRATE_CPUFREQ = some (0, md) ∧
          md.trace = m.trace ++ opsd ∧
          md.drv_state.current_speed = some tc ∧
          md.vdd_level = m2.vdd_level ∧ md.axi_min_rate = m2.axi_min_rate ∧
          ∀ src, src_refs opsd src = src_refs ops src) := by
  obtain ⟨hBscan, hBget, hBnz⟩ := hB
  obtain ⟨hCscan, hCget, hCnz⟩ := hC
  obtain ⟨m1, hrun1, htr1, hcs1, htbl1, hbk1, hv1, ha1, -⟩ :=
    acpuclk_set_rate_run env1 m FB setrate_reason.SETRATE_SWFI si tb A B b
      (B.pll_rate.getD ⟨0, 0, 0, 0⟩) hcur hA hBA hBscan hBget hBnz
      (fun _ _ => hb) (table_ok_pll _ hok tb B hBget hBnz)
      (fun h => by simp at h) (fun _ => by rw [h1.2]; decide)
  obtain ⟨m2, hrun2, htr2, hcs2, -, -, hv2, ha2, -⟩ :=
    acpuclk_set_rate_run env2 m1 FC setrate_reason.SETRATE_CPUFREQ tb tc B C b
      (C.pll_rate.getD ⟨0, 0, 0, 0⟩) hcs1 (by rw [htbl1]; exact hBget) hCB
      (by rw [htbl1]; exact hCscan) (by rw [htbl1]; exact hCget) hCnz
      (fun _ _ => by rw [htbl1, hbk1]; exact hb) (table_ok_pll _ hok tc C hCget hCnz)
      (fun _ _ => by rw [h2.1]; decide) (fun _ => by rw [h2.2]; decide)
  have hrc1 : raise_rc env1 setrate_reason.SETRATE_SWFI A B = 0 := by
    unfold raise_rc
    split_ifs
    · exact h1.2 _
    · exact h1.1 _
    · rfl
  have hrc2 : raise_rc env2 setrate_reason.SETRATE_CPUFREQ B C = 0 := by
    unfold raise_rc
    split_ifs
    · exact h2.2 _
    · exact h2.1 _
    · rfl
  rw [hrc1] at hrun1
  rw [hrc2] at hrun2
  refine ⟨m1, m2,
    (raise_ops env1 setrate_reason.SETRATE_SWFI A B ++
        (switch_ops A B b (B.pll_rate.getD ⟨0, 0, 0, 0⟩) ++
          lower_ops env1 setrate_reason.SETRATE_SWFI A B)) ++
      (raise_ops env2 setrate_reason.SETRATE_CPUFREQ B C ++
        (switch_ops B C b (C.pll_rate.getD ⟨0, 0, 0, 0⟩) ++
          lower_ops env2 setrate_reason.SETRATE_CPUFREQ B C)),
    hrun1, hrun2, ?_, hcs2, ?_, ?_, ?_, ?_⟩
  · rw [htr2, htr1, List.append_assoc]
  · rw [hv2, hv1]
    simp [h2.1, hvA]
  · rw [ha2, ha1]
    simp only [h1.2, h2.2, haA]
    by_cases c1 : C.axi_clk_hz = B.axi_clk_hz <;>
    by_cases c2 : B.axi_clk_hz > A.axi_clk_hz <;>
    simp [c1, c2] <;> omega
  · intro src
    rw [src_refs_append, src_refs_call, src_refs_call]
    simp
    omega
  · intro ev ea es hCA
    obtain ⟨md, hrund, htrd, hcsd, -, -, hvd, had, -⟩ :=
      acpuclk_set_rate_run env2 m FC setrate_reason.SETRATE_CPUFREQ si tc A C b
        (C.pll_rate.getD ⟨0, 0, 0, 0⟩) hcur hA hCA hCscan hCget hCnz
        (fun _ _ => hb) (table_ok_pll _ hok tc C hCget hCnz)
        (fun _ _ => by rw [h2.1]; decide) (fun _ => by rw [h2.2]; decide)
    have hrcd : raise_rc env2 setrate_reason.SETRATE_CPUFREQ A C = 0 := by
      unfold raise_rc
      split_ifs
      · exact h2.2 _
      · exact h2.1 _
      · rfl
    rw [hrcd] at hrund
    refine ⟨md, _, hrund, htrd, hcsd, ?_, ?_, ?_⟩
    · rw [hvd, hv2, hv1]
      simp [h2.1, hvA, ev]
    · rw [had, ha2, ha1]
      simp only [h1.2, h2.2, haA, ea]
      by_cases c1 : C.axi_clk_hz = A.axi_clk_hz <;>
      by_cases c2 : C.axi_clk_hz > A.axi_clk_hz <;>
      simp [c1, c2] <;> omega
    · intro src
      rw [src_refs_call, src_refs_append, src_refs_call, src_refs_call, es]
      simp

theorem acpuclk_set_rate_swfi_then_scaling_witness :
    (∃ m1 m2 ops,
      acpuclk_set_rate env_ok (machine_at 2) 806400 setrate_reason.SETRATE_SWFI = some (0, m1) ∧
      acpuclk_set_rate env_ok m1 921600 setrate_reason.SETRATE_CPUFREQ = some (0, m2) ∧
      m2.trace = (machine_at 2).trace ++ ops ∧
      m2.drv_state.current_speed = some 12 ∧
      m2.vdd_level = (if (1000 : Nat) ≠ 1000 then VDD_RAW 1000 else VDD_RAW 900) ∧
      m2.axi_min_rate = (if UINT_MAX ≠ UINT_MAX then UINT_MAX else max 61440000 UINT_MAX) ∧
      ∀ src, src_refs ops src
        = (if src = PLL_2 ∧ PLL_3 ≠ PLL_2 ∧ PLL_2 ≥ 0 then 1 else 0)
          + (if src = PLL_2 ∧ PLL_2 ≠ PLL_2 ∧ PLL_2 ≥ 0 then 1 else 0)
          - (if src = PLL_2 ∧ PLL_2 ≠ PLL_2 ∧ PLL_2 ≥ 0 then 1 else 0)) ∧
    (∃ m1 m2 md ops opsd,
      acpuclk_set_rate env_ok (machine_at 8) 652800 setrate_reason.SETRATE_SWFI = some (0, m1) ∧
      acpuclk_set_rate env_ok m1 806400 setrate_reason.SETRATE_CPUFREQ = some (0, m2) ∧
      m2.trace = (machine_at 8).trace ++ ops ∧
      acpuclk_set_rate env_ok (machine_at 8) 806400 setrate_reason.SETRATE_CPUFREQ
        = some (0, md) ∧
      md.trace = (machine_at 8).trace ++ opsd ∧
      md.vdd_level = m2.vdd_level ∧ md.axi_min_rate = m2.axi_min_rate ∧
      ∀ src, src_refs opsd src = src_refs ops src) := by
  constructor
  · obtain ⟨m1, m2, ops, h1, h2, h3, h4, h5, h6, h7, -⟩ :=
      acpuclk_set_rate_swfi_then_scaling env_ok env_ok (machine_at 2) 806400 921600 2 11 12
        ⟨1, 122880, PLL_3, 5, 5, 61440000, 900, VDD_RAW 900, none, 0⟩
        ⟨1, 806400, PLL_2, 3, 0, UINT_MAX, 1000, VDD_RAW 1000, some ⟨42, 0, 1, 0⟩, 0⟩
        ⟨1, 921600, PLL_2, 3, 0, UINT_MAX, 1000, VDD_RAW 1000, some ⟨48, 1, 3, 0⟩, 0⟩
        ⟨1, 768000, PLL_1, 2, 0, 153600000, 950, VDD_RAW 950, none, 0⟩
        ⟨fun _ => rfl, fun _ => rfl⟩ ⟨fun _ => rfl, fun _ => rfl⟩
        rfl rfl rfl rfl ⟨by decide, rfl, by decide⟩ ⟨by decide, rfl, by decide⟩
        (by decide) (by decide) (by unfold table_ok; decide) rfl
    exact ⟨m1, m2, ops, h1, h2, h3, h4, h5, h6, h7⟩
  · obtain ⟨m1, m2, ops, h1, h2, h3, -, -, -, -, h8⟩ :=
      acpuclk_set_rate_swfi_then_scaling env_ok env_ok (machine_at 8) 652800 806400 8 9 11
        ⟨1, 576000, PLL_1, 2, 0, 153600000, 950, VDD_RAW 950, none, 0⟩
        ⟨1, 652800, PLL_1, 2, 0, 153600000, 950, VDD_RAW 950, none, 0⟩
        ⟨1, 806400, PLL_2, 3, 0, UINT_MAX, 1000, VDD_RAW 1000, some ⟨42, 0, 1, 0⟩, 0⟩
        ⟨1, 768000, PLL_1, 2, 0, 153600000, 950, VDD_RAW 950, none, 0⟩
        ⟨fun _ => rfl, fun _ => rfl⟩ ⟨fun _ => rfl, fun _ => rfl⟩
        rfl rfl rfl rfl ⟨by decide, rfl, by decide⟩ ⟨by decide, rfl, by decide⟩
        (by decide) (by decide) (by unfold table_ok; decide) rfl
    obtain ⟨md, opsd, d1, d2, -, d4, d5, d6⟩ := h8 rfl rfl rfl (by decide)
    exact ⟨m1, m2, md, ops, opsd, h1, h2, h3, d1, d2, d4, d5, d6⟩

/-! ## The backup point chosen at boot -/

theorem pll2_fixup_loop_found (L : Nat) (tbl : List clkctl_acpu_speed) (k : Nat)
    (e : clkctl_acpu_speed) (i : Nat) (b0 : Option Nat)
    (hk : tbl[k]? = some e) (hnz : e.acpu_clk_khz ≠ 0) (hm : pll_l_matches L e = true)
    (hb : ∀ j < k, ∀ x, tbl[j]? = some x →
      x.acpu_clk_khz ≠ 0 ∧ pll_l_matches L x = false) :
    ∃ b, pll2_fixup_loop L tbl i b0 = some b ∧
      (∀ j x, j ≤ k → tbl[j]? = some x → x.src ≠ PLL_2 →
        (∀ t y, j < t → t ≤ k → tbl[t]? = some y → y.src = PLL_2) → b = some (i + j)) ∧
      ((∀ t y, t ≤ k → tbl[t]? = some y → y.src = PLL_2) → b = b0) := by
  induction tbl generalizing k i b0 with
  | nil => simp at hk
  | cons s rest ih =>
    cases k with
    | zero =>
      simp at hk
      subst hk
      refine ⟨if s.src ≠ PLL_2 then some i else b0, by simp [pll2_fixup_loop, hnz, hm], ?_, ?_⟩
      · intro j x hj hx hsrc _
        have hj0 : j = 0 := by omega
        subst hj0
        simp at hx
        subst hx
        simp [hsrc]
      · intro hall
        have := hall 0 s (le_refl _) (by simp)
        simp [this]
    | succ k' =>
      obtain ⟨hsnz, hsm⟩ := hb 0 (by omega) s (by simp)
      obtain ⟨b, hloop, h1, h2⟩ := ih k' (i + 1) (if s.src ≠ PLL_2 then some i else b0)
        (by simpa using hk)
        (fun j hj x hx => hb (j + 1) (by omega) x (by simpa using hx))
      refine ⟨b, by simp [pll2_fixup_loop, hsnz, hsm]; simpa using hloop, ?_, ?_⟩
      · intro j x hj hx hsrc hlast
        cases j with
        | zero =>
          simp at hx
          subst hx
          have := h2 (fun t y ht hy => hlast (t + 1) y (by omega) (by omega) (by simpa using hy))
          simp [this, hsrc]
        | succ j' =>
          have := h1 j' x (by omega) (by simpa using hx) hsrc
            (fun t y ht1 ht2 hy => hlast (t + 1) y (by omega) (by omega) (by simpa using hy))
          rw [this]
          congr 1
          omega
      · intro hall
        have hs2 := hall 0 s (by omega) (by simp)
        have := h2 (fun t y ht hy => hall (t + 1) y (by omega) (by simpa using hy))
        simp [this, hs2]

theorem pll2_fixup_loop_bug (L : Nat) (tbl : List clkctl_acpu_speed) (n : Nat)
    (s : clkctl_acpu_speed) (i : Nat) (b0 : Option Nat)
    (hs : tbl[n]? = some s) (hz : s.acpu_clk_khz = 0)
    (hb : ∀ j < n, ∀ x, tbl[j]? = some x → pll_l_matches L x = false) :
    pll2_fixup_loop L tbl i b0 = none := by
  induction tbl generalizing n i b0 with
  | nil => simp at hs
  | cons x rest ih =>
    by_cases hx : x.acpu_clk_khz = 0
    · simp [pll2_fixup_loop, hx]
    · cases n with
      | zero =>
        simp at hs
        subst hs
        exact absurd hz hx
      | succ n' =>
        have hxm := hb 0 (by omega) x (by simp)
        simp only [pll2_fixup_loop, ne_eq, hx, not_false_eq_true, if_true, hxm]
        exact ih n' (i + 1) _ (by simpa using hs)
          (fun j hj y hy => hb (j + 1) (by omega) y (by simpa using hy))

theorem pll2_fixup_loop_src (L : Nat) (tbl : List clkctl_acpu_speed) (i : Nat)
    (b0 b : Option Nat) (h : pll2_fixup_loop L tbl i b0 = some b) :
    b = b0 ∨ ∃ j x, b = some (i + j) ∧ tbl[j]? = some x ∧ x.src ≠ PLL_2 := by
  induction tbl generalizing i b0 with
  | nil => simp [pll2_fixup_loop] at h
  | cons s rest ih =>
    by_cases hz : s.acpu_clk_khz = 0
    · simp [pll2_fixup_loop, hz] at h
    · by_cases hsrc : s.src = PLL_2
      · by_cases hm : pll_l_matches L s = true
        · simp [pll2_fixup_loop, hz, hm, hsrc] at h
          exact Or.inl h.symm
        · simp only [Bool.not_eq_true] at hm
          simp [pll2_fixup_loop, hz, hm, hsrc] at h
          rcases ih (i + 1) b0 h with h1 | ⟨j, x, hj, hx, hxs⟩
          · exact Or.inl h1
          · exact Or.inr ⟨j + 1, x, by rw [hj]; congr 1; omega, by simpa using hx, hxs⟩
      · by_cases hm : pll_l_matches L s = true
        · simp [pll2_fixup_loop, hz, hm, hsrc] at h
          exact Or.inr ⟨0, s, by simp [h], by simp, hsrc⟩
        · simp only [Bool.not_eq_true] at hm
          simp [pll2_fixup_loop, hz, hm, hsrc] at h
          rcases ih (i + 1) (some i) h with h1 | ⟨j, x, hj, hx, hxs⟩
          · exact Or.inr ⟨0, s, by simp [h1], by simp, hsrc⟩
          · exact Or.inr ⟨j + 1, x, by rw [hj]; congr 1; omega, by simpa using hx, hxs⟩

theorem acpu_freq_tbl_entries :
    ∀ j < 23, ∀ x, acpu_freq_tbl[j]? = some x → x.acpu_clk_khz ≠ 0 := by
  intro j hj x hx
  have h : ∀ j < 23, (acpu_freq_tbl[j]?.map (fun x => decide (x.acpu_clk_khz ≠ 0))) = some true := by
    decide
  have := h j hj
  rw [hx] at this
  simpa using this

/-- C13: on a sentinel-terminated table, with `L` the low 8 bits of the PLL2
L register: when the first entry whose PLL configuration has that L is at
index `k`, `pll2_fixup` returns with `backup_s` at the last entry up to `k`
whose source is not PLL_2, and changes nothing else; when no entry matches it
does not return; whenever it returns, starting from the zero-initialised
`backup_s`, the entry `backup_s` points to is not PLL_2-sourced; and on the
static table `backup_s` is the 768000 kHz PLL_1 entry (index 10) for every L
of `pll2_tbl`. -/
theorem pll2_fixup_backup (m : Machine) (n : Nat) (s : clkctl_acpu_speed)
    (hs : m.acpu_freq_tbl[n]? = some s) (hz : s.acpu_clk_khz = 0)
    (hnz : ∀ j < n, ∀ x, m.acpu_freq_tbl[j]? = some x → x.acpu_clk_khz ≠ 0) :
    (∀ k e, k < n → m.acpu_freq_tbl[k]? = some e →
      pll_l_matches (m.PLL2_L_VAL &&& 0xFF) e = true →
      (∀ j < k, ∀ x, m.acpu_freq_tbl[j]? = some x →
        pll_l_matches (m.PLL2_L_VAL &&& 0xFF) x = false) →
      ∀ j x, j ≤ k → m.acpu_freq_tbl[j]? = some x → x.src ≠ PLL_2 →
        (∀ t y, j < t → t ≤ k → m.acpu_freq_tbl[t]? = some y → y.src = PLL_2) →
        pll2_fixup m = some { m with backup_s := some j }) ∧
    ((∀ j < n, ∀ x, m.acpu_freq_tbl[j]? = some x →
        pll_l_matches (m.PLL2_L_VAL &&& 0xFF) x = false) → pll2_fixup m = none) ∧
    (∀ m' b, pll2_fixup m = some m' → m.backup_s = none →
      deref m'.acpu_freq_tbl m'.backup_s = some b → b.src ≠ PLL_2) ∧
    (m.acpu_freq_tbl = acpu_freq_tbl → ∀ p ∈ pll2_tbl, m.PLL2_L_VAL &&& 0xFF = p.l →
      pll2_fixup m = some { m with backup_s := some 10 }) := by
  refine ⟨?_, ?_, ?_, ?_⟩
  · intro k e hk he hm hbefore j x hj hx hsrc hlast
    obtain ⟨b, hloop, h1, -⟩ := pll2_fixup_loop_found (m.PLL2_L_VAL &&& 0xFF) m.acpu_freq_tbl
      k e 0 m.backup_s he (hnz k hk e he) hm
      (fun t ht y hy => ⟨hnz t (by omega) y hy, hbefore t ht y hy⟩)
    have hb := h1 j x hj hx hsrc hlast
    simp only [Nat.zero_add] at hb
    simp only [pll2_fixup, hloop, hb]
  · intro hno
    have := pll2_fixup_loop_bug (m.PLL2_L_VAL &&& 0xFF) m.acpu_freq_tbl n s 0 m.backup_s hs hz hno
    simp only [pll2_fixup, this]
  · intro m' b hfix hnone hderef
    unfold pll2_fixup at hfix
    cases hloop : pll2_fixup_loop (m.PLL2_L_VAL &&& 0xFF) m.acpu_freq_tbl 0 m.backup_s with
    | none => simp [hloop] at hfix
    | some r =>
      simp only [hloop, Option.some.injEq] at hfix
      subst hfix
      rcases pll2_fixup_loop_src _ _ _ _ _ hloop with h | ⟨j, x, hj, hx, hxs⟩
      · simp [h, hnone, deref] at hderef
      · simp only [Nat.zero_add] at hj
        simp only [hj, deref, hx, Option.some.injEq] at hderef
        subst hderef
        exact hxs
  · intro htbl p hp hL
    simp only [pll2_fixup, htbl, hL]
    simp only [pll2_tbl, List.mem_cons, List.mem_singleton, List.not_mem_nil, or_false] at hp
    rcases hp with h | h | h | h | h | h | h | h | h | h | h | h <;> subst h <;> rfl

theorem pll2_fixup_backup_witness :
    pll2_fixup (machine_boot 0 4 53 0 0)
        = some { machine_boot 0 4 53 0 0 with backup_s := some 10 } ∧
      pll2_fixup (machine_boot 0 4 7 0 0) = none :=
  ⟨(pll2_fixup_backup (machine_boot 0 4 53 0 0) 23 sentinel rfl rfl acpu_freq_tbl_entries).1
      13 ⟨1, 1024000, PLL_2, 3, 0, UINT_MAX, 1000, VDD_RAW 1000, some ⟨53, 1, 3, 0⟩, 0⟩
      (by decide) rfl rfl
      (fun j hj x hx => by
        have h : ∀ j < 13, (acpu_freq_tbl[j]?.map (pll_l_matches 53)) = some false := by decide
        have := h j hj
        have hx' : acpu_freq_tbl[j]? = some x := hx
        rw [hx'] at this
        simpa using this)
      10 ⟨1, 768000, PLL_1, 2, 0, 153600000, 950, VDD_RAW 950, none, 0⟩
      (by decide) rfl (by decide)
      (fun t y h1 h2 hy => by
        have h : ∀ t < 14, 10 < t →
            (acpu_freq_tbl[t]?.map (fun y => decide (y.src = PLL_2))) = some true := by decide
        have := h t (by omega) h1
        have hy' : acpu_freq_tbl[t]? = some y := hy
        rw [hy'] at this
        simpa using this),
   (pll2_fixup_backup (machine_boot 0 4 7 0 0) 23 sentinel rfl rfl acpu_freq_tbl_entries).2.1
      (fun j hj x hx => by
        have h : ∀ j < 23, (acpu_freq_tbl[j]?.map (pll_l_matches 7)) = some false := by decide
        have := h j hj
        have hx' : acpu_freq_tbl[j]? = some x := hx
        rw [hx'] at this
        simpa using this)⟩

/-! ## Detection of the running speed at boot -/

theorem scan_tbl_found (stop : clkctl_acpu_speed → Bool) (tbl : List clkctl_acpu_speed)
    (k : Nat) (e : clkctl_acpu_speed) (i : Nat)
    (hk : tbl[k]? = some e) (hstop : e.acpu_clk_khz ≠ 0 → stop e = true)
    (hb : ∀ j < k, ∀ x, tbl[j]? = some x → x.acpu_clk_khz ≠ 0 ∧ stop x = false) :
    scan_tbl stop tbl i = some (i + k) := by
  induction tbl generalizing k i with
  | nil => simp at hk
  | cons s rest ih =>
    cases k with
    | zero =>
      simp at hk
      subst hk
      by_cases hz : s.acpu_clk_khz = 0
      · simp [scan_tbl, hz]
      · simp [scan_tbl, hz, hstop hz]
    | succ k' =>
      obtain ⟨hsnz, hsm⟩ := hb 0 (by omega) s (by simp)
      have := ih k' (i + 1) (by simpa using hk)
        (fun j hj x hx => hb (j + 1) (by omega) x (by simpa using hx))
      simp [scan_tbl, hsnz, hsm, this]
      omega

theorem scan_tbl_total (stop : clkctl_acpu_speed → Bool) (tbl : List clkctl_acpu_speed)
    (n : Nat) (s : clkctl_acpu_speed) (i : Nat)
    (hs : tbl[n]? = some s) (hz : s.acpu_clk_khz = 0) :
    ∃ r e, scan_tbl stop tbl i = some (i + r) ∧ r ≤ n ∧ tbl[r]? = some e := by
  induction tbl generalizing n i with
  | nil => simp at hs
  | cons x rest ih =>
    by_cases hx : x.acpu_clk_khz = 0
    · exact ⟨0, x, by simp [scan_tbl, hx], by omega, by simp⟩
    · by_cases hst : stop x = true
      · exact ⟨0, x, by simp [scan_tbl, hx, hst], by omega, by simp⟩
      · cases n with
        | zero =>
          simp at hs
          subst hs
          exact absurd hz hx
        | succ n' =>
          obtain ⟨r, e, hr, hrn, he⟩ := ih n' (i + 1) (by simpa using hs)
          refine ⟨r + 1, e, ?_, by omega, by simpa using he⟩
          simp only [Bool.not_eq_true] at hst
          simp [scan_tbl, hx, hst, hr]
          omega

theorem scan_scpll_found (tbl : List clkctl_acpu_speed) (k : Nat) (e : clkctl_acpu_speed)
    (i : Nat) (hk : tbl[k]? = some e)
    (hstop : ¬ (e.acpu_clk_khz ≠ 0 ∧ e.src ≠ PLL_2 ∧ e.acpu_src_div = 0))
    (hb : ∀ j < k, ∀ x, tbl[j]? = some x →
      x.acpu_clk_khz ≠ 0 ∧ x.src ≠ PLL_2 ∧ x.acpu_src_div = 0) :
    scan_scpll tbl i = some (i + k) := by
  induction tbl generalizing k i with
  | nil => simp at hk
  | cons s rest ih =>
    cases k with
    | zero =>
      simp at hk
      subst hk
      simp only [scan_scpll, if_neg hstop, Nat.add_zero]
    | succ k' =>
      have h0 := hb 0 (by omega) s (by simp)
      have := ih k' (i + 1) (by simpa using hk)
        (fun j hj x hx => hb (j + 1) (by omega) x (by simpa using hx))
      simp only [scan_scpll, if_pos h0, this]
      congr 1
      omega

@[simp] theorem acpuclk_init_finish_current_speed (env : Env) (si : Nat)
    (s : clkctl_acpu_speed) (m : Machine) :
    (acpuclk_init_finish env si s m).drv_state.current_speed = some si := by
  unfold acpuclk_init_finish
  by_cases h : s.src ≥ 0 <;> simp [h, clk_set_min_rate, local_src_enable]

@[simp] theorem acpuclk_init_finish_SCSS_CLK_CTL (env : Env) (si : Nat)
    (s : clkctl_acpu_speed) (m : Machine) :
    (acpuclk_init_finish env si s m).SCSS_CLK_CTL = m.SCSS_CLK_CTL := by
  unfold acpuclk_init_finish
  by_cases h : s.src ≥ 0 <;> simp [h, clk_set_min_rate, local_src_enable]

@[simp] theorem acpuclk_init_finish_SCSS_CLK_SEL (env : Env) (si : Nat)
    (s : clkctl_acpu_speed) (m : Machine) :
    (acpuclk_init_finish env si s m).SCSS_CLK_SEL = m.SCSS_CLK_SEL := by
  unfold acpuclk_init_finish
  by_cases h : s.src ≥ 0 <;> simp [h, clk_set_min_rate, local_src_enable]

@[simp] theorem acpuclk_init_finish_acpu_freq_tbl (env : Env) (si : Nat)
    (s : clkctl_acpu_speed) (m : Machine) :
    (acpuclk_init_finish env si s m).acpu_freq_tbl = m.acpu_freq_tbl := by
  unfold acpuclk_init_finish
  by_cases h : s.src ≥ 0 <;> simp [h, clk_set_min_rate, local_src_enable]

theorem acpuclk_init_finish_trace (env : Env) (si : Nat) (s : clkctl_acpu_speed)
    (m : Machine) :
    (acpuclk_init_finish env si s m).trace = m.trace ++
      ([Op.set_acpu_vdd s (env.msm_spm_set_vdd s.vdd_raw)] ++
        ((if s.src ≥ 0 then [Op.local_src_enable s.src] else []) ++
          [Op.clk_set_min_rate s.axi_clk_hz (env.clk_set_min_rate s.axi_clk_hz)])) := by
  unfold acpuclk_init_finish
  by_cases h : s.src ≥ 0 <;> simp [h, clk_set_min_rate, local_src_enable]

theorem acpuclk_init_tail (env : Env) (m m1 : Machine) (k k2 : Nat)
    (e e2 : clkctl_acpu_speed)
    (hdet : acpuclk_init_detect m = some (some (k, m1)))
    (he : m1.acpu_freq_tbl[k]? = some e)
    (hr : (if e.src = PLL_2 then
        scan_tbl (pll_l_matches (m.PLL2_L_VAL &&& 0xFF)) (m1.acpu_freq_tbl.drop k) k
      else some k) = some k2)
    (he2 : m1.acpu_freq_tbl[k2]? = some e2) :
    acpuclk_init env m = some (acpuclk_init_finish env k2 e2 m1) := by
  simp only [acpuclk_init, hdet, he, hr, he2]

theorem acpuclk_init_detect_raw (m : Machine) (k : Nat) (e : clkctl_acpu_speed)
    (hcore : (m.SCSS_CLK_SEL >>> 1) &&& 0x3 = 0)
    (hk : m.acpu_freq_tbl[k]? = some e) (hnz : e.acpu_clk_khz ≠ 0)
    (hsel : e.acpu_src_sel = live_sel m) (hdiv : e.acpu_src_div = live_div m)
    (hb : ∀ j < k, ∀ x, m.acpu_freq_tbl[j]? = some x →
      x.acpu_clk_khz ≠ 0 ∧ ¬ (x.acpu_src_sel = live_sel m ∧ x.acpu_src_div = live_div m)) :
    acpuclk_init_detect m = some (some (k, m)) := by
  have hscan := scan_tbl_found
    (fun s => decide (s.acpu_src_sel = live_sel m ∧ s.acpu_src_div = live_div m))
    m.acpu_freq_tbl k e 0 hk (fun _ => by simp [hsel, hdiv])
    (fun j hj x hx => ⟨(hb j hj x hx).1, by simpa using (hb j hj x hx).2⟩)
  simp only [Nat.zero_add, live_sel, live_div] at hscan
  simp only [acpuclk_init_detect, hcore, if_true, hscan, hk, hnz, if_false]

theorem acpuclk_init_detect_raw_none (m : Machine) (n : Nat) (s : clkctl_acpu_speed)
    (hcore : (m.SCSS_CLK_SEL >>> 1) &&& 0x3 = 0)
    (hs : m.acpu_freq_tbl[n]? = some s) (hz : s.acpu_clk_khz = 0)
    (hb : ∀ j < n, ∀ x, m.acpu_freq_tbl[j]? = some x →
      x.acpu_clk_khz ≠ 0 ∧ ¬ (x.acpu_src_sel = live_sel m ∧ x.acpu_src_div = live_div m)) :
    acpuclk_init_detect m = some none := by
  have hscan := scan_tbl_found
    (fun s => decide (s.acpu_src_sel = live_sel m ∧ s.acpu_src_div = live_div m))
    m.acpu_freq_tbl n s 0 hs (fun h => absurd hz h)
    (fun j hj x hx => ⟨(hb j hj x hx).1, by simpa using (hb j hj x hx).2⟩)
  simp only [Nat.zero_add, live_sel, live_div] at hscan
  simp only [acpuclk_init_detect, hcore, if_true, hscan, hs, hz]

theorem scan_tbl_drop_found (stop : clkctl_acpu_speed → Bool) (tbl : List clkctl_acpu_speed)
    (k k2 : Nat) (e2 : clkctl_acpu_speed) (hk : k ≤ k2)
    (he2 : tbl[k2]? = some e2) (hstop : e2.acpu_clk_khz ≠ 0 → stop e2 = true)
    (hb : ∀ j, k ≤ j → j < k2 → ∀ x, tbl[j]? = some x →
      x.acpu_clk_khz ≠ 0 ∧ stop x = false) :
    scan_tbl stop (tbl.drop k) k = some k2 := by
  have := scan_tbl_found stop (tbl.drop k) (k2 - k) e2 k
    (by rw [List.getElem?_drop]; rw [← he2]; congr 1; omega) hstop
    (fun j hj x hx => hb (k + j) (by omega) (by omega) x (by rw [← hx, List.getElem?_drop]))
  rw [this]
  congr 1
  omega

/-- C15: when the core-mux field (bits 2:1 of `SCSS_CLK_SEL`) is 0, on a
sentinel-terminated table, with (sel, div) decoded from the live half of
`SCSS_CLK_CTL` and `L` the low 8 bits of the PLL2 L register: if the first
entry with that `acpu_src_sel` and `acpu_src_div` is at index `k`,
`acpuclk_init` sets `drv_state.current_speed` to `k` when that entry is not
PLL_2-sourced, and to the first entry at or after `k` whose `pll_rate->l` is
`L` when it is; if no entry matches (sel, div), `acpuclk_init` returns with
the state as it was, trace included, so that no active entry is set and no
regulator write, source enable or bus-vote request is made. -/
theorem acpuclk_init_raw_mux (env : Env) (m : Machine) (n : Nat) (s : clkctl_acpu_speed)
    (hcore : (m.SCSS_CLK_SEL >>> 1) &&& 0x3 = 0)
    (hs : m.acpu_freq_tbl[n]? = some s) (hz : s.acpu_clk_khz = 0)
    (hnz : ∀ j < n, ∀ x, m.acpu_freq_tbl[j]? = some x → x.acpu_clk_khz ≠ 0) :
    (∀ k e, k < n → m.acpu_freq_tbl[k]? = some e →
      e.acpu_src_sel = live_sel m → e.acpu_src_div = live_div m →
      (∀ j < k, ∀ x, m.acpu_freq_tbl[j]? = some x →
        ¬ (x.acpu_src_sel = live_sel m ∧ x.acpu_src_div = live_div m)) →
      (e.src ≠ PLL_2 →
        ∃ m', acpuclk_init env m = some m' ∧ m'.drv_state.current_speed = some k) ∧
      (e.src = PLL_2 → ∀ k2 e2, k ≤ k2 → k2 < n → m.acpu_freq_tbl[k2]? = some e2 →
        pll_l_matches (m.PLL2_L_VAL &&& 0xFF) e2 = true →
        (∀ j, k ≤ j → j < k2 → ∀ x, m.acpu_freq_tbl[j]? = some x →
          pll_l_matches (m.PLL2_L_VAL &&& 0xFF) x = false) →
        ∃ m', acpuclk_init env m = some m' ∧ m'.drv_state.current_speed = some k2)) ∧
    ((∀ j < n, ∀ x, m.acpu_freq_tbl[j]? = some x →
        ¬ (x.acpu_src_sel = live_sel m ∧ x.acpu_src_div = live_div m)) →
      acpuclk_init env m = some m) := by
  refine ⟨?_, ?_⟩
  · intro k e hk he hsel hdiv hbefore
    have hdet := acpuclk_init_detect_raw m k e hcore he (hnz k hk e he) hsel hdiv
      (fun j hj x hx => ⟨hnz j (by omega) x hx, hbefore j hj x hx⟩)
    refine ⟨?_, ?_⟩
    · intro hsrc
      exact ⟨_, acpuclk_init_tail env m m k k e e hdet he (by simp [hsrc]) he, by simp⟩
    · intro hsrc k2 e2 hkk hk2 he2 hm hbetween
      have hscan := scan_tbl_drop_found (pll_l_matches (m.PLL2_L_VAL &&& 0xFF))
        m.acpu_freq_tbl k k2 e2 hkk he2 (fun _ => hm)
        (fun j hj1 hj2 x hx => ⟨hnz j (by omega) x hx, hbetween j hj1 hj2 x hx⟩)
      exact ⟨_, acpuclk_init_tail env m m k k2 e e2 hdet he (by simp [hsrc, hscan]) he2,
        by simp⟩
  · intro hno
    have hdet := acpuclk_init_detect_raw_none m n s hcore hs hz
      (fun j hj x hx => ⟨hnz j hj x hx, hno j hj x hx⟩)
    simp only [acpuclk_init, hdet]

theorem acpuclk_init_raw_mux_witness :
    (∃ m', acpuclk_init env_ok (machine_boot 0x2000 0 53 0 0) = some m' ∧
        m'.drv_state.current_speed = some 7) ∧
      (∃ m', acpuclk_init env_ok (machine_boot 0x3000 0 53 0 0) = some m' ∧
        m'.drv_state.current_speed = some 13) ∧
      acpuclk_init env_ok (machine_boot 0x7700 0 53 0 0) = some (machine_boot 0x7700 0 53 0 0) :=
  ⟨((acpuclk_init_raw_mux env_ok (machine_boot 0x2000 0 53 0 0) 23 sentinel rfl rfl rfl
        acpu_freq_tbl_entries).1 7
      ⟨1, 460800, PLL_1, 2, 0, 153600000, 900, VDD_RAW 900, none, 0⟩ (by decide) rfl rfl rfl
      (fun j hj x hx => (by decide : ∀ j < 7, ∀ x ∈ acpu_freq_tbl[j]?,
        ¬ (x.acpu_src_sel = live_sel (machine_boot 0x2000 0 53 0 0) ∧
          x.acpu_src_div = live_div (machine_boot 0x2000 0 53 0 0))) j hj x hx)).1 (by decide),
   ((acpuclk_init_raw_mux env_ok (machine_boot 0x3000 0 53 0 0) 23 sentinel rfl rfl rfl
        acpu_freq_tbl_entries).1 11
      ⟨1, 806400, PLL_2, 3, 0, UINT_MAX, 1000, VDD_RAW 1000, some ⟨42, 0, 1, 0⟩, 0⟩
      (by decide) rfl rfl rfl
      (fun j hj x hx => (by decide : ∀ j < 11, ∀ x ∈ acpu_freq_tbl[j]?,
        ¬ (x.acpu_src_sel = live_sel (machine_boot 0x3000 0 53 0 0) ∧
          x.acpu_src_div = live_div (machine_boot 0x3000 0 53 0 0))) j hj x hx)).2 rfl 13
      ⟨1, 1024000, PLL_2, 3, 0, UINT_MAX, 1000, VDD_RAW 1000, some ⟨53, 1, 3, 0⟩, 0⟩
      (by decide) (by decide) rfl rfl
      (fun j h1 h2 x hx => (by decide : ∀ j < 13, 11 ≤ j → ∀ x ∈ acpu_freq_tbl[j]?,
        pll_l_matches 53 x = false) j h2 h1 x hx),
   (acpuclk_init_raw_mux env_ok (machine_boot 0x7700 0 53 0 0) 23 sentinel rfl rfl rfl
        acpu_freq_tbl_entries).2
      (fun j hj x hx => (by decide : ∀ j < 23, ∀ x ∈ acpu_freq_tbl[j]?,
        ¬ (x.acpu_src_sel = live_sel (machine_boot 0x7700 0 53 0 0) ∧
          x.acpu_src_div = live_div (machine_boot 0x7700 0 53 0 0))) j hj x hx)⟩

/-! ## Boot from the core mux -/

/-- C14, at the failing input: on the static table, with the core-mux field 2
and the PLL2 L value 53 (the 1024000 kHz entry), `pll2_fixup` sets `backup_s`
to the 768000 kHz entry (sel 2, div 0), and `acpuclk_init` then switches the
raw mux to sel 5, div 11, the 61440 kHz PLL_3 entry at which the scan of lines
402-404 stops, and makes that entry `drv_state.current_speed`. -/
theorem acpuclk_init_core_mux_not_backup :
    ((machine_boot 0x3000 4 53 0 0).SCSS_CLK_SEL >>> 1) &&& 0x3 = 2 ∧
    scan_scpll acpu_freq_tbl 0 = some 1 ∧
    ((pll2_fixup (machine_boot 0x3000 4 53 0 0)).bind (acpuclk_init env_ok)).map
        (fun m => (m.backup_s, live_sel m, live_div m, m.drv_state.current_speed,
          m.trace.head?))
      = some (some 10, 5, 11, some 1,
          some (Op.set_src ⟨0, 61440, PLL_3, 5, 11, 61440000, 900, VDD_RAW 900, none, 0⟩)) ∧
    acpu_freq_tbl[10]?.map (fun b => (b.acpu_src_sel, b.acpu_src_div)) = some (2, 0) ∧
    acpu_freq_tbl[1]?.map (fun s => (s.src, s.pll_rate)) = some (PLL_3, none) ∧
    acpu_freq_tbl[13]?.map (fun s => (s.src, s.pll_rate.map (fun p => p.l))) = some (PLL_2, some 53) := by
  decide

/-! ## What a mux switch keeps -/

theorem field_hi_keeps (c a d : Nat) (hc : c < 2 ^ 32) (ha : a ≤ 7) (hd : d ≤ 15) (i : Nat)
    (hi : i < 8 ∨ 16 ≤ i) :
    (((c &&& (0xFFFFFFFF ^^^ (0xFF <<< 8))) ||| ((a <<< 12) % 2 ^ 32)) |||
      ((d <<< 8) % 2 ^ 32)).testBit i = c.testBit i := by
  have hm : (0xFFFFFFFF ^^^ (0xFF <<< 8) : Nat) = (2 ^ 32 - 1) ^^^ ((2 ^ 8 - 1) <<< 8) := rfl
  have hab := testBit_small a 3 (by omega)
  have hdb := testBit_small d 4 (by omega)
  have hcb := testBit_small c 32 hc
  rw [hm]
  simp only [Nat.testBit_and, Nat.testBit_shiftRight, Nat.testBit_or, Nat.testBit_xor,
    Nat.testBit_mod_two_pow, Nat.testBit_shiftLeft, Nat.testBit_two_pow_sub_one]
  rcases hi with hi | hi
  · have h1 : ¬ i ≥ 12 := by omega
    have h2 : ¬ i ≥ 8 := by omega
    have h3 : i < 32 := by omega
    simp [h1, h2, h3]
  · have h1 : i ≥ 12 := by omega
    have h2 : i ≥ 8 := by omega
    have h3 : ¬ i - 8 < 8 := by omega
    by_cases h4 : i < 32
    · simp [h1, h2, h3, h4, hab (i - 12) (by omega), hdb (i - 8) (by omega)]
    · simp [h1, h2, h3, h4, hcb i (by omega)]

theorem field_lo_keeps (c a d : Nat) (hc : c < 2 ^ 32) (ha : a ≤ 7) (hd : d ≤ 15) (i : Nat)
    (hi : 8 ≤ i) :
    (((c &&& (0xFFFFFFFF ^^^ (0xFF <<< 0))) ||| ((a <<< 4) % 2 ^ 32)) |||
      ((d <<< 0) % 2 ^ 32)).testBit i = c.testBit i := by
  have hm : (0xFFFFFFFF ^^^ (0xFF <<< 0) : Nat) = (2 ^ 32 - 1) ^^^ ((2 ^ 8 - 1) <<< 0) := rfl
  have hab := testBit_small a 3 (by omega)
  have hdb := testBit_small d 4 (by omega)
  have hcb := testBit_small c 32 hc
  rw [hm]
  simp only [Nat.testBit_and, Nat.testBit_shiftRight, Nat.testBit_or, Nat.testBit_xor,
    Nat.testBit_mod_two_pow, Nat.testBit_shiftLeft, Nat.testBit_two_pow_sub_one]
  have h1 : i ≥ 4 := by omega
  have h3 : ¬ i < 8 := by omega
  by_cases h4 : i < 32
  · simp [h1, h3, h4, hab (i - 4) (by omega), hdb i (by omega)]
  · simp [h1, h3, h4, hcb i (by omega)]

theorem xor_one_testBit (k i : Nat) :
    (k ^^^ 1).testBit i = if i = 0 then !k.testBit 0 else k.testBit i := by
  rw [Nat.testBit_xor]
  by_cases hi : i = 0
  · subst hi
    simp
  · have : (1 : Nat).testBit i = false := testBit_small 1 1 (by norm_num) i (by omega)
    simp [hi, this]

/-- C18: for every 32-bit value of `SCSS_CLK_CTL`, every value of
`SCSS_CLK_SEL` and every entry `s` with `acpu_src_sel <= 7` and
`acpu_src_div <= 15`, `acpuclk_set_src(s)` (i) leaves unchanged the bits of
`SCSS_CLK_CTL` in the byte that was live before the call (bits 15:8 when bit 0
of `SCSS_CLK_SEL` was 0, bits 7:0 when it was 1) and all bits above bit 15,
(ii) toggles bit 0 of `SCSS_CLK_SEL` and leaves its other bits unchanged, and
(iii) makes the boot detector's decoding of the new live half equal to
`(s.acpu_src_sel, s.acpu_src_div)`. -/
theorem acpuclk_set_src_double_buffer (s : clkctl_acpu_speed) (m : Machine)
    (hctl : m.SCSS_CLK_CTL < 2 ^ 32)
    (hsel : s.acpu_src_sel ≤ 7) (hdiv : s.acpu_src_div ≤ 15) :
    (∀ i, (8 - 8 * (m.SCSS_CLK_SEL &&& 0x1) ≤ i ∧ i < 16 - 8 * (m.SCSS_CLK_SEL &&& 0x1)) ∨
        16 ≤ i →
      (acpuclk_set_src s m).SCSS_CLK_CTL.testBit i = m.SCSS_CLK_CTL.testBit i) ∧
    (acpuclk_set_src s m).SCSS_CLK_SEL.testBit 0 = (!m.SCSS_CLK_SEL.testBit 0) ∧
    (∀ i, 0 < i →
      (acpuclk_set_src s m).SCSS_CLK_SEL.testBit i = m.SCSS_CLK_SEL.testBit i) ∧
    live_sel (acpuclk_set_src s m) = s.acpu_src_sel ∧
    live_div (acpuclk_set_src s m) = s.acpu_src_div := by
  have hlive := live_of_regs (acpuclk_set_src s m) s m.SCSS_CLK_CTL m.SCSS_CLK_SEL hsel hdiv
    (by simp) (by simp)
  refine ⟨?_, ?_, ?_, hlive.1, hlive.2⟩
  · intro i hi
    simp only [acpuclk_set_src_SCSS_CLK_CTL]
    rcases Nat.mod_two_eq_zero_or_one m.SCSS_CLK_SEL with h0 | h0
    · simp only [set_src_regs, Nat.and_one_is_mod, h0] at hi ⊢
      exact field_lo_keeps _ _ _ hctl hsel hdiv i (by omega)
    · simp only [set_src_regs, Nat.and_one_is_mod, h0] at hi ⊢
      exact field_hi_keeps _ _ _ hctl hsel hdiv i (by omega)
  · simp only [acpuclk_set_src_SCSS_CLK_SEL, set_src_regs, xor_one_testBit, if_true]
  · intro i hi
    have : i ≠ 0 := by omega
    simp only [acpuclk_set_src_SCSS_CLK_SEL, set_src_regs, xor_one_testBit, this, if_false]

theorem acpuclk_set_src_double_buffer_witness :
    (∀ i, (8 - 8 * ((machine_at 2).SCSS_CLK_SEL &&& 0x1) ≤ i ∧
          i < 16 - 8 * ((machine_at 2).SCSS_CLK_SEL &&& 0x1)) ∨ 16 ≤ i →
      (acpuclk_set_src ⟨1, 768000, PLL_1, 2, 0, 153600000, 950, VDD_RAW 950, none, 0⟩
        (machine_at 2)).SCSS_CLK_CTL.testBit i = (machine_at 2).SCSS_CLK_CTL.testBit i) ∧
    (acpuclk_set_src ⟨1, 768000, PLL_1, 2, 0, 153600000, 950, VDD_RAW 950, none, 0⟩
        (machine_at 2)).SCSS_CLK_SEL.testBit 0 = (!(machine_at 2).SCSS_CLK_SEL.testBit 0) ∧
    (∀ i, 0 < i →
      (acpuclk_set_src ⟨1, 768000, PLL_1, 2, 0, 153600000, 950, VDD_RAW 950, none, 0⟩
        (machine_at 2)).SCSS_CLK_SEL.testBit i = (machine_at 2).SCSS_CLK_SEL.testBit i) ∧
    live_sel (acpuclk_set_src ⟨1, 768000, PLL_1, 2, 0, 153600000, 950, VDD_RAW 950, none, 0⟩
        (machine_at 2)) = 2 ∧
    live_div (acpuclk_set_src ⟨1, 768000, PLL_1, 2, 0, 153600000, 950, VDD_RAW 950, none, 0⟩
        (machine_at 2)) = 0 :=
  acpuclk_set_src_double_buffer
    ⟨1, 768000, PLL_1, 2, 0, 153600000, 950, VDD_RAW 950, none, 0⟩ (machine_at 2)
    (by decide) (by decide) (by decide)

/-! ## Tuning the voltage of an entry -/

theorem tdiv_step (vdd : Int) :
    ∃ q : Int, Int.tdiv vdd V_STEP * V_STEP = 25 * q ∧
      (0 ≤ vdd → 0 ≤ 25 * q ∧ 25 * q ≤ vdd) ∧ (vdd < 0 → vdd ≤ 25 * q ∧ 25 * q ≤ 0) := by
  have hV : (V_STEP : Int) = 25 := rfl
  rw [hV]
  refine ⟨Int.tdiv vdd 25, by ring, ?_, ?_⟩
  · intro h
    rw [Int.tdiv_eq_ediv h (by norm_num)]
    omega
  · intro h
    obtain ⟨a, ha⟩ : ∃ a : Int, vdd = -a := ⟨-vdd, by omega⟩
    subst ha
    rw [Int.neg_tdiv, Int.tdiv_eq_ediv (by omega) (by norm_num)]
    omega

theorem clamp_step (x : Nat) (h : x % 25 = 0 ∨ 2 ^ 31 ≤ x) :
    (min (max x 600) 1525) % 25 = 0 ∧ min (max x 600) 1525 < 2 ^ 31 := by
  rcases h with h | h
  · by_cases h1 : x ≤ 600
    · rw [max_eq_right h1]
      decide
    · rw [max_eq_left (by omega)]
      by_cases h2 : x ≤ 1525
      · rw [min_eq_left h2]
        exact ⟨h, by omega⟩
      · rw [min_eq_right (by omega)]
        decide
  · rw [max_eq_left (by omega), min_eq_right (by omega)]
    decide

theorem wrap_step (a : Nat) (q : Int) (ha : a % 25 = 0 ∧ a < 2 ^ 31)
    (hq : -2 ^ 31 ≤ 25 * q ∧ 25 * q < 2 ^ 31) :
    ((a + ((25 * q) % 2 ^ 32).toNat) % 2 ^ 32) % 25 = 0 ∨
      2 ^ 31 ≤ (a + ((25 * q) % 2 ^ 32).toNat) % 2 ^ 32 := by
  obtain ⟨w, hw⟩ : ∃ w : Nat, ((25 * q) % 2 ^ 32).toNat = w := ⟨_, rfl⟩
  rw [hw]
  have hwi : (w : Int) = (25 * q) % 2 ^ 32 := by
    rw [← hw, Int.toNat_of_nonneg (by omega)]
  by_cases h : 0 ≤ 25 * q
  · have hw1 : (w : Int) = 25 * q := by omega
    have hlt : a + w < 2 ^ 32 := by omega
    rw [Nat.mod_eq_of_lt hlt]
    left
    omega
  · have hw1 : (w : Int) = 25 * q + 2 ^ 32 := by omega
    by_cases h2 : 0 ≤ (a : Int) + 25 * q
    · obtain ⟨y, hy⟩ : ∃ y : Nat, (y : Int) = a + 25 * q := ⟨((a : Int) + 25 * q).toNat, by omega⟩
      have hay : a + w = y + 2 ^ 32 := by omega
      have hylt : y < 2 ^ 32 := by omega
      rw [hay, Nat.add_mod_right, Nat.mod_eq_of_lt hylt]
      left
      omega
    · have hlt : a + w < 2 ^ 32 := by omega
      rw [Nat.mod_eq_of_lt hlt]
      right
      omega

theorem wrap_cast_step (q : Int) (hq : -2 ^ 31 ≤ 25 * q ∧ 25 * q < 2 ^ 31) :
    ((25 * q) % 2 ^ 32).toNat % 25 = 0 ∨ 2 ^ 31 ≤ ((25 * q) % 2 ^ 32).toNat := by
  obtain ⟨w, hw⟩ : ∃ w : Nat, ((25 * q) % 2 ^ 32).toNat = w := ⟨_, rfl⟩
  rw [hw]
  have hwi : (w : Int) = (25 * q) % 2 ^ 32 := by
    rw [← hw, Int.toNat_of_nonneg (by omega)]
  by_cases h : 0 ≤ 25 * q
  · have hw1 : (w : Int) = 25 * q := by omega
    left
    omega
  · have hw1 : (w : Int) = 25 * q + 2 ^ 32 := by omega
    right
    omega

theorem acpuclk_set_vdd_entry_step (khz : Nat) (q : Int) (s : clkctl_acpu_speed)
    (hq : -2 ^ 31 ≤ 25 * q ∧ 25 * q < 2 ^ 31)
    (hs : s.vdd_mv % V_STEP = 0 ∧ s.vdd_mv < 2 ^ 31) :
    (acpuclk_set_vdd_entry khz (25 * q) s).vdd_mv % V_STEP = 0 ∧
      (acpuclk_set_vdd_entry khz (25 * q) s).vdd_mv < 2 ^ 31 := by
  have hV : V_STEP = 25 := rfl
  rw [hV] at hs ⊢
  unfold acpuclk_set_vdd_entry
  by_cases h1 : s.use_for_scaling = 1
  · by_cases h2 : khz = 0
    · simp only [h1, h2, if_true]
      exact clamp_step _ (wrap_step s.vdd_mv q hs hq)
    · by_cases h3 : s.acpu_clk_khz = khz
      · simp only [h1, h2, h3, if_true, if_false]
        exact clamp_step _ (wrap_cast_step q hq)
      · simp only [h1, h2, h3, if_true, if_false]
        exact hs
  · simp only [h1, if_false]
    exact hs

theorem acpuclk_set_vdd_loop_step (khz : Nat) (q : Int) (tbl : List clkctl_acpu_speed)
    (hq : -2 ^ 31 ≤ 25 * q ∧ 25 * q < 2 ^ 31)
    (h : ∀ e ∈ tbl, e.vdd_mv % V_STEP = 0 ∧ e.vdd_mv < 2 ^ 31) :
    ∀ e ∈ acpuclk_set_vdd_loop khz (25 * q) tbl, e.vdd_mv % V_STEP = 0 ∧ e.vdd_mv < 2 ^ 31 := by
  induction tbl with
  | nil => simp [acpuclk_set_vdd_loop]
  | cons s rest ih =>
    intro e he
    by_cases hz : s.acpu_clk_khz = 0
    · simp only [acpuclk_set_vdd_loop, hz, ne_eq, not_true_eq_false, if_false] at he
      exact h e he
    · simp only [acpuclk_set_vdd_loop, ne_eq, hz, not_false_eq_true, if_true,
        List.mem_cons] at he
      rcases he with he | he
      · subst he
        exact acpuclk_set_vdd_entry_step khz q s hq (h s (List.mem_cons_self _ _))
      · exact ih (fun x hx => h x (List.mem_cons_of_mem _ hx)) e he

theorem acpuclk_set_vdd_step (khz : Nat) (vdd : Int) (m : Machine)
    (hvdd : -2 ^ 31 ≤ vdd ∧ vdd < 2 ^ 31)
    (h : ∀ e ∈ m.acpu_freq_tbl, e.vdd_mv % V_STEP = 0 ∧ e.vdd_mv < 2 ^ 31) :
    ∀ e ∈ (acpuclk_set_vdd khz vdd m).acpu_freq_tbl,
      e.vdd_mv % V_STEP = 0 ∧ e.vdd_mv < 2 ^ 31 := by
  obtain ⟨q, hq, hpos, hneg⟩ := tdiv_step vdd
  simp only [acpuclk_set_vdd, hq]
  apply acpuclk_set_vdd_loop_step khz q m.acpu_freq_tbl _ h
  by_cases hv : 0 ≤ vdd
  · have := hpos hv
    omega
  · have := hneg (by omega)
    omega

theorem acpuclk_set_vdd_calls_step (calls : List (Nat × Int)) (m : Machine)
    (hint : ∀ c ∈ calls, -2 ^ 31 ≤ c.2 ∧ c.2 < 2 ^ 31)
    (h : ∀ e ∈ m.acpu_freq_tbl, e.vdd_mv % V_STEP = 0 ∧ e.vdd_mv < 2 ^ 31) :
    ∀ e ∈ (calls.foldl (fun m c => acpuclk_set_vdd c.1 c.2 m) m).acpu_freq_tbl,
      e.vdd_mv % V_STEP = 0 ∧ e.vdd_mv < 2 ^ 31 := by
  induction calls generalizing m with
  | nil => simpa using h
  | cons c rest ih =>
    simp only [List.foldl_cons]
    exact ih _ (fun x hx => hint x (List.mem_cons_of_mem _ hx))
      (acpuclk_set_vdd_step c.1 c.2 m (hint c (List.mem_cons_self _ _)) h)

/-- C19: every entry of the static `acpu_freq_tbl` has a `vdd_mv` that is a
multiple of `V_STEP`, and after any sequence of calls `acpuclk_set_vdd(khz,
vdd)` on it, for every `khz` and every `int` value `vdd` (negative ones
included, where the unsigned addition wraps), every entry still has, so that
the divisor `!(mv % V_STEP)` of `MV()` is not zero for any voltage the table
holds. -/
theorem acpuclk_set_vdd_keeps_step (calls : List (Nat × Int)) (m : Machine)
    (htbl : m.acpu_freq_tbl = acpu_freq_tbl)
    (hint : ∀ c ∈ calls, -2 ^ 31 ≤ c.2 ∧ c.2 < 2 ^ 31) :
    (∀ e ∈ acpu_freq_tbl, e.vdd_mv % V_STEP = 0) ∧
    ∀ e ∈ (calls.foldl (fun m c => acpuclk_set_vdd c.1 c.2 m) m).acpu_freq_tbl,
      e.vdd_mv % V_STEP = 0 ∧ MV_divisor e.vdd_mv ≠ 0 := by
  have hstatic : ∀ e ∈ acpu_freq_tbl, e.vdd_mv % V_STEP = 0 ∧ e.vdd_mv < 2 ^ 31 := by decide
  refine ⟨fun e he => (hstatic e he).1, ?_⟩
  intro e he
  have := acpuclk_set_vdd_calls_step calls m hint (by rw [htbl]; exact hstatic) e he
  refine ⟨this.1, ?_⟩
  simp [MV_divisor, this.1]

theorem acpuclk_set_vdd_keeps_step_witness :
    (∀ e ∈ acpu_freq_tbl, e.vdd_mv % V_STEP = 0) ∧
    ∀ e ∈ ([(0, -1000), (768000, -25), (0, 2147483647)].foldl
        (fun m (c : Nat × Int) => acpuclk_set_vdd c.1 c.2 m) (machine_at 0)).acpu_freq_tbl,
      e.vdd_mv % V_STEP = 0 ∧ MV_divisor e.vdd_mv ≠ 0 :=
  acpuclk_set_vdd_keeps_step [(0, -1000), (768000, -25), (0, 2147483647)] (machine_at 0) rfl
    (by decide)

/-- C16, at the failing inputs: on the static table `acpuclk_set_vdd(768000,
-25)` stores 1525 mV in the 768000 kHz entry, and `acpuclk_set_vdd(0, -1000)`
stores 1525 mV in it too (950 - 1000 wraps as an unsigned sum), where the
integer clamp to [600, 1525] of -25 and of 950 - 1000 is 600. -/
theorem acpuclk_set_vdd_negative_request :
    ((acpuclk_set_vdd 768000 (-25) (machine_at 10)).acpu_freq_tbl[10]?).map
        (fun e => (e.acpu_clk_khz, e.use_for_scaling, e.vdd_mv)) = some (768000, 1, 1525) ∧
    ((acpuclk_set_vdd 0 (-1000) (machine_at 10)).acpu_freq_tbl[10]?).map
        (fun e => (e.acpu_clk_khz, e.use_for_scaling, e.vdd_mv)) = some (768000, 1, 1525) ∧
    ((machine_at 10).acpu_freq_tbl[10]?).map (fun e => e.vdd_mv) = some 950 ∧
    min (max (Int.tdiv (-25) V_STEP * V_STEP) 600) 1525 = 600 ∧
    min (max ((950 : Int) + Int.tdiv (-1000) V_STEP * V_STEP) 600) 1525 = 600 := by
  decide

/-- C17, at the failing inputs: `VDD_RAW(1550)`, the raw code of the 1900800
kHz entry of the static table, is 0xE0, the code of 750 mV, so that the
documented formula decodes it to 750 mV; and `VDD_RAW(600)`, the code that
`acpuclk_set_vdd(0, -300)` stores in the 460800 kHz entry, is 0xFFFFFFFA,
which is not an 8-bit value. -/
theorem VDD_RAW_out_of_range :
    acpu_freq_tbl[22]?.map (fun e => (e.acpu_clk_khz, e.vdd_mv, e.vdd_raw))
      = some (1900800, 1550, 0xE0) ∧
    VDD_RAW 1550 = 0xE0 ∧ VDD_RAW 750 = 0xE0 ∧
    750 + 25 * (VDD_RAW 1550 &&& (0xFFFFFFFF ^^^ VREG_DATA)) = 750 ∧
    ((acpuclk_set_vdd 0 (-300) (machine_at 7)).acpu_freq_tbl[7]?).map
        (fun e => (e.acpu_clk_khz, e.vdd_mv, e.vdd_raw)) = some (460800, 600, 0xFFFFFFFA) ∧
    VDD_RAW 600 = 0xFFFFFFFA ∧ ¬ VDD_RAW 600 < 2 ^ 8 := by
  decide

end Acpuclock
